import Mathlib

/-! # HPX dispatch core: `unique_function_base` and the applier adapters

A shallow embedding of

* `hpx/util/detail/preprocessed/unique_function_5.hpp`: the move-only,
  type-erased callable `unique_function_base`.  The header repeats one
  class body for the call signatures `R()`, `R(A0)`, ...; the bodies differ
  only in the signature and in the argument list of `operator()`, so the
  embedding is written once, indexed by the arity; the bodies are also
  embedded one by one, to compare the specialisations with each other.
* `src/runtime/applier/applier.cpp`: the `register_thread*` /
  `register_work*` adapters and the thread-local applier binding.

A closure object is the pair `(vptr, object)` of the source.  `object` is
the pointer-wide slot, kept as a natural number (the value of the word);
closure objects live in a store indexed by their address so that the
aliasing tests of the source (`this == &f`, `this != &t`) are tests on
addresses.
-/

set_option linter.dupNamespace false

namespace hpx
namespace util
namespace detail

/-- Identity of a concrete callable type (`util::decay<Functor>::type`). -/
abbrev TypeId := Nat

/-- A callable value handed to a closure: its concrete type and its object
representation, read as a little-endian number. -/
structure Callable where
  type : TypeId
  repr : Nat
deriving DecidableEq, Repr

/-- What the class body takes from its surroundings: `sizeof(void *)`,
`sizeof(functor_type)` and `detail::is_empty_function`. -/
structure Env where
  ptr_size : Nat
  sizeof : TypeId → Nat
  is_empty_function : Callable → Bool

/-- A pointer to an operation table.  Tables are shared by identity: one
canonical empty table per signature and one table per concrete type. -/
inductive vtable_ptr where
  | empty_table
  | table (F : TypeId)
deriving DecidableEq, Repr

/-- Modelled from the spec: the table operation `vptr->empty()`, declared in
the vtable headers; it answers whether the table is the canonical empty
table of the signature. -/
def vtable_ptr.empty : vtable_ptr → Bool
  | .empty_table => true
  | .table _ => false

/-- The heap: the live callable stored at each address, if any. -/
abbrev Heap := Nat → Option Callable

/-- Modelled from the spec: the table operation `destruct(slot)`, declared in
the vtable headers; it ends the lifetime of the held value.  The empty table
does nothing, an inline value has no heap footprint, a boxed value sits in
the block the slot points to. -/
def vtable_ptr.destruct (env : Env) (vptr : vtable_ptr) (object : Nat) (heap : Heap) : Heap :=
  match vptr with
  | .empty_table => heap
  | .table F =>
    if env.sizeof F ≤ env.ptr_size then heap else Function.update heap object none

/-- Modelled from the spec: the table operation `static_delete(slot)`,
declared in the vtable headers; destruct, then deallocate if boxed. -/
def vtable_ptr.static_delete (env : Env) (vptr : vtable_ptr) (object : Nat) (heap : Heap) : Heap :=
  match vptr with
  | .empty_table => heap
  | .table F =>
    if env.sizeof F ≤ env.ptr_size then heap else Function.update heap object none

/-- The members of `unique_function_base<R(A0, ...), IArchive, OArchive>`. -/
structure unique_function_base (arity : Nat) where
  vptr : vtable_ptr
  object : Nat
deriving DecidableEq, Repr

/-- What a member function does besides writing `vptr` and `object`, in
program order. -/
inductive Event where
  /-- The call `vptr->static_delete(&object)`. -/
  | static_delete (vptr : vtable_ptr) (object : Nat)
  /-- The call `vptr->destruct(&object)`. -/
  | destruct (vptr : vtable_ptr) (object : Nat)
  /-- The expression `new (&object) functor_type(f)`. -/
  | placement_new_slot (f : Callable)
  /-- The expression `new (object) functor_type(f)`. -/
  | placement_new_block (object : Nat) (f : Callable)
  /-- The expression `new functor_type(f)`, with the address it returned. -/
  | new_block (object : Nat) (f : Callable)
  /-- The call `vptr->invoke(&object, ...)`, with the number of arguments. -/
  | invoke (vptr : vtable_ptr) (object : Nat) (nargs : Nat)
deriving DecidableEq, Repr

/-- The closures of one signature, the heap and the trace of events. -/
structure State (arity : Nat) where
  objs : Nat → unique_function_base arity
  heap : Heap
  brk : Nat
  trace : List Event

variable {arity : Nat}

/-- `get_empty_table_ptr()`. -/
def get_empty_table_ptr : vtable_ptr := .empty_table

/-- `get_table_ptr<Functor>()`. -/
def get_table_ptr (F : TypeId) : vtable_ptr := .table F

/-- The assignment `vptr = v` in the object at `this`. -/
def State.set_vptr (s : State arity) (this : Nat) (v : vtable_ptr) : State arity :=
  { s with objs := Function.update s.objs this { s.objs this with vptr := v } }

/-- The assignment `object = o` in the object at `this`. -/
def State.set_object (s : State arity) (this : Nat) (o : Nat) : State arity :=
  { s with objs := Function.update s.objs this { s.objs this with object := o } }

/-- The word left in a slot holding `object` after the `size` low bytes are
overwritten with the representation `repr`. -/
def store_inline (size object repr : Nat) : Nat :=
  object / 256 ^ size * 256 ^ size + repr % 256 ^ size

/-- `new (&object) functor_type(std::forward<Functor>(f))`: the callable is
constructed over the bytes of the slot itself. -/
def State.placement_new_slot (env : Env) (s : State arity) (this : Nat) (f : Callable) :
    State arity :=
  let s := s.set_object this (store_inline (env.sizeof f.type) (s.objs this).object f.repr)
  { s with trace := s.trace ++ [Event.placement_new_slot f] }

/-- `new (object) functor_type(std::forward<Functor>(f))`: the callable is
constructed into the heap block the slot points to. -/
def State.placement_new_block (s : State arity) (this : Nat) (f : Callable) : State arity :=
  { s with heap := Function.update s.heap (s.objs this).object (some f)
           trace := s.trace ++ [Event.placement_new_block (s.objs this).object f] }

/-- `object = new functor_type(std::forward<Functor>(f))`: a fresh block,
never at the null address, receives the callable and the slot points to it. -/
def State.new_block (s : State arity) (this : Nat) (f : Callable) : State arity :=
  let addr := s.brk + 1
  let s := { s with heap := Function.update s.heap addr (some f)
                    brk := addr
                    trace := s.trace ++ [Event.new_block addr f] }
  s.set_object this addr

/-- `vptr->destruct(&object)`. -/
def State.call_destruct (env : Env) (s : State arity) (this : Nat) : State arity :=
  let c := s.objs this
  { s with heap := c.vptr.destruct env c.object s.heap
           trace := s.trace ++ [Event.destruct c.vptr c.object] }

/-- `vptr->static_delete(&object)`. -/
def State.call_static_delete (env : Env) (s : State arity) (this : Nat) : State arity :=
  let c := s.objs this
  { s with heap := c.vptr.static_delete env c.object s.heap
           trace := s.trace ++ [Event.static_delete c.vptr c.object] }

/-- `unique_function_base()`. -/
def default_construct (this : Nat) (s : State arity) : State arity :=
  { s with objs := Function.update s.objs this ⟨get_empty_table_ptr, 0⟩ }

/-- `bool empty() const`. -/
def empty (this : Nat) (s : State arity) : Bool :=
  (s.objs this).object == 0 && (s.objs this).vptr.empty

/-- `explicit unique_function_base(Functor && f)`. -/
def construct (env : Env) (this : Nat) (f : Callable) (s : State arity) : State arity :=
  let s := default_construct this s
  if !env.is_empty_function f then
    let s := s.set_vptr this (get_table_ptr f.type)
    if env.sizeof f.type ≤ env.ptr_size then
      s.placement_new_slot env this f
    else
      s.new_block this f
  else s

/-- `unique_function_base(unique_function_base && other)`, on the members:
the new object and what is left in `other`. -/
def unique_function_base.move_construct (other : unique_function_base arity) :
    unique_function_base arity × unique_function_base arity :=
  let this : unique_function_base arity := ⟨other.vptr, other.object⟩
  let other : unique_function_base arity := { other with vptr := get_empty_table_ptr }
  let other : unique_function_base arity := { other with object := 0 }
  (this, other)

/-- `unique_function_base(unique_function_base && other)`, constructing the
object at `this` from the object at `other`. -/
def move_construct (this other : Nat) (s : State arity) : State arity :=
  let r := (s.objs other).move_construct
  let s := { s with objs := Function.update s.objs this r.1 }
  { s with objs := Function.update s.objs other r.2 }

/-- `void reset()`. -/
def reset (env : Env) (this : Nat) (s : State arity) : State arity :=
  if !empty this s then
    let s := s.call_static_delete env this
    let s := s.set_vptr this get_empty_table_ptr
    s.set_object this 0
  else s

/-- `unique_function_base & assign(Functor && f)`; `addr_f` is `&f`. -/
def assign (env : Env) (this : Nat) (addr_f : Nat) (f : Callable) (s : State arity) :
    State arity :=
  if this = addr_f then s
  else
    let f_vptr := get_table_ptr f.type
    if (s.objs this).vptr = f_vptr && !empty this s then
      if env.sizeof f.type ≤ env.ptr_size then
        let s := s.call_destruct env this
        s.placement_new_slot env this f
      else if (s.objs this).object ≠ 0 then
        let s := s.call_destruct env this
        s.placement_new_block this f
      else
        s.new_block this f
    else
      let s := reset env this s
      if !env.is_empty_function f then
        let s :=
          if env.sizeof f.type ≤ env.ptr_size then
            s.placement_new_slot env this f
          else
            s.new_block this f
        s.set_vptr this f_vptr
      else s

/-- `unique_function_base & operator=(T && t)`. -/
def assign_forward (env : Env) (this : Nat) (addr_t : Nat) (t : Callable) (s : State arity) :
    State arity :=
  assign env this addr_t t s

/-- `unique_function_base & operator=(unique_function_base && t)`. -/
def move_assign (env : Env) (this t : Nat) (s : State arity) : State arity :=
  if this ≠ t then
    let s := reset env this s
    let s := s.set_vptr this (s.objs t).vptr
    let s := s.set_object this (s.objs t).object
    let s := s.set_vptr t get_empty_table_ptr
    s.set_object t 0
  else s

/-- `unique_function_base &swap(unique_function_base& f)`. -/
def swap (this f : Nat) (s : State arity) : State arity :=
  let tmp := (s.objs this).vptr
  let s := s.set_vptr this (s.objs f).vptr
  let s := s.set_vptr f tmp
  let tmp := (s.objs this).object
  let s := s.set_object this (s.objs f).object
  s.set_object f tmp

/-- `~unique_function_base()`. -/
def destroy (env : Env) (this : Nat) (s : State arity) : State arity :=
  if (s.objs this).object ≠ 0 then s.call_static_delete env this else s

end detail
end util

/-- The error values of `hpx/error.hpp` the applier reports, and any other
value a collaborator may leave behind. -/
inductive error where
  | success
  | invalid_status
  | other (code : Nat)
deriving DecidableEq, Repr

/-- An `error_code`: the error value with the function name and the message
it was raised with. -/
structure error_code where
  value : error
  function : String
  message : String
deriving DecidableEq, Repr

/-- Modelled from the spec: the macro `HPX_THROWS_IF(ec, errcode, f, msg)` of
`hpx/exception.hpp`; the failure is reported to the caller through `ec`
("Applier operations return explicit error values"). -/
def HPX_THROWS_IF (_ec : error_code) (errcode : error) (f msg : String) : error_code :=
  ⟨errcode, f, msg⟩

namespace threads

open util.detail in
/-- The closure types the adapters accept:
`util::unique_function_nonser<void()>`,
`util::unique_function_nonser<void(threads::thread_state_ex_enum)>` and
`threads::thread_function_type`, the latter also as it is built from
`util::bind(util::one_shot(&thread_function), std::move(func))` and from
`util::bind(util::one_shot(&thread_function_nullary), std::move(func))`. -/
inductive function where
  | nullary (func : unique_function_base 0)
  | unary (func : unique_function_base 1)
  | thread_function (func : unique_function_base 1)
  | bind_thread_function (func : unique_function_base 1)
  | bind_thread_function_nullary (func : unique_function_base 0)
deriving DecidableEq, Repr

/-- `threads::thread_function_type`. -/
abbrev thread_function_type := function

/-- `threads::thread_id_type`, with the constant `threads::invalid_thread_id`. -/
inductive thread_id_type where
  | invalid_thread_id
  | id (n : Nat)
deriving DecidableEq, Repr

/-- `threads::thread_state_enum`. -/
abbrev thread_state_enum := Nat

/-- `threads::thread_priority`. -/
abbrev thread_priority := Nat

/-- `threads::thread_stacksize`. -/
abbrev thread_stacksize := Nat

end threads

namespace util

/-- `util::thread_description`: empty, a text, or built from a callable and
an alternative name by `util::thread_description(func, altname)`. -/
inductive thread_description where
  | none
  | text (desc : String)
  | function (func : threads.function) (altname : String)
deriving DecidableEq, Repr

/-- Modelled from the spec: the conversion of a `thread_description` to
`bool`, declared in `hpx/util/thread_description.hpp`; a description is
either empty or not. -/
def thread_description.to_bool : thread_description → Bool
  | .none => false
  | _ => true

end util

namespace threads

/-- `threads::thread_init_data`, in the order of its constructor's arguments:
`(func, desc, lva, priority, os_thread, stacksize)`. -/
structure thread_init_data where
  func : thread_function_type
  description : util.thread_description
  lva : Nat
  priority : thread_priority
  num_os_thread : Nat
  stacksize : Int
deriving DecidableEq, Repr

end threads

namespace applier

open threads util util.detail

/-- The members of `hpx::applier::applier`: references to the parcel handler
and to the thread manager. -/
structure applier where
  parcel_handler_ : Nat
  thread_manager_ : Nat
deriving DecidableEq, Repr

/-- `applier::get_parcel_handler()`. -/
def applier.get_parcel_handler (this : applier) : Nat := this.parcel_handler_

/-- `applier::get_thread_manager()`. -/
def applier.get_thread_manager (this : applier) : Nat := this.thread_manager_

/-- A call into a thread manager, with the arguments it received. -/
inductive tm_call where
  | register_thread (tm : Nat) (data : thread_init_data) (id : thread_id_type)
      (state : thread_state_enum) (run_now : Bool) (ec : error_code)
  | register_work (tm : Nat) (data : thread_init_data) (state : thread_state_enum)
      (ec : error_code)
deriving DecidableEq, Repr

/-- A call into a parcel handler. -/
inductive ph_call where
  | get_raw_remote_localities (ph : Nat) (type : Nat)
  | get_raw_localities (ph : Nat) (type : Nat)
deriving DecidableEq, Repr

/-- The collaborators the adapters consume: `threads::get_stack_size` and the
two entry points of the thread manager at a given address, each returning
what it leaves in its reference arguments. -/
structure Collaborators where
  get_stack_size : thread_stacksize → Int
  register_thread : Nat → thread_init_data → thread_id_type → thread_state_enum → Bool →
    error_code → thread_init_data × thread_id_type × error_code
  register_work : Nat → thread_init_data → thread_state_enum → error_code →
    thread_init_data × error_code

/-- One worker context: the thread-specific `applier::applier_` (no cell, or
a cell holding an `applier*`), the applier objects by address, and the calls
made so far into thread managers and parcel handlers. -/
structure Runtime where
  applier_ : Option (Option Nat)
  appliers : Nat → applier
  tm_calls : List tm_call
  ph_calls : List ph_call

/-- `void applier::init_tss()`. -/
def applier.init_tss (this : Nat) (rt : Runtime) : Runtime :=
  if rt.applier_ = none then { rt with applier_ := some (some this) } else rt

/-- `void applier::deinit_tss()`. -/
def applier.deinit_tss (rt : Runtime) : Runtime :=
  { rt with applier_ := none }

/-- `applier* get_applier_ptr()`. -/
def get_applier_ptr (rt : Runtime) : Option Nat :=
  match rt.applier_ with
  | some appl => appl
  | none => none

/-- The call `tm.register_thread(data, id, state, run_now, ec)`. -/
def Runtime.register_thread (W : Collaborators) (rt : Runtime) (tm : Nat)
    (data : thread_init_data) (id : thread_id_type) (state : thread_state_enum)
    (run_now : Bool) (ec : error_code) : (thread_init_data × thread_id_type × error_code) × Runtime :=
  (W.register_thread tm data id state run_now ec,
    { rt with tm_calls := rt.tm_calls ++ [tm_call.register_thread tm data id state run_now ec] })

/-- The call `tm.register_work(data, state, ec)`. -/
def Runtime.register_work (W : Collaborators) (rt : Runtime) (tm : Nat)
    (data : thread_init_data) (state : thread_state_enum) (ec : error_code) :
    (thread_init_data × error_code) × Runtime :=
  (W.register_work tm data state ec,
    { rt with tm_calls := rt.tm_calls ++ [tm_call.register_work tm data state ec] })

/-- What an adapter leaves behind: its return value, its reference argument
(the closure or the `thread_init_data`), `ec`, and the context. -/
structure Outcome (R F : Type) where
  ret : R
  func : F
  ec : error_code
  rt : Runtime

/-- `threads::thread_id_type register_thread_nullary(func, desc, state,
run_now, priority, os_thread, stacksize, ec)`. -/
def register_thread_nullary (W : Collaborators) (func : unique_function_base 0)
    (desc : thread_description) (state : thread_state_enum) (run_now : Bool)
    (priority : thread_priority) (os_thread : Nat) (stacksize : thread_stacksize)
    (ec : error_code) (rt : Runtime) : Outcome thread_id_type (unique_function_base 0) :=
  match get_applier_ptr rt with
  | Option.none =>
    let ec := HPX_THROWS_IF ec error.invalid_status
      "hpx::applier::register_thread_nullary" "global applier object is not accessible"
    ⟨thread_id_type.invalid_thread_id, func, ec, rt⟩
  | some app =>
    let d := if desc.to_bool then desc
      else thread_description.function (function.nullary func) "register_thread_nullary"
    let moved := func.move_construct
    let data : thread_init_data :=
      ⟨function.bind_thread_function_nullary moved.1, d, 0, priority, os_thread,
        W.get_stack_size stacksize⟩
    let id := thread_id_type.invalid_thread_id
    let r := rt.register_thread W (rt.appliers app).get_thread_manager data id state run_now ec
    ⟨r.1.2.1, moved.2, r.1.2.2, r.2⟩

/-- `threads::thread_id_type register_thread(func, desc, state, run_now,
priority, os_thread, stacksize, ec)`. -/
def register_thread (W : Collaborators) (func : unique_function_base 1)
    (desc : thread_description) (state : thread_state_enum) (run_now : Bool)
    (priority : thread_priority) (os_thread : Nat) (stacksize : thread_stacksize)
    (ec : error_code) (rt : Runtime) : Outcome thread_id_type (unique_function_base 1) :=
  match get_applier_ptr rt with
  | Option.none =>
    let ec := HPX_THROWS_IF ec error.invalid_status
      "hpx::applier::register_thread" "global applier object is not accessible"
    ⟨thread_id_type.invalid_thread_id, func, ec, rt⟩
  | some app =>
    let d := if desc.to_bool then desc
      else thread_description.function (function.unary func) "register_thread"
    let moved := func.move_construct
    let data : thread_init_data :=
      ⟨function.bind_thread_function moved.1, d, 0, priority, os_thread,
        W.get_stack_size stacksize⟩
    let id := thread_id_type.invalid_thread_id
    let r := rt.register_thread W (rt.appliers app).get_thread_manager data id state run_now ec
    ⟨r.1.2.1, moved.2, r.1.2.2, r.2⟩

/-- `threads::thread_id_type register_thread_plain(func, desc, state, run_now,
priority, os_thread, stacksize, ec)`. -/
def register_thread_plain (W : Collaborators) (func : unique_function_base 1)
    (desc : thread_description) (state : thread_state_enum) (run_now : Bool)
    (priority : thread_priority) (os_thread : Nat) (stacksize : thread_stacksize)
    (ec : error_code) (rt : Runtime) : Outcome thread_id_type (unique_function_base 1) :=
  match get_applier_ptr rt with
  | Option.none =>
    let ec := HPX_THROWS_IF ec error.invalid_status
      "hpx::applier::register_thread_plain" "global applier object is not accessible"
    ⟨thread_id_type.invalid_thread_id, func, ec, rt⟩
  | some app =>
    let d := if desc.to_bool then desc
      else thread_description.function (function.thread_function func) "register_thread_plain"
    let moved := func.move_construct
    let data : thread_init_data :=
      ⟨function.thread_function moved.1, d, 0, priority, os_thread, W.get_stack_size stacksize⟩
    let id := thread_id_type.invalid_thread_id
    let r := rt.register_thread W (rt.appliers app).get_thread_manager data id state run_now ec
    ⟨r.1.2.1, moved.2, r.1.2.2, r.2⟩

/-- `threads::thread_id_type register_thread_plain(data, state, run_now, ec)`. -/
def register_thread_plain_data (W : Collaborators) (data : thread_init_data)
    (state : thread_state_enum) (run_now : Bool) (ec : error_code) (rt : Runtime) :
    Outcome thread_id_type thread_init_data :=
  match get_applier_ptr rt with
  | Option.none =>
    let ec := HPX_THROWS_IF ec error.invalid_status
      "hpx::applier::register_thread_plain" "global applier object is not accessible"
    ⟨thread_id_type.invalid_thread_id, data, ec, rt⟩
  | some app =>
    let id := thread_id_type.invalid_thread_id
    let r := rt.register_thread W (rt.appliers app).get_thread_manager data id state run_now ec
    ⟨r.1.2.1, r.1.1, r.1.2.2, r.2⟩

/-- `void register_work_nullary(func, desc, state, priority, os_thread,
stacksize, ec)`. -/
def register_work_nullary (W : Collaborators) (func : unique_function_base 0)
    (desc : thread_description) (state : thread_state_enum)
    (priority : thread_priority) (os_thread : Nat) (stacksize : thread_stacksize)
    (ec : error_code) (rt : Runtime) : Outcome Unit (unique_function_base 0) :=
  match get_applier_ptr rt with
  | Option.none =>
    let ec := HPX_THROWS_IF ec error.invalid_status
      "hpx::applier::register_work_nullary" "global applier object is not accessible"
    ⟨(), func, ec, rt⟩
  | some app =>
    let d := if desc.to_bool then desc
      else thread_description.function (function.nullary func) "register_thread_nullary"
    let moved := func.move_construct
    let data : thread_init_data :=
      ⟨function.bind_thread_function_nullary moved.1, d, 0, priority, os_thread,
        W.get_stack_size stacksize⟩
    let r := rt.register_work W (rt.appliers app).get_thread_manager data state ec
    ⟨(), moved.2, r.1.2, r.2⟩

/-- `void register_work(func, desc, state, priority, os_thread, stacksize,
ec)`. -/
def register_work (W : Collaborators) (func : unique_function_base 1)
    (desc : thread_description) (state : thread_state_enum)
    (priority : thread_priority) (os_thread : Nat) (stacksize : thread_stacksize)
    (ec : error_code) (rt : Runtime) : Outcome Unit (unique_function_base 1) :=
  match get_applier_ptr rt with
  | Option.none =>
    let ec := HPX_THROWS_IF ec error.invalid_status
      "hpx::applier::register_work" "global applier object is not accessible"
    ⟨(), func, ec, rt⟩
  | some app =>
    let d := if desc.to_bool then desc
      else thread_description.function (function.unary func) "register_work"
    let moved := func.move_construct
    let data : thread_init_data :=
      ⟨function.bind_thread_function moved.1, d, 0, priority, os_thread,
        W.get_stack_size stacksize⟩
    let r := rt.register_work W (rt.appliers app).get_thread_manager data state ec
    ⟨(), moved.2, r.1.2, r.2⟩

/-- `void register_work_plain(func, desc, lva, state, priority, os_thread,
stacksize, ec)`. -/
def register_work_plain (W : Collaborators) (func : unique_function_base 1)
    (desc : thread_description) (lva : Nat) (state : thread_state_enum)
    (priority : thread_priority) (os_thread : Nat) (stacksize : thread_stacksize)
    (ec : error_code) (rt : Runtime) : Outcome Unit (unique_function_base 1) :=
  match get_applier_ptr rt with
  | Option.none =>
    let ec := HPX_THROWS_IF ec error.invalid_status
      "hpx::applier::register_work_plain" "global applier object is not accessible"
    ⟨(), func, ec, rt⟩
  | some app =>
    let d := if desc.to_bool then desc
      else thread_description.function (function.thread_function func) "register_work_plain"
    let moved := func.move_construct
    let data : thread_init_data :=
      ⟨function.thread_function moved.1, d, lva, priority, os_thread, W.get_stack_size stacksize⟩
    let r := rt.register_work W (rt.appliers app).get_thread_manager data state ec
    ⟨(), moved.2, r.1.2, r.2⟩

/-- `void register_work_plain(data, state, ec)`. -/
def register_work_plain_data (W : Collaborators) (data : thread_init_data)
    (state : thread_state_enum) (ec : error_code) (rt : Runtime) :
    Outcome Unit thread_init_data :=
  match get_applier_ptr rt with
  | Option.none =>
    let ec := HPX_THROWS_IF ec error.invalid_status
      "hpx::applier::register_work_plain" "global applier object is not accessible"
    ⟨(), data, ec, rt⟩
  | some app =>
    let r := rt.register_work W (rt.appliers app).get_thread_manager data state ec
    ⟨(), r.1.1, r.1.2, r.2⟩

end applier

/-! ## Concrete inputs -/

namespace util
namespace detail

/-- A 64-bit target: pointers are 8 bytes, type `0` is a one-byte stateless
functor, type `1` a function pointer (empty by convention when null), every
other type is a 24-byte functor. -/
def env64 : Env where
  ptr_size := 8
  sizeof := fun F => if F = 0 then 1 else if F = 1 then 8 else 24
  is_empty_function := fun f => f.type == 1 && f.repr == 0

/-- A store in which every closure is default-constructed and nothing is on
the heap. -/
def state0 (arity : Nat) : State arity where
  objs := fun _ => ⟨get_empty_table_ptr, 0⟩
  heap := fun _ => none
  brk := 0
  trace := []

end detail
end util

namespace applier

/-- Collaborators for concrete runs: stack size classes are multiples of
4096 bytes, the thread manager hands out thread id 42 and leaves `ec` as it
received it. -/
def W0 : Collaborators where
  get_stack_size := fun sz => 4096 * (sz : Int)
  register_thread := fun _ data _ _ _ ec => (data, threads.thread_id_type.id 42, ec)
  register_work := fun _ data _ ec => (data, ec)

/-- A worker context to which no applier is bound and on which no call has
been made; the applier at address `a` refers to parcel handler `a + 100` and
thread manager `a + 200`. -/
def rt0 : Runtime where
  applier_ := none
  appliers := fun a => ⟨a + 100, a + 200⟩
  tm_calls := []
  ph_calls := []

/-- An `error_code` holding no error. -/
def ec0 : error_code := ⟨error.success, "", ""⟩

/-- Collaborators for concrete runs whose thread manager refuses: it leaves
the id it was passed unwritten and leaves an error of its own in `ec`. -/
def W1 : Collaborators where
  get_stack_size := fun sz => 4096 * (sz : Int)
  register_thread := fun _ data id _ _ _ =>
    (data, id, ⟨error.other 3, "threadmanager", "no resources"⟩)
  register_work := fun _ data _ _ => (data, ⟨error.other 3, "threadmanager", "no resources"⟩)

end applier

/-! ## Invocation and reachable closure states -/

namespace util
namespace detail

variable {arity : Nat}

/-- What `operator()` takes from its surroundings.  `invoke` is the table
operation `vptr->invoke(&object, args...)` of the vtable headers: given the
table, the slot, the heap and the arguments it yields the result (or the
failure the callable signals) and what the call leaves in the slot and on
the heap.  `on_exit` is what the destructor of the scope guard
`invalidate_function<unique_function_base> on_exit(*this)` does to the
closure when `operator()` is left. -/
structure Invoker (arity : Nat) (A R E : Type) where
  invoke : vtable_ptr → Nat → Heap → List A → Except E R × Nat × Heap
  on_exit : Nat → State arity → State arity

/-- The body shared by every `operator()`: the guard is set up, the table's
`invoke` runs on the slot with the argument list, and the guard's destructor
runs when the result is returned or the failure propagates. -/
def call {A R E : Type} (I : Invoker arity A R E) (this : Nat) (args : List A)
    (s : State arity) : Except E R × State arity :=
  let c := s.objs this
  let r := I.invoke c.vptr c.object s.heap args
  let s := s.set_object this r.2.1
  let s := { s with heap := r.2.2
                    trace := s.trace ++ [Event.invoke c.vptr c.object args.length] }
  (r.1, I.on_exit this s)

/-- `R operator()()` of `unique_function_base<R()>`. -/
def operator_call_0 {A R E : Type} (I : Invoker 0 A R E) (this : Nat) (s : State 0) :
    Except E R × State 0 :=
  call I this [] s

/-- `R operator()(A0 a0)` of `unique_function_base<R(A0)>`. -/
def operator_call_1 {A R E : Type} (I : Invoker 1 A R E) (this : Nat) (a0 : A) (s : State 1) :
    Except E R × State 1 :=
  call I this [a0] s

/-- `R operator()(A0 a0, A1 a1)` of `unique_function_base<R(A0, A1)>`. -/
def operator_call_2 {A R E : Type} (I : Invoker 2 A R E) (this : Nat) (a0 a1 : A)
    (s : State 2) : Except E R × State 2 :=
  call I this [a0, a1] s

/-- `R operator()(A0 a0, A1 a1, A2 a2)`. -/
def operator_call_3 {A R E : Type} (I : Invoker 3 A R E) (this : Nat) (a0 a1 a2 : A)
    (s : State 3) : Except E R × State 3 :=
  call I this [a0, a1, a2] s

/-- `R operator()(A0 a0, A1 a1, A2 a2, A3 a3)`. -/
def operator_call_4 {A R E : Type} (I : Invoker 4 A R E) (this : Nat) (a0 a1 a2 a3 : A)
    (s : State 4) : Except E R × State 4 :=
  call I this [a0, a1, a2, a3] s

/-- `R operator()(A0 a0, A1 a1, A2 a2, A3 a3, A4 a4)`. -/
def operator_call_5 {A R E : Type} (I : Invoker 5 A R E) (this : Nat) (a0 a1 a2 a3 a4 : A)
    (s : State 5) : Except E R × State 5 :=
  call I this [a0, a1, a2, a3, a4] s

/-- `R operator()(A0 a0, A1 a1, A2 a2, A3 a3, A4 a4, A5 a5)`. -/
def operator_call_6 {A R E : Type} (I : Invoker 6 A R E) (this : Nat)
    (a0 a1 a2 a3 a4 a5 : A) (s : State 6) : Except E R × State 6 :=
  call I this [a0, a1, a2, a3, a4, a5] s

/-- `R operator()(A0 a0, A1 a1, A2 a2, A3 a3, A4 a4, A5 a5, A6 a6)`. -/
def operator_call_7 {A R E : Type} (I : Invoker 7 A R E) (this : Nat)
    (a0 a1 a2 a3 a4 a5 a6 : A) (s : State 7) : Except E R × State 7 :=
  call I this [a0, a1, a2, a3, a4, a5, a6] s

/-- `R operator()(A0 a0, A1 a1, A2 a2, A3 a3, A4 a4, A5 a5, A6 a6, A7 a7)`. -/
def operator_call_8 {A R E : Type} (I : Invoker 8 A R E) (this : Nat)
    (a0 a1 a2 a3 a4 a5 a6 a7 : A) (s : State 8) : Except E R × State 8 :=
  call I this [a0, a1, a2, a3, a4, a5, a6, a7] s

/-- The states a program can bring the closures into: it starts with every
closure default-constructed and applies constructors, `assign`, move
construction and assignment, `swap` and `reset`, in any order and to any
objects. -/
inductive Reachable (env : Env) : State arity → Prop where
  | start (s : State arity) (h : ∀ a, s.objs a = ⟨get_empty_table_ptr, 0⟩) : Reachable env s
  | default_construct (this : Nat) (s : State arity) (h : Reachable env s) :
      Reachable env (default_construct this s)
  | construct (this : Nat) (f : Callable) (s : State arity) (h : Reachable env s) :
      Reachable env (construct env this f s)
  | move_construct (this other : Nat) (s : State arity) (h : Reachable env s) :
      Reachable env (move_construct this other s)
  | assign (this addr_f : Nat) (f : Callable) (s : State arity) (h : Reachable env s) :
      Reachable env (assign env this addr_f f s)
  | move_assign (this t : Nat) (s : State arity) (h : Reachable env s) :
      Reachable env (move_assign env this t s)
  | swap (this f : Nat) (s : State arity) (h : Reachable env s) :
      Reachable env (swap this f s)
  | reset (this : Nat) (s : State arity) (h : Reachable env s) :
      Reachable env (reset env this s)

/-- A closure bound to the table of a type too large for the slot. -/
def unique_function_base.boxed (env : Env) (c : unique_function_base arity) : Prop :=
  ∃ F, c.vptr = vtable_ptr.table F ∧ ¬ env.sizeof F ≤ env.ptr_size

/-- The slot of a closure agrees with its table: null under the empty table,
confined to the bytes of the type under the table of a type that fits the
slot, and otherwise the address of an allocated block holding a callable of
the table's type. -/
def unique_function_base.slot_ok (env : Env) (heap : Heap) (brk : Nat)
    (c : unique_function_base arity) : Prop :=
  match c.vptr with
  | .empty_table => c.object = 0
  | .table F =>
    if env.sizeof F ≤ env.ptr_size then c.object < 256 ^ env.sizeof F
    else c.object ≠ 0 ∧ c.object ≤ brk ∧ ∃ f : Callable, heap c.object = some f ∧ f.type = F

/-- The storage discipline of a store: every slot agrees with its table and
no two closures point to the same block. -/
def well_stored (env : Env) (s : State arity) : Prop :=
  (∀ a, (s.objs a).slot_ok env s.heap s.brk) ∧
  (∀ a b, a ≠ b → (s.objs a).boxed env → (s.objs b).boxed env →
    (s.objs a).object ≠ (s.objs b).object)

/-- An invoker for concrete runs: the callable returns the sum of its
arguments and its own representation, fails on an empty table, leaves slot
and heap as they are; the guard resets the closure. -/
def invoker0 (arity : Nat) : Invoker arity Nat Nat String where
  invoke := fun vptr object heap args =>
    match vptr with
    | .empty_table => (Except.error "bad_function_call", object, heap)
    | .table _ => (Except.ok (args.foldl (· + ·) object), object, heap)
  on_exit := fun this s => reset env64 this s

end detail
end util

/-! ## Localities and the applier accessors -/

namespace naming

/-- `naming::gid_type`: the two 64-bit halves of a global id. -/
structure gid_type where
  msb : Nat
  lsb : Nat
deriving DecidableEq, Repr

/-- The management modes of `naming::id_type`. -/
inductive management_type where
  | unmanaged
  | managed
deriving DecidableEq, Repr

/-- `naming::id_type`, as built by `naming::id_type(gid, management)`. -/
structure id_type where
  gid : gid_type
  management : management_type
deriving DecidableEq, Repr

end naming

namespace applier

open naming

/-- What the locality functions consume.  `get_local_locality` is
`naming::get_agas_client().get_local_locality(ec)`, with what it leaves in
`ec`; `get_locality_id_from_gid` and `invalid_locality_id` are those of
`naming`; the two raw queries are the parcel handler's, at a given address,
each returning its result with what it leaves in its vector and in `ec`;
`component_invalid` is `components::component_invalid` and `throws` the
default `error_code` argument. -/
structure Resolvers where
  get_local_locality : error_code → gid_type × error_code
  get_locality_id_from_gid : gid_type → Nat
  invalid_locality_id : Nat
  get_raw_remote_localities : Nat → List gid_type → Nat → error_code →
    Bool × List gid_type × error_code
  get_raw_localities : Nat → List gid_type → Nat → error_code →
    Bool × List gid_type × error_code
  component_invalid : Nat
  throws : error_code

/-- The outcome of code that relies on an assertion or dereferences a
pointer: a value, a failed `HPX_ASSERT`, or a null pointer dereferenced. -/
inductive Checked (α : Type) where
  | ok (a : α)
  | assertion_failed
  | null_dereference
deriving DecidableEq, Repr

/-- What a locality enumeration leaves behind: its return value, the
caller's vector, `ec`, and the context. -/
structure Enumeration (T : Type) where
  ret : Bool
  prefixes : List T
  ec : error_code
  rt : Runtime

/-- The call `parcel_handler_.get_raw_remote_localities(prefixes, type, ec)`. -/
def Runtime.get_raw_remote_localities (N : Resolvers) (rt : Runtime) (ph : Nat)
    (prefixes : List gid_type) (type : Nat) (ec : error_code) :
    (Bool × List gid_type × error_code) × Runtime :=
  (N.get_raw_remote_localities ph prefixes type ec,
    { rt with ph_calls := rt.ph_calls ++ [ph_call.get_raw_remote_localities ph type] })

/-- The call `parcel_handler_.get_raw_localities(prefixes, type, ec)`. -/
def Runtime.get_raw_localities (N : Resolvers) (rt : Runtime) (ph : Nat)
    (prefixes : List gid_type) (type : Nat) (ec : error_code) :
    (Bool × List gid_type × error_code) × Runtime :=
  (N.get_raw_localities ph prefixes type ec,
    { rt with ph_calls := rt.ph_calls ++ [ph_call.get_raw_localities ph type] })

/-- `naming::gid_type const& applier::get_raw_locality(error_code& ec) const`. -/
def applier.get_raw_locality (N : Resolvers) (_this : applier) (ec : error_code) :
    gid_type × error_code :=
  N.get_local_locality ec

/-- `std::uint32_t applier::get_locality_id(error_code& ec) const`. -/
def applier.get_locality_id (N : Resolvers) (this : applier) (ec : error_code) :
    Nat × error_code :=
  let r := this.get_raw_locality N ec
  (N.get_locality_id_from_gid r.1, r.2)

/-- `bool applier::get_raw_remote_localities(prefixes, type, ec) const`. -/
def applier.get_raw_remote_localities (N : Resolvers) (this : applier)
    (prefixes : List gid_type) (type : Nat) (ec : error_code) (rt : Runtime) :
    Enumeration gid_type :=
  let r := rt.get_raw_remote_localities N this.parcel_handler_ prefixes type ec
  ⟨r.1.1, r.1.2.1, r.1.2.2, r.2⟩

/-- The loop `for (naming::gid_type& gid : raw_prefixes)
prefixes.push_back(naming::id_type(gid, naming::id_type::unmanaged))`. -/
def push_back_unmanaged (prefixes : List id_type) (raw_prefixes : List gid_type) :
    List id_type :=
  raw_prefixes.foldl (fun acc gid => acc ++ [id_type.mk gid management_type.unmanaged]) prefixes

/-- `bool applier::get_remote_localities(prefixes, type, ec) const`. -/
def applier.get_remote_localities (N : Resolvers) (this : applier)
    (prefixes : List id_type) (type : Nat) (ec : error_code) (rt : Runtime) :
    Enumeration id_type :=
  let raw_prefixes : List gid_type := []
  let r := rt.get_raw_remote_localities N this.parcel_handler_ raw_prefixes type ec
  if !r.1.1 then ⟨false, prefixes, r.1.2.2, r.2⟩
  else ⟨true, push_back_unmanaged prefixes r.1.2.1, r.1.2.2, r.2⟩

/-- `bool applier::get_raw_localities(prefixes, type) const`. -/
def applier.get_raw_localities (N : Resolvers) (this : applier)
    (prefixes : List gid_type) (type : Nat) (rt : Runtime) : Enumeration gid_type :=
  let r := rt.get_raw_localities N this.parcel_handler_ prefixes type N.throws
  ⟨r.1.1, r.1.2.1, r.1.2.2, r.2⟩

/-- `bool applier::get_localities(prefixes, ec) const`. -/
def applier.get_localities (N : Resolvers) (this : applier)
    (prefixes : List id_type) (ec : error_code) (rt : Runtime) : Enumeration id_type :=
  let raw_prefixes : List gid_type := []
  let r := rt.get_raw_localities N this.parcel_handler_ raw_prefixes N.component_invalid ec
  if !r.1.1 then ⟨false, prefixes, r.1.2.2, r.2⟩
  else ⟨true, push_back_unmanaged prefixes r.1.2.1, r.1.2.2, r.2⟩

/-- `bool applier::get_localities(prefixes, type, ec) const`. -/
def applier.get_localities_type (N : Resolvers) (this : applier)
    (prefixes : List id_type) (type : Nat) (ec : error_code) (rt : Runtime) :
    Enumeration id_type :=
  let raw_prefixes : List gid_type := []
  let r := rt.get_raw_localities N this.parcel_handler_ raw_prefixes type ec
  if !r.1.1 then ⟨false, prefixes, r.1.2.2, r.2⟩
  else ⟨true, push_back_unmanaged prefixes r.1.2.1, r.1.2.2, r.2⟩

/-- `applier& get_applier()`: `HPX_ASSERT(nullptr != applier::applier_.get())`,
then `return **applier::applier_`. -/
def get_applier (rt : Runtime) : Checked Nat :=
  match rt.applier_ with
  | Option.none => Checked.assertion_failed
  | some appl =>
    match appl with
    | Option.none => Checked.null_dereference
    | some app => Checked.ok app

/-- `std::uint32_t get_locality_id(error_code& ec)`: the value returned and
what is left in `ec`. -/
def get_locality_id (N : Resolvers) (ec : error_code) (rt : Runtime) :
    Checked (Nat × error_code) :=
  match rt.applier_ with
  | some appl =>
    match appl with
    | Option.none => Checked.null_dereference
    | some app => Checked.ok ((rt.appliers app).get_locality_id N ec)
  | Option.none => Checked.ok (N.invalid_locality_id, ec)

/-- Resolvers for concrete runs: the local locality is the gid with
`msb = 0x300000000`, the locality id is `msb / 2 ^ 32 - 1`, the parcel
handler at address 107 answers both raw queries with two gids, every other
one fails after writing one gid and an error. -/
def N0 : Resolvers where
  get_local_locality := fun ec => (⟨0x300000000, 0⟩, ec)
  get_locality_id_from_gid := fun gid => gid.msb / 2 ^ 32 - 1
  invalid_locality_id := 0xFFFFFFFF
  get_raw_remote_localities := fun ph raw _ ec =>
    if ph = 107 then (true, raw ++ [⟨0x200000000, 0⟩, ⟨0x100000000, 0⟩], ec)
    else (false, raw ++ [⟨0x900000000, 0⟩], ⟨error.other 5, "parcelhandler", "no answer"⟩)
  get_raw_localities := fun ph raw _ ec =>
    if ph = 107 then (true, raw ++ [⟨0x300000000, 0⟩, ⟨0x200000000, 0⟩], ec)
    else (false, raw ++ [⟨0x900000000, 0⟩], ⟨error.other 5, "parcelhandler", "no answer"⟩)
  component_invalid := 0
  throws := ⟨error.success, "", ""⟩

end applier

/-! ## Running a registered thread function -/

namespace threads

/-- `threads::thread_state_ex_enum`: `threads::wait_signaled` and the other
values. -/
inductive thread_state_ex_enum where
  | wait_signaled
  | other (n : Nat)
deriving DecidableEq, Repr

/-- `threads::thread_result_type`: a thread state and a thread id pointer
(`none` is `nullptr`). -/
structure thread_result_type where
  state : thread_state_enum
  next : Option Nat
deriving DecidableEq, Repr

end threads

namespace applier

open threads util util.detail

/-- What happens while a thread function runs, in program order. -/
inductive run_event where
  /-- The call `func()` of a `void()` closure. -/
  | call_nullary (func : unique_function_base 0)
  /-- The call `func(arg)` of a `void(thread_state_ex_enum)` closure. -/
  | call (func : unique_function_base 1) (arg : thread_state_ex_enum)
  /-- The call `func(arg)` of a `threads::thread_function_type`. -/
  | call_thread_function (func : unique_function_base 1) (arg : thread_state_ex_enum)
  /-- The call `util::force_error_on_lock()`. -/
  | force_error_on_lock
deriving DecidableEq, Repr

/-- The OS thread a thread function runs on: the number of registered locks
it still holds, and what has happened so far. -/
structure Execution where
  locks : Nat
  events : List run_event

/-- What running a thread function takes from its surroundings: the constant
`threads::terminated`; what calling each kind of closure does, given the
number of locks held before the call (it fails with a value of `E`, or
returns, leaving some number of locks held); and the failure
`util::force_error_on_lock` raises. -/
structure Runner (E : Type) where
  terminated : thread_state_enum
  call_nullary : unique_function_base 0 → Nat → Except E Nat
  call : unique_function_base 1 → thread_state_ex_enum → Nat → Except E Nat
  call_thread_function : unique_function_base 1 → thread_state_ex_enum → Nat →
    Except E (thread_result_type × Nat)
  lock_error : E

/-- Modelled from the spec: `util::force_error_on_lock()` of
`hpx/util/register_locks.hpp`; by the comment at its two calls it verifies
that no registered lock is left for this OS thread and throws if any is
still held ("a leaked lock is a fatal diagnostic"). -/
def force_error_on_lock {E : Type} (R : Runner E) (locks : Nat) : Except E Unit :=
  if locks = 0 then Except.ok () else Except.error R.lock_error

/-- `static inline threads::thread_result_type thread_function(func)`. -/
def thread_function {E : Type} (R : Runner E) (func : unique_function_base 1)
    (x : Execution) : Except E thread_result_type × Execution :=
  let x : Execution :=
    { x with events := x.events ++ [run_event.call func thread_state_ex_enum.wait_signaled] }
  match R.call func thread_state_ex_enum.wait_signaled x.locks with
  | Except.error e => (Except.error e, x)
  | Except.ok locks =>
    let x : Execution := { x with locks := locks }
    let x : Execution := { x with events := x.events ++ [run_event.force_error_on_lock] }
    match force_error_on_lock R x.locks with
    | Except.error e => (Except.error e, x)
    | Except.ok _ => (Except.ok ⟨R.terminated, Option.none⟩, x)

/-- `static inline threads::thread_result_type thread_function_nullary(func)`. -/
def thread_function_nullary {E : Type} (R : Runner E) (func : unique_function_base 0)
    (x : Execution) : Except E thread_result_type × Execution :=
  let x : Execution := { x with events := x.events ++ [run_event.call_nullary func] }
  match R.call_nullary func x.locks with
  | Except.error e => (Except.error e, x)
  | Except.ok locks =>
    let x : Execution := { x with locks := locks }
    let x : Execution := { x with events := x.events ++ [run_event.force_error_on_lock] }
    match force_error_on_lock R x.locks with
    | Except.error e => (Except.error e, x)
    | Except.ok _ => (Except.ok ⟨R.terminated, Option.none⟩, x)

/-- What the thread manager does when it runs the function of a
`thread_init_data` with the argument `arg`.  The object built by
`util::bind(util::one_shot(&thread_function), std::move(func))` has no
placeholder: it calls `thread_function` on the closure it holds and does not
forward `arg`; likewise for `thread_function_nullary`.  A plain
`threads::thread_function_type` is called with `arg`.  The two closure types
that are not thread functions cannot be run. -/
def run {E : Type} (R : Runner E) (f : thread_function_type) (arg : thread_state_ex_enum)
    (x : Execution) : Option (Except E thread_result_type × Execution) :=
  match f with
  | function.bind_thread_function func => some (thread_function R func x)
  | function.bind_thread_function_nullary func => some (thread_function_nullary R func x)
  | function.thread_function func =>
    let x : Execution :=
      { x with events := x.events ++ [run_event.call_thread_function func arg] }
    match R.call_thread_function func arg x.locks with
    | Except.error e => some (Except.error e, x)
    | Except.ok r => some (Except.ok r.1, { x with locks := r.2 })
  | function.nullary _ => Option.none
  | function.unary _ => Option.none

/-- A runner for concrete runs: `threads::terminated` is 5; a closure whose
slot holds 7 takes a lock and returns without releasing it, a closure whose
slot holds 9 fails, every other closure returns with the locks it found; a
plain thread function returns the state 3 and thread id 11. -/
def R0 : Runner String where
  terminated := 5
  call_nullary := fun func locks =>
    if func.object = 7 then Except.ok (locks + 1)
    else if func.object = 9 then Except.error "callable failed" else Except.ok locks
  call := fun func _ locks =>
    if func.object = 7 then Except.ok (locks + 1)
    else if func.object = 9 then Except.error "callable failed" else Except.ok locks
  call_thread_function := fun _ _ locks => Except.ok (⟨3, some 11⟩, locks)
  lock_error := "lock leak"

/-- An OS thread holding no lock, on which nothing has run. -/
def x0 : Execution := ⟨0, []⟩

end applier

/-! ## Closures read at another signature -/

namespace util
namespace detail

variable {arity : Nat}

/-- The members of a closure, read as a closure of the signature with `m`
arguments. -/
def unique_function_base.retype (m : Nat) (c : unique_function_base arity) :
    unique_function_base m :=
  ⟨c.vptr, c.object⟩

/-- A store of closures of one signature, read as a store of closures of the
signature with `m` arguments: same tables and slots, same heap and trace. -/
def State.retype (m : Nat) (s : State arity) : State m where
  objs := fun a => (s.objs a).retype m
  heap := s.heap
  brk := s.brk
  trace := s.trace

end detail
end util

/-! ## The specialisations, one by one

The header holds one class body for each of the signatures `R()`,
`R(A0)`, ..., `R(A0, ..., A7)`.  Each body is embedded here from its own
lines, on the closures of its own signature. -/

namespace util
namespace detail

/-- The member functions of one specialisation that act on `vptr` and
`object`. -/
structure Members (arity : Nat) where
  default_construct : Nat → State arity → State arity
  construct : Env → Nat → Callable → State arity → State arity
  move_construct : Nat → Nat → State arity → State arity
  assign : Env → Nat → Nat → Callable → State arity → State arity
  move_assign : Env → Nat → Nat → State arity → State arity
  swap : Nat → Nat → State arity → State arity
  empty : Nat → State arity → Bool
  reset : Env → Nat → State arity → State arity
  destroy : Env → Nat → State arity → State arity

/-- `unique_function_base<R()>::unique_function_base()`, lines 35-38. -/
def default_construct_0 (this : Nat) (s : State 0) : State 0 :=
  { s with objs := Function.update s.objs this ⟨get_empty_table_ptr, 0⟩ }

/-- `unique_function_base<R()>::empty()`, lines 148-151. -/
def empty_0 (this : Nat) (s : State 0) : Bool :=
  (s.objs this).object == 0 && (s.objs this).vptr.empty

/-- `unique_function_base<R()>::unique_function_base(Functor && f)`, lines 46-73. -/
def construct_0 (env : Env) (this : Nat) (f : Callable) (s : State 0) : State 0 :=
  let s := default_construct_0 this s
  if !env.is_empty_function f then
    let s := s.set_vptr this (get_table_ptr f.type)
    if env.sizeof f.type ≤ env.ptr_size then
      s.placement_new_slot env this f
    else
      s.new_block this f
  else s

/-- `unique_function_base<R()>::unique_function_base(unique_function_base && other)`,
lines 74-80. -/
def move_construct_0 (this other : Nat) (s : State 0) : State 0 :=
  let s : State 0 :=
    { s with objs := Function.update s.objs this ⟨(s.objs other).vptr, (s.objs other).object⟩ }
  let s := s.set_vptr other get_empty_table_ptr
  s.set_object other 0

/-- `unique_function_base<R()>::reset()`, lines 160-168. -/
def reset_0 (env : Env) (this : Nat) (s : State 0) : State 0 :=
  if !empty_0 this s then
    let s := s.call_static_delete env this
    let s := s.set_vptr this get_empty_table_ptr
    s.set_object this 0
  else s

/-- `unique_function_base<R()>::assign(Functor && f)`, lines 81-124; `addr_f` is `&f`. -/
def assign_0 (env : Env) (this : Nat) (addr_f : Nat) (f : Callable) (s : State 0) :
    State 0 :=
  if this = addr_f then s
  else
    let f_vptr := get_table_ptr f.type
    if (s.objs this).vptr = f_vptr && !empty_0 this s then
      if env.sizeof f.type ≤ env.ptr_size then
        let s := s.call_destruct env this
        s.placement_new_slot env this f
      else if (s.objs this).object ≠ 0 then
        let s := s.call_destruct env this
        s.placement_new_block this f
      else
        s.new_block this f
    else
      let s := reset_0 env this s
      if !env.is_empty_function f then
        let s :=
          if env.sizeof f.type ≤ env.ptr_size then
            s.placement_new_slot env this f
          else
            s.new_block this f
        s.set_vptr this f_vptr
      else s

/-- `unique_function_base<R()>::operator=(unique_function_base && t)`, lines 130-141. -/
def move_assign_0 (env : Env) (this t : Nat) (s : State 0) : State 0 :=
  if this ≠ t then
    let s := reset_0 env this s
    let s := s.set_vptr this (s.objs t).vptr
    let s := s.set_object this (s.objs t).object
    let s := s.set_vptr t get_empty_table_ptr
    s.set_object t 0
  else s

/-- `unique_function_base<R()>::swap(unique_function_base& f)`, lines 142-147. -/
def swap_0 (this f : Nat) (s : State 0) : State 0 :=
  let tmp := (s.objs this).vptr
  let s := s.set_vptr this (s.objs f).vptr
  let s := s.set_vptr f tmp
  let tmp := (s.objs this).object
  let s := s.set_object this (s.objs f).object
  s.set_object f tmp

/-- `unique_function_base<R()>::~unique_function_base()`, lines 39-45. -/
def destroy_0 (env : Env) (this : Nat) (s : State 0) : State 0 :=
  if (s.objs this).object ≠ 0 then s.call_static_delete env this else s

/-- The members of `unique_function_base<R()>`. -/
def members_0 : Members 0 where
  default_construct := default_construct_0
  construct := construct_0
  move_construct := move_construct_0
  assign := assign_0
  move_assign := move_assign_0
  swap := swap_0
  empty := empty_0
  reset := reset_0
  destroy := destroy_0

/-- `unique_function_base<R(A0)>::unique_function_base()`, lines 218-221. -/
def default_construct_1 (this : Nat) (s : State 1) : State 1 :=
  { s with objs := Function.update s.objs this ⟨get_empty_table_ptr, 0⟩ }

/-- `unique_function_base<R(A0)>::empty()`, lines 331-334. -/
def empty_1 (this : Nat) (s : State 1) : Bool :=
  (s.objs this).object == 0 && (s.objs this).vptr.empty

/-- `unique_function_base<R(A0)>::unique_function_base(Functor && f)`, lines 229-256. -/
def construct_1 (env : Env) (this : Nat) (f : Callable) (s : State 1) : State 1 :=
  let s := default_construct_1 this s
  if !env.is_empty_function f then
    let s := s.set_vptr this (get_table_ptr f.type)
    if env.sizeof f.type ≤ env.ptr_size then
      s.placement_new_slot env this f
    else
      s.new_block this f
  else s

/-- `unique_function_base<R(A0)>::unique_function_base(unique_function_base && other)`,
lines 257-263. -/
def move_construct_1 (this other : Nat) (s : State 1) : State 1 :=
  let s : State 1 :=
    { s with objs := Function.update s.objs this ⟨(s.objs other).vptr, (s.objs other).object⟩ }
  let s := s.set_vptr other get_empty_table_ptr
  s.set_object other 0

/-- `unique_function_base<R(A0)>::reset()`, lines 343-351. -/
def reset_1 (env : Env) (this : Nat) (s : State 1) : State 1 :=
  if !empty_1 this s then
    let s := s.call_static_delete env this
    let s := s.set_vptr this get_empty_table_ptr
    s.set_object this 0
  else s

/-- `unique_function_base<R(A0)>::assign(Functor && f)`, lines 264-307; `addr_f` is `&f`. -/
def assign_1 (env : Env) (this : Nat) (addr_f : Nat) (f : Callable) (s : State 1) :
    State 1 :=
  if this = addr_f then s
  else
    let f_vptr := get_table_ptr f.type
    if (s.objs this).vptr = f_vptr && !empty_1 this s then
      if env.sizeof f.type ≤ env.ptr_size then
        let s := s.call_destruct env this
        s.placement_new_slot env this f
      else if (s.objs this).object ≠ 0 then
        let s := s.call_destruct env this
        s.placement_new_block this f
      else
        s.new_block this f
    else
      let s := reset_1 env this s
      if !env.is_empty_function f then
        let s :=
          if env.sizeof f.type ≤ env.ptr_size then
            s.placement_new_slot env this f
          else
            s.new_block this f
        s.set_vptr this f_vptr
      else s

/-- `unique_function_base<R(A0)>::operator=(unique_function_base && t)`, lines 313-324. -/
def move_assign_1 (env : Env) (this t : Nat) (s : State 1) : State 1 :=
  if this ≠ t then
    let s := reset_1 env this s
    let s := s.set_vptr this (s.objs t).vptr
    let s := s.set_object this (s.objs t).object
    let s := s.set_vptr t get_empty_table_ptr
    s.set_object t 0
  else s

/-- `unique_function_base<R(A0)>::swap(unique_function_base& f)`, lines 325-330. -/
def swap_1 (this f : Nat) (s : State 1) : State 1 :=
  let tmp := (s.objs this).vptr
  let s := s.set_vptr this (s.objs f).vptr
  let s := s.set_vptr f tmp
  let tmp := (s.objs this).object
  let s := s.set_object this (s.objs f).object
  s.set_object f tmp

/-- `unique_function_base<R(A0)>::~unique_function_base()`, lines 222-228. -/
def destroy_1 (env : Env) (this : Nat) (s : State 1) : State 1 :=
  if (s.objs this).object ≠ 0 then s.call_static_delete env this else s

/-- The members of `unique_function_base<R(A0)>`. -/
def members_1 : Members 1 where
  default_construct := default_construct_1
  construct := construct_1
  move_construct := move_construct_1
  assign := assign_1
  move_assign := move_assign_1
  swap := swap_1
  empty := empty_1
  reset := reset_1
  destroy := destroy_1

/-- `unique_function_base<R(A0, A1)>::unique_function_base()`, lines 401-404. -/
def default_construct_2 (this : Nat) (s : State 2) : State 2 :=
  { s with objs := Function.update s.objs this ⟨get_empty_table_ptr, 0⟩ }

/-- `unique_function_base<R(A0, A1)>::empty()`, lines 514-517. -/
def empty_2 (this : Nat) (s : State 2) : Bool :=
  (s.objs this).object == 0 && (s.objs this).vptr.empty

/-- `unique_function_base<R(A0, A1)>::unique_function_base(Functor && f)`, lines 412-439. -/
def construct_2 (env : Env) (this : Nat) (f : Callable) (s : State 2) : State 2 :=
  let s := default_construct_2 this s
  if !env.is_empty_function f then
    let s := s.set_vptr this (get_table_ptr f.type)
    if env.sizeof f.type ≤ env.ptr_size then
      s.placement_new_slot env this f
    else
      s.new_block this f
  else s

/-- `unique_function_base<R(A0, A1)>::unique_function_base(unique_function_base && other)`,
lines 440-446. -/
def move_construct_2 (this other : Nat) (s : State 2) : State 2 :=
  let s : State 2 :=
    { s with objs := Function.update s.objs this ⟨(s.objs other).vptr, (s.objs other).object⟩ }
  let s := s.set_vptr other get_empty_table_ptr
  s.set_object other 0

/-- `unique_function_base<R(A0, A1)>::reset()`, lines 526-534. -/
def reset_2 (env : Env) (this : Nat) (s : State 2) : State 2 :=
  if !empty_2 this s then
    let s := s.call_static_delete env this
    let s := s.set_vptr this get_empty_table_ptr
    s.set_object this 0
  else s

/-- `unique_function_base<R(A0, A1)>::assign(Functor && f)`, lines 447-490; `addr_f` is `&f`. -/
def assign_2 (env : Env) (this : Nat) (addr_f : Nat) (f : Callable) (s : State 2) :
    State 2 :=
  if this = addr_f then s
  else
    let f_vptr := get_table_ptr f.type
    if (s.objs this).vptr = f_vptr && !empty_2 this s then
      if env.sizeof f.type ≤ env.ptr_size then
        let s := s.call_destruct env this
        s.placement_new_slot env this f
      else if (s.objs this).object ≠ 0 then
        let s := s.call_destruct env this
        s.placement_new_block this f
      else
        s.new_block this f
    else
      let s := reset_2 env this s
      if !env.is_empty_function f then
        let s :=
          if env.sizeof f.type ≤ env.ptr_size then
            s.placement_new_slot env this f
          else
            s.new_block this f
        s.set_vptr this f_vptr
      else s

/-- `unique_function_base<R(A0, A1)>::operator=(unique_function_base && t)`, lines 496-507. -/
def move_assign_2 (env : Env) (this t : Nat) (s : State 2) : State 2 :=
  if this ≠ t then
    let s := reset_2 env this s
    let s := s.set_vptr this (s.objs t).vptr
    let s := s.set_object this (s.objs t).object
    let s := s.set_vptr t get_empty_table_ptr
    s.set_object t 0
  else s

/-- `unique_function_base<R(A0, A1)>::swap(unique_function_base& f)`, lines 508-513. -/
def swap_2 (this f : Nat) (s : State 2) : State 2 :=
  let tmp := (s.objs this).vptr
  let s := s.set_vptr this (s.objs f).vptr
  let s := s.set_vptr f tmp
  let tmp := (s.objs this).object
  let s := s.set_object this (s.objs f).object
  s.set_object f tmp

/-- `unique_function_base<R(A0, A1)>::~unique_function_base()`, lines 405-411. -/
def destroy_2 (env : Env) (this : Nat) (s : State 2) : State 2 :=
  if (s.objs this).object ≠ 0 then s.call_static_delete env this else s

/-- The members of `unique_function_base<R(A0, A1)>`. -/
def members_2 : Members 2 where
  default_construct := default_construct_2
  construct := construct_2
  move_construct := move_construct_2
  assign := assign_2
  move_assign := move_assign_2
  swap := swap_2
  empty := empty_2
  reset := reset_2
  destroy := destroy_2

/-- `unique_function_base<R(A0, A1, A2)>::unique_function_base()`, lines 584-587. -/
def default_construct_3 (this : Nat) (s : State 3) : State 3 :=
  { s with objs := Function.update s.objs this ⟨get_empty_table_ptr, 0⟩ }

/-- `unique_function_base<R(A0, A1, A2)>::empty()`, lines 697-700. -/
def empty_3 (this : Nat) (s : State 3) : Bool :=
  (s.objs this).object == 0 && (s.objs this).vptr.empty

/-- `unique_function_base<R(A0, A1, A2)>::unique_function_base(Functor && f)`, lines 595-622. -/
def construct_3 (env : Env) (this : Nat) (f : Callable) (s : State 3) : State 3 :=
  let s := default_construct_3 this s
  if !env.is_empty_function f then
    let s := s.set_vptr this (get_table_ptr f.type)
    if env.sizeof f.type ≤ env.ptr_size then
      s.placement_new_slot env this f
    else
      s.new_block this f
  else s

/-- `unique_function_base<R(A0, A1, A2)>::unique_function_base(unique_function_base && other)`,
lines 623-629. -/
def move_construct_3 (this other : Nat) (s : State 3) : State 3 :=
  let s : State 3 :=
    { s with objs := Function.update s.objs this ⟨(s.objs other).vptr, (s.objs other).object⟩ }
  let s := s.set_vptr other get_empty_table_ptr
  s.set_object other 0

/-- `unique_function_base<R(A0, A1, A2)>::reset()`, lines 709-717. -/
def reset_3 (env : Env) (this : Nat) (s : State 3) : State 3 :=
  if !empty_3 this s then
    let s := s.call_static_delete env this
    let s := s.set_vptr this get_empty_table_ptr
    s.set_object this 0
  else s

/-- `unique_function_base<R(A0, A1, A2)>::assign(Functor && f)`, lines 630-673; `addr_f` is `&f`. -/
def assign_3 (env : Env) (this : Nat) (addr_f : Nat) (f : Callable) (s : State 3) :
    State 3 :=
  if this = addr_f then s
  else
    let f_vptr := get_table_ptr f.type
    if (s.objs this).vptr = f_vptr && !empty_3 this s then
      if env.sizeof f.type ≤ env.ptr_size then
        let s := s.call_destruct env this
        s.placement_new_slot env this f
      else if (s.objs this).object ≠ 0 then
        let s := s.call_destruct env this
        s.placement_new_block this f
      else
        s.new_block this f
    else
      let s := reset_3 env this s
      if !env.is_empty_function f then
        let s :=
          if env.sizeof f.type ≤ env.ptr_size then
            s.placement_new_slot env this f
          else
            s.new_block this f
        s.set_vptr this f_vptr
      else s

/-- `unique_function_base<R(A0, A1, A2)>::operator=(unique_function_base && t)`, lines 679-690. -/
def move_assign_3 (env : Env) (this t : Nat) (s : State 3) : State 3 :=
  if this ≠ t then
    let s := reset_3 env this s
    let s := s.set_vptr this (s.objs t).vptr
    let s := s.set_object this (s.objs t).object
    let s := s.set_vptr t get_empty_table_ptr
    s.set_object t 0
  else s

/-- `unique_function_base<R(A0, A1, A2)>::swap(unique_function_base& f)`, lines 691-696. -/
def swap_3 (this f : Nat) (s : State 3) : State 3 :=
  let tmp := (s.objs this).vptr
  let s := s.set_vptr this (s.objs f).vptr
  let s := s.set_vptr f tmp
  let tmp := (s.objs this).object
  let s := s.set_object this (s.objs f).object
  s.set_object f tmp

/-- `unique_function_base<R(A0, A1, A2)>::~unique_function_base()`, lines 588-594. -/
def destroy_3 (env : Env) (this : Nat) (s : State 3) : State 3 :=
  if (s.objs this).object ≠ 0 then s.call_static_delete env this else s

/-- The members of `unique_function_base<R(A0, A1, A2)>`. -/
def members_3 : Members 3 where
  default_construct := default_construct_3
  construct := construct_3
  move_construct := move_construct_3
  assign := assign_3
  move_assign := move_assign_3
  swap := swap_3
  empty := empty_3
  reset := reset_3
  destroy := destroy_3

/-- `unique_function_base<R(A0, A1, A2, A3)>::unique_function_base()`, lines 767-770. -/
def default_construct_4 (this : Nat) (s : State 4) : State 4 :=
  { s with objs := Function.update s.objs this ⟨get_empty_table_ptr, 0⟩ }

/-- `unique_function_base<R(A0, A1, A2, A3)>::empty()`, lines 880-883. -/
def empty_4 (this : Nat) (s : State 4) : Bool :=
  (s.objs this).object == 0 && (s.objs this).vptr.empty

/-- `unique_function_base<R(A0, A1, A2, A3)>::unique_function_base(Functor && f)`, lines 778-805. -/
def construct_4 (env : Env) (this : Nat) (f : Callable) (s : State 4) : State 4 :=
  let s := default_construct_4 this s
  if !env.is_empty_function f then
    let s := s.set_vptr this (get_table_ptr f.type)
    if env.sizeof f.type ≤ env.ptr_size then
      s.placement_new_slot env this f
    else
      s.new_block this f
  else s

/-- `unique_function_base<R(A0, A1, A2, A3)>::unique_function_base(unique_function_base && other)`,
lines 806-812. -/
def move_construct_4 (this other : Nat) (s : State 4) : State 4 :=
  let s : State 4 :=
    { s with objs := Function.update s.objs this ⟨(s.objs other).vptr, (s.objs other).object⟩ }
  let s := s.set_vptr other get_empty_table_ptr
  s.set_object other 0

/-- `unique_function_base<R(A0, A1, A2, A3)>::reset()`, lines 892-900. -/
def reset_4 (env : Env) (this : Nat) (s : State 4) : State 4 :=
  if !empty_4 this s then
    let s := s.call_static_delete env this
    let s := s.set_vptr this get_empty_table_ptr
    s.set_object this 0
  else s

/-- `unique_function_base<R(A0, A1, A2, A3)>::assign(Functor && f)`, lines 813-856; `addr_f` is `&f`. -/
def assign_4 (env : Env) (this : Nat) (addr_f : Nat) (f : Callable) (s : State 4) :
    State 4 :=
  if this = addr_f then s
  else
    let f_vptr := get_table_ptr f.type
    if (s.objs this).vptr = f_vptr && !empty_4 this s then
      if env.sizeof f.type ≤ env.ptr_size then
        let s := s.call_destruct env this
        s.placement_new_slot env this f
      else if (s.objs this).object ≠ 0 then
        let s := s.call_destruct env this
        s.placement_new_block this f
      else
        s.new_block this f
    else
      let s := reset_4 env this s
      if !env.is_empty_function f then
        let s :=
          if env.sizeof f.type ≤ env.ptr_size then
            s.placement_new_slot env this f
          else
            s.new_block this f
        s.set_vptr this f_vptr
      else s

/-- `unique_function_base<R(A0, A1, A2, A3)>::operator=(unique_function_base && t)`, lines 862-873. -/
def move_assign_4 (env : Env) (this t : Nat) (s : State 4) : State 4 :=
  if this ≠ t then
    let s := reset_4 env this s
    let s := s.set_vptr this (s.objs t).vptr
    let s := s.set_object this (s.objs t).object
    let s := s.set_vptr t get_empty_table_ptr
    s.set_object t 0
  else s

/-- `unique_function_base<R(A0, A1, A2, A3)>::swap(unique_function_base& f)`, lines 874-879. -/
def swap_4 (this f : Nat) (s : State 4) : State 4 :=
  let tmp := (s.objs this).vptr
  let s := s.set_vptr this (s.objs f).vptr
  let s := s.set_vptr f tmp
  let tmp := (s.objs this).object
  let s := s.set_object this (s.objs f).object
  s.set_object f tmp

/-- `unique_function_base<R(A0, A1, A2, A3)>::~unique_function_base()`, lines 771-777. -/
def destroy_4 (env : Env) (this : Nat) (s : State 4) : State 4 :=
  if (s.objs this).object ≠ 0 then s.call_static_delete env this else s

/-- The members of `unique_function_base<R(A0, A1, A2, A3)>`. -/
def members_4 : Members 4 where
  default_construct := default_construct_4
  construct := construct_4
  move_construct := move_construct_4
  assign := assign_4
  move_assign := move_assign_4
  swap := swap_4
  empty := empty_4
  reset := reset_4
  destroy := destroy_4

/-- `unique_function_base<R(A0, A1, A2, A3, A4)>::unique_function_base()`, lines 950-953. -/
def default_construct_5 (this : Nat) (s : State 5) : State 5 :=
  { s with objs := Function.update s.objs this ⟨get_empty_table_ptr, 0⟩ }

/-- `unique_function_base<R(A0, A1, A2, A3, A4)>::empty()`, lines 1063-1066. -/
def empty_5 (this : Nat) (s : State 5) : Bool :=
  (s.objs this).object == 0 && (s.objs this).vptr.empty

/-- `unique_function_base<R(A0, A1, A2, A3, A4)>::unique_function_base(Functor && f)`, lines 961-988. -/
def construct_5 (env : Env) (this : Nat) (f : Callable) (s : State 5) : State 5 :=
  let s := default_construct_5 this s
  if !env.is_empty_function f then
    let s := s.set_vptr this (get_table_ptr f.type)
    if env.sizeof f.type ≤ env.ptr_size then
      s.placement_new_slot env this f
    else
      s.new_block this f
  else s

/-- `unique_function_base<R(A0, A1, A2, A3, A4)>::unique_function_base(unique_function_base && other)`,
lines 989-995. -/
def move_construct_5 (this other : Nat) (s : State 5) : State 5 :=
  let s : State 5 :=
    { s with objs := Function.update s.objs this ⟨(s.objs other).vptr, (s.objs other).object⟩ }
  let s := s.set_vptr other get_empty_table_ptr
  s.set_object other 0

/-- `unique_function_base<R(A0, A1, A2, A3, A4)>::reset()`, lines 1075-1083. -/
def reset_5 (env : Env) (this : Nat) (s : State 5) : State 5 :=
  if !empty_5 this s then
    let s := s.call_static_delete env this
    let s := s.set_vptr this get_empty_table_ptr
    s.set_object this 0
  else s

/-- `unique_function_base<R(A0, A1, A2, A3, A4)>::assign(Functor && f)`, lines 996-1039; `addr_f` is `&f`. -/
def assign_5 (env : Env) (this : Nat) (addr_f : Nat) (f : Callable) (s : State 5) :
    State 5 :=
  if this = addr_f then s
  else
    let f_vptr := get_table_ptr f.type
    if (s.objs this).vptr = f_vptr && !empty_5 this s then
      if env.sizeof f.type ≤ env.ptr_size then
        let s := s.call_destruct env this
        s.placement_new_slot env this f
      else if (s.objs this).object ≠ 0 then
        let s := s.call_destruct env this
        s.placement_new_block this f
      else
        s.new_block this f
    else
      let s := reset_5 env this s
      if !env.is_empty_function f then
        let s :=
          if env.sizeof f.type ≤ env.ptr_size then
            s.placement_new_slot env this f
          else
            s.new_block this f
        s.set_vptr this f_vptr
      else s

/-- `unique_function_base<R(A0, A1, A2, A3, A4)>::operator=(unique_function_base && t)`, lines 1045-1056. -/
def move_assign_5 (env : Env) (this t : Nat) (s : State 5) : State 5 :=
  if this ≠ t then
    let s := reset_5 env this s
    let s := s.set_vptr this (s.objs t).vptr
    let s := s.set_object this (s.objs t).object
    let s := s.set_vptr t get_empty_table_ptr
    s.set_object t 0
  else s

/-- `unique_function_base<R(A0, A1, A2, A3, A4)>::swap(unique_function_base& f)`, lines 1057-1062. -/
def swap_5 (this f : Nat) (s : State 5) : State 5 :=
  let tmp := (s.objs this).vptr
  let s := s.set_vptr this (s.objs f).vptr
  let s := s.set_vptr f tmp
  let tmp := (s.objs this).object
  let s := s.set_object this (s.objs f).object
  s.set_object f tmp

/-- `unique_function_base<R(A0, A1, A2, A3, A4)>::~unique_function_base()`, lines 954-960. -/
def destroy_5 (env : Env) (this : Nat) (s : State 5) : State 5 :=
  if (s.objs this).object ≠ 0 then s.call_static_delete env this else s

/-- The members of `unique_function_base<R(A0, A1, A2, A3, A4)>`. -/
def members_5 : Members 5 where
  default_construct := default_construct_5
  construct := construct_5
  move_construct := move_construct_5
  assign := assign_5
  move_assign := move_assign_5
  swap := swap_5
  empty := empty_5
  reset := reset_5
  destroy := destroy_5

/-- `unique_function_base<R(A0, A1, A2, A3, A4, A5)>::unique_function_base()`, lines 1133-1136. -/
def default_construct_6 (this : Nat) (s : State 6) : State 6 :=
  { s with objs := Function.update s.objs this ⟨get_empty_table_ptr, 0⟩ }

/-- `unique_function_base<R(A0, A1, A2, A3, A4, A5)>::empty()`, lines 1246-1249. -/
def empty_6 (this : Nat) (s : State 6) : Bool :=
  (s.objs this).object == 0 && (s.objs this).vptr.empty

/-- `unique_function_base<R(A0, A1, A2, A3, A4, A5)>::unique_function_base(Functor && f)`, lines 1144-1171. -/
def construct_6 (env : Env) (this : Nat) (f : Callable) (s : State 6) : State 6 :=
  let s := default_construct_6 this s
  if !env.is_empty_function f then
    let s := s.set_vptr this (get_table_ptr f.type)
    if env.sizeof f.type ≤ env.ptr_size then
      s.placement_new_slot env this f
    else
      s.new_block this f
  else s

/-- `unique_function_base<R(A0, A1, A2, A3, A4, A5)>::unique_function_base(unique_function_base && other)`,
lines 1172-1178. -/
def move_construct_6 (this other : Nat) (s : State 6) : State 6 :=
  let s : State 6 :=
    { s with objs := Function.update s.objs this ⟨(s.objs other).vptr, (s.objs other).object⟩ }
  let s := s.set_vptr other get_empty_table_ptr
  s.set_object other 0

/-- `unique_function_base<R(A0, A1, A2, A3, A4, A5)>::reset()`, lines 1258-1266. -/
def reset_6 (env : Env) (this : Nat) (s : State 6) : State 6 :=
  if !empty_6 this s then
    let s := s.call_static_delete env this
    let s := s.set_vptr this get_empty_table_ptr
    s.set_object this 0
  else s

/-- `unique_function_base<R(A0, A1, A2, A3, A4, A5)>::assign(Functor && f)`, lines 1179-1222; `addr_f` is `&f`. -/
def assign_6 (env : Env) (this : Nat) (addr_f : Nat) (f : Callable) (s : State 6) :
    State 6 :=
  if this = addr_f then s
  else
    let f_vptr := get_table_ptr f.type
    if (s.objs this).vptr = f_vptr && !empty_6 this s then
      if env.sizeof f.type ≤ env.ptr_size then
        let s := s.call_destruct env this
        s.placement_new_slot env this f
      else if (s.objs this).object ≠ 0 then
        let s := s.call_destruct env this
        s.placement_new_block this f
      else
        s.new_block this f
    else
      let s := reset_6 env this s
      if !env.is_empty_function f then
        let s :=
          if env.sizeof f.type ≤ env.ptr_size then
            s.placement_new_slot env this f
          else
            s.new_block this f
        s.set_vptr this f_vptr
      else s

/-- `unique_function_base<R(A0, A1, A2, A3, A4, A5)>::operator=(unique_function_base && t)`, lines 1228-1239. -/
def move_assign_6 (env : Env) (this t : Nat) (s : State 6) : State 6 :=
  if this ≠ t then
    let s := reset_6 env this s
    let s := s.set_vptr this (s.objs t).vptr
    let s := s.set_object this (s.objs t).object
    let s := s.set_vptr t get_empty_table_ptr
    s.set_object t 0
  else s

/-- `unique_function_base<R(A0, A1, A2, A3, A4, A5)>::swap(unique_function_base& f)`, lines 1240-1245. -/
def swap_6 (this f : Nat) (s : State 6) : State 6 :=
  let tmp := (s.objs this).vptr
  let s := s.set_vptr this (s.objs f).vptr
  let s := s.set_vptr f tmp
  let tmp := (s.objs this).object
  let s := s.set_object this (s.objs f).object
  s.set_object f tmp

/-- `unique_function_base<R(A0, A1, A2, A3, A4, A5)>::~unique_function_base()`, lines 1137-1143. -/
def destroy_6 (env : Env) (this : Nat) (s : State 6) : State 6 :=
  if (s.objs this).object ≠ 0 then s.call_static_delete env this else s

/-- The members of `unique_function_base<R(A0, A1, A2, A3, A4, A5)>`. -/
def members_6 : Members 6 where
  default_construct := default_construct_6
  construct := construct_6
  move_construct := move_construct_6
  assign := assign_6
  move_assign := move_assign_6
  swap := swap_6
  empty := empty_6
  reset := reset_6
  destroy := destroy_6

/-- `unique_function_base<R(A0, A1, A2, A3, A4, A5, A6)>::unique_function_base()`, lines 1316-1319. -/
def default_construct_7 (this : Nat) (s : State 7) : State 7 :=
  { s with objs := Function.update s.objs this ⟨get_empty_table_ptr, 0⟩ }

/-- `unique_function_base<R(A0, A1, A2, A3, A4, A5, A6)>::empty()`, lines 1429-1432. -/
def empty_7 (this : Nat) (s : State 7) : Bool :=
  (s.objs this).object == 0 && (s.objs this).vptr.empty

/-- `unique_function_base<R(A0, A1, A2, A3, A4, A5, A6)>::unique_function_base(Functor && f)`, lines 1327-1354. -/
def construct_7 (env : Env) (this : Nat) (f : Callable) (s : State 7) : State 7 :=
  let s := default_construct_7 this s
  if !env.is_empty_function f then
    let s := s.set_vptr this (get_table_ptr f.type)
    if env.sizeof f.type ≤ env.ptr_size then
      s.placement_new_slot env this f
    else
      s.new_block this f
  else s

/-- `unique_function_base<R(A0, A1, A2, A3, A4, A5, A6)>::unique_function_base(unique_function_base && other)`,
lines 1355-1361. -/
def move_construct_7 (this other : Nat) (s : State 7) : State 7 :=
  let s : State 7 :=
    { s with objs := Function.update s.objs this ⟨(s.objs other).vptr, (s.objs other).object⟩ }
  let s := s.set_vptr other get_empty_table_ptr
  s.set_object other 0

/-- `unique_function_base<R(A0, A1, A2, A3, A4, A5, A6)>::reset()`, lines 1441-1449. -/
def reset_7 (env : Env) (this : Nat) (s : State 7) : State 7 :=
  if !empty_7 this s then
    let s := s.call_static_delete env this
    let s := s.set_vptr this get_empty_table_ptr
    s.set_object this 0
  else s

/-- `unique_function_base<R(A0, A1, A2, A3, A4, A5, A6)>::assign(Functor && f)`, lines 1362-1405; `addr_f` is `&f`. -/
def assign_7 (env : Env) (this : Nat) (addr_f : Nat) (f : Callable) (s : State 7) :
    State 7 :=
  if this = addr_f then s
  else
    let f_vptr := get_table_ptr f.type
    if (s.objs this).vptr = f_vptr && !empty_7 this s then
      if env.sizeof f.type ≤ env.ptr_size then
        let s := s.call_destruct env this
        s.placement_new_slot env this f
      else if (s.objs this).object ≠ 0 then
        let s := s.call_destruct env this
        s.placement_new_block this f
      else
        s.new_block this f
    else
      let s := reset_7 env this s
      if !env.is_empty_function f then
        let s :=
          if env.sizeof f.type ≤ env.ptr_size then
            s.placement_new_slot env this f
          else
            s.new_block this f
        s.set_vptr this f_vptr
      else s

/-- `unique_function_base<R(A0, A1, A2, A3, A4, A5, A6)>::operator=(unique_function_base && t)`, lines 1411-1422. -/
def move_assign_7 (env : Env) (this t : Nat) (s : State 7) : State 7 :=
  if this ≠ t then
    let s := reset_7 env this s
    let s := s.set_vptr this (s.objs t).vptr
    let s := s.set_object this (s.objs t).object
    let s := s.set_vptr t get_empty_table_ptr
    s.set_object t 0
  else s

/-- `unique_function_base<R(A0, A1, A2, A3, A4, A5, A6)>::swap(unique_function_base& f)`, lines 1423-1428. -/
def swap_7 (this f : Nat) (s : State 7) : State 7 :=
  let tmp := (s.objs this).vptr
  let s := s.set_vptr this (s.objs f).vptr
  let s := s.set_vptr f tmp
  let tmp := (s.objs this).object
  let s := s.set_object this (s.objs f).object
  s.set_object f tmp

/-- `unique_function_base<R(A0, A1, A2, A3, A4, A5, A6)>::~unique_function_base()`, lines 1320-1326. -/
def destroy_7 (env : Env) (this : Nat) (s : State 7) : State 7 :=
  if (s.objs this).object ≠ 0 then s.call_static_delete env this else s

/-- The members of `unique_function_base<R(A0, A1, A2, A3, A4, A5, A6)>`. -/
def members_7 : Members 7 where
  default_construct := default_construct_7
  construct := construct_7
  move_construct := move_construct_7
  assign := assign_7
  move_assign := move_assign_7
  swap := swap_7
  empty := empty_7
  reset := reset_7
  destroy := destroy_7

/-- `unique_function_base<R(A0, A1, A2, A3, A4, A5, A6, A7)>::unique_function_base()`, lines 1499-1502. -/
def default_construct_8 (this : Nat) (s : State 8) : State 8 :=
  { s with objs := Function.update s.objs this ⟨get_empty_table_ptr, 0⟩ }

/-- `unique_function_base<R(A0, A1, A2, A3, A4, A5, A6, A7)>::empty()`, lines 1612-1615. -/
def empty_8 (this : Nat) (s : State 8) : Bool :=
  (s.objs this).object == 0 && (s.objs this).vptr.empty

/-- `unique_function_base<R(A0, A1, A2, A3, A4, A5, A6, A7)>::unique_function_base(Functor && f)`, lines 1510-1537. -/
def construct_8 (env : Env) (this : Nat) (f : Callable) (s : State 8) : State 8 :=
  let s := default_construct_8 this s
  if !env.is_empty_function f then
    let s := s.set_vptr this (get_table_ptr f.type)
    if env.sizeof f.type ≤ env.ptr_size then
      s.placement_new_slot env this f
    else
      s.new_block this f
  else s

/-- `unique_function_base<R(A0, A1, A2, A3, A4, A5, A6, A7)>::unique_function_base(unique_function_base && other)`,
lines 1538-1544. -/
def move_construct_8 (this other : Nat) (s : State 8) : State 8 :=
  let s : State 8 :=
    { s with objs := Function.update s.objs this ⟨(s.objs other).vptr, (s.objs other).object⟩ }
  let s := s.set_vptr other get_empty_table_ptr
  s.set_object other 0

/-- `unique_function_base<R(A0, A1, A2, A3, A4, A5, A6, A7)>::reset()`, lines 1624-1632. -/
def reset_8 (env : Env) (this : Nat) (s : State 8) : State 8 :=
  if !empty_8 this s then
    let s := s.call_static_delete env this
    let s := s.set_vptr this get_empty_table_ptr
    s.set_object this 0
  else s

/-- `unique_function_base<R(A0, A1, A2, A3, A4, A5, A6, A7)>::assign(Functor && f)`, lines 1545-1588; `addr_f` is `&f`. -/
def assign_8 (env : Env) (this : Nat) (addr_f : Nat) (f : Callable) (s : State 8) :
    State 8 :=
  if this = addr_f then s
  else
    let f_vptr := get_table_ptr f.type
    if (s.objs this).vptr = f_vptr && !empty_8 this s then
      if env.sizeof f.type ≤ env.ptr_size then
        let s := s.call_destruct env this
        s.placement_new_slot env this f
      else if (s.objs this).object ≠ 0 then
        let s := s.call_destruct env this
        s.placement_new_block this f
      else
        s.new_block this f
    else
      let s := reset_8 env this s
      if !env.is_empty_function f then
        let s :=
          if env.sizeof f.type ≤ env.ptr_size then
            s.placement_new_slot env this f
          else
            s.new_block this f
        s.set_vptr this f_vptr
      else s

/-- `unique_function_base<R(A0, A1, A2, A3, A4, A5, A6, A7)>::operator=(unique_function_base && t)`, lines 1594-1605. -/
def move_assign_8 (env : Env) (this t : Nat) (s : State 8) : State 8 :=
  if this ≠ t then
    let s := reset_8 env this s
    let s := s.set_vptr this (s.objs t).vptr
    let s := s.set_object this (s.objs t).object
    let s := s.set_vptr t get_empty_table_ptr
    s.set_object t 0
  else s

/-- `unique_function_base<R(A0, A1, A2, A3, A4, A5, A6, A7)>::swap(unique_function_base& f)`, lines 1606-1611. -/
def swap_8 (this f : Nat) (s : State 8) : State 8 :=
  let tmp := (s.objs this).vptr
  let s := s.set_vptr this (s.objs f).vptr
  let s := s.set_vptr f tmp
  let tmp := (s.objs this).object
  let s := s.set_object this (s.objs f).object
  s.set_object f tmp

/-- `unique_function_base<R(A0, A1, A2, A3, A4, A5, A6, A7)>::~unique_function_base()`, lines 1503-1509. -/
def destroy_8 (env : Env) (this : Nat) (s : State 8) : State 8 :=
  if (s.objs this).object ≠ 0 then s.call_static_delete env this else s

/-- The members of `unique_function_base<R(A0, A1, A2, A3, A4, A5, A6, A7)>`. -/
def members_8 : Members 8 where
  default_construct := default_construct_8
  construct := construct_8
  move_construct := move_construct_8
  assign := assign_8
  move_assign := move_assign_8
  swap := swap_8
  empty := empty_8
  reset := reset_8
  destroy := destroy_8

/-- The specialisation for `n` arguments, for the signatures the header
has one for. -/
def specialisation : (n : Nat) → Option (Members n)
  | 0 => some members_0
  | 1 => some members_1
  | 2 => some members_2
  | 3 => some members_3
  | 4 => some members_4
  | 5 => some members_5
  | 6 => some members_6
  | 7 => some members_7
  | 8 => some members_8
  | _ + 9 => none

end detail
end util

/-! ## Closures held by closures -/

namespace util
namespace detail

/-- A 64-bit target on which type `3` is a closure type itself,
`unique_function<Sig>`, a class derived from `unique_function_base` (so the
address of such a callable compares with `this`).  It takes two pointers,
the table pointer in the low eight bytes and the slot in the high eight,
and is empty by convention when the slot it holds is null.  Every other
type is a 24-byte functor that is never empty by convention. -/
def env64_nested : Env where
  ptr_size := 8
  sizeof := fun F => if F = 3 then 16 else 24
  is_empty_function := fun f => f.type == 3 && f.repr / 2 ^ 64 == 0

end detail
end util

/-! ## Submission with a target address -/

namespace applier

open threads util util.detail naming

/-- Modelled from the spec: the Work Descriptor of the data model,
"{closure, human-readable tag, priority, stack-size class, OS-thread
affinity hint, optional target global address}".  No such type is under
`src/`. -/
structure work_descriptor where
  closure : unique_function_base 1
  tag : thread_description
  priority : thread_priority
  stacksize : thread_stacksize
  os_thread : Nat
  target : Option gid_type
deriving DecidableEq, Repr

/-- Modelled from the spec: a call `send(serializedInvocation,
targetLocality)` into the Parcel Transport, with the parcel handler it is
made on, the callable sent, the address it is sent for and the locality
that address resolves to. -/
structure send_call where
  ph : Nat
  invocation : unique_function_base 1
  address : gid_type
  targetLocality : Nat
deriving DecidableEq, Repr

/-- What `submit` leaves behind: the handle, `ec`, the context with the
calls made into thread managers, and the calls made into the Parcel
Transport. -/
structure Submission where
  ret : thread_id_type
  ec : error_code
  rt : Runtime
  sends : List send_call

/-- Modelled from the spec: `submit(descriptor)` of the Applier, whose remote
path (serialising the invocation into a parcel and handing it to the Parcel
Transport) is code of the repository that is not under `src/`.  By the
spec: it "requires an Active-Applier bound to the calling context; fails
with `runtime-unavailable` otherwise, with no side effect"; "if
`descriptor.target` is absent or resolves to the local locality" it
forwards the wrapped descriptor "to the Thread Manager's registration entry
point", which is the adapter `register_thread`; "if the target resolves to
a non-local locality, the callable and arguments are serialized into a
parcel and handed to the Parcel Transport".  The locality of an address is
the "pure decode of the address's locality bits",
`get_locality_id_from_gid`; the local locality is that of the bound
applier. -/
def submit (W : Collaborators) (N : Resolvers) (descriptor : work_descriptor)
    (state : thread_state_enum) (run_now : Bool) (ec : error_code) (rt : Runtime) :
    Submission :=
  match get_applier_ptr rt with
  | Option.none =>
    ⟨thread_id_type.invalid_thread_id,
      HPX_THROWS_IF ec error.invalid_status "hpx::applier::submit"
        "global applier object is not accessible", rt, []⟩
  | some app =>
    let local_dispatch : Submission :=
      let r := register_thread W descriptor.closure descriptor.tag state run_now
        descriptor.priority descriptor.os_thread descriptor.stacksize ec rt
      ⟨r.ret, r.ec, r.rt, []⟩
    match descriptor.target with
    | Option.none => local_dispatch
    | some address =>
      if N.get_locality_id_from_gid address = ((rt.appliers app).get_locality_id N ec).1 then
        local_dispatch
      else
        ⟨thread_id_type.invalid_thread_id, ec, rt,
          [⟨(rt.appliers app).parcel_handler_, descriptor.closure, address,
            N.get_locality_id_from_gid address⟩]⟩

end applier

/-! ## Theorems: `unique_function_base` -/

namespace util
namespace detail

variable {arity : Nat}

theorem store_inline_zero (size repr : Nat) : store_inline size 0 repr = repr % 256 ^ size := by
  simp [store_inline]

theorem store_inline_mod (size object repr : Nat) :
    store_inline size object repr % 256 ^ size = repr % 256 ^ size := by
  unfold store_inline
  rw [Nat.mul_add_mod', Nat.mod_mod]

theorem empty_eq_false_of_table {this : Nat} {s : State arity} {F : TypeId}
    (h : (s.objs this).vptr = get_table_ptr F) : empty this s = false := by
  simp [empty, h, get_table_ptr, vtable_ptr.empty]

theorem object_eq_zero_of_empty {this : Nat} {s : State arity}
    (h : empty this s = true) : (s.objs this).object = 0 := by
  simp [empty] at h
  exact h.1

theorem reset_of_empty (env : Env) {this : Nat} {s : State arity}
    (h : empty this s = true) : reset env this s = s := by
  simp [reset, h]

theorem reset_of_not_empty (env : Env) {this : Nat} {s : State arity}
    (h : empty this s = false) :
    reset env this s =
      ((s.call_static_delete env this).set_vptr this get_empty_table_ptr).set_object this 0 := by
  simp [reset, h]

/-- C1: move construction.  After `d = move(c)` (with `d` at `this`, `c` at
`other`) the new closure has the table and slot `c` had, `c` is bound to the
canonical empty table with a null slot, so `c.empty()` is true; no table
operation runs and the heap is untouched.  Holds for every arity. -/
theorem move_construct_transfers (this other : Nat) (s : State arity) (h : this ≠ other) :
    (move_construct this other s).objs this = ⟨(s.objs other).vptr, (s.objs other).object⟩ ∧
    (move_construct this other s).objs other = ⟨get_empty_table_ptr, 0⟩ ∧
    empty other (move_construct this other s) = true ∧
    (∀ a, a ≠ this → a ≠ other → (move_construct this other s).objs a = s.objs a) ∧
    (move_construct this other s).heap = s.heap ∧
    (move_construct this other s).trace = s.trace := by
  refine ⟨?_, ?_, ?_, ?_, rfl, rfl⟩
  · simp [move_construct, unique_function_base.move_construct, Function.update, h]
  · simp [move_construct, unique_function_base.move_construct, Function.update]
  · simp [move_construct, unique_function_base.move_construct, Function.update, empty,
      get_empty_table_ptr, vtable_ptr.empty]
  · intro a h1 h2
    simp [move_construct, Function.update, h1, h2]

/-- C2: `empty()` is true exactly when the slot is null and the bound table
reports itself as the canonical empty table; a default-constructed closure
is empty. -/
theorem empty_iff (this : Nat) (s : State arity) :
    (empty this s = true ↔
      (s.objs this).object = 0 ∧ (s.objs this).vptr.empty = true) ∧
    empty this (default_construct this s) = true := by
  constructor
  · simp [empty]
  · simp [empty, default_construct, get_empty_table_ptr, vtable_ptr.empty]

/-- C3: constructing from a callable that is empty by convention leaves the
closure in the empty state, whatever the callable's concrete type: canonical
empty table, null slot, `empty()` true; nothing is constructed or allocated. -/
theorem construct_empty_function (env : Env) (this : Nat) (f : Callable) (s : State arity)
    (h : env.is_empty_function f = true) :
    (construct env this f s).objs this = ⟨get_empty_table_ptr, 0⟩ ∧
    empty this (construct env this f s) = true ∧
    (construct env this f s).heap = s.heap ∧
    (construct env this f s).trace = s.trace := by
  simp [construct, h, default_construct, empty, get_empty_table_ptr, vtable_ptr.empty]

theorem move_construct_transfers_witness :
    (0 : Nat) ≠ 1 ∧
    (move_construct 0 1 (construct env64 1 ⟨2, 77⟩ (state0 3))).objs 0 = ⟨vtable_ptr.table 2, 1⟩ ∧
    empty 1 (move_construct 0 1 (construct env64 1 ⟨2, 77⟩ (state0 3))) = true :=
  ⟨by decide,
    (move_construct_transfers 0 1 (construct env64 1 ⟨2, 77⟩ (state0 3)) (by decide)).1,
    (move_construct_transfers 0 1 (construct env64 1 ⟨2, 77⟩ (state0 3)) (by decide)).2.2.1⟩

theorem construct_empty_function_witness :
    env64.is_empty_function ⟨1, 0⟩ = true ∧
    empty 0 (construct env64 0 ⟨1, 0⟩ (state0 0)) = true :=
  ⟨by decide, (construct_empty_function env64 0 ⟨1, 0⟩ (state0 0) (by decide)).2.1⟩

/-- C4: constructing from a callable `f` of type `F` that is not empty by
convention binds the table of `F` and reports `empty() == false`.  If
`sizeof(F) <= sizeof(void *)` the value is constructed over the slot (the
slot carries the bytes of `f`), the heap is untouched and no block is
allocated; otherwise a fresh block holding `f` is allocated and the slot is
the non-null pointer to it.  The only event is the construction. -/
theorem construct_not_empty_function (env : Env) (this : Nat) (f : Callable) (s : State arity)
    (h : env.is_empty_function f = false) :
    ((construct env this f s).objs this).vptr = get_table_ptr f.type ∧
    empty this (construct env this f s) = false ∧
    (env.sizeof f.type ≤ env.ptr_size →
      ((construct env this f s).objs this).object = f.repr % 256 ^ env.sizeof f.type ∧
      (construct env this f s).heap = s.heap ∧
      (construct env this f s).brk = s.brk ∧
      (construct env this f s).trace = s.trace ++ [Event.placement_new_slot f]) ∧
    (¬ env.sizeof f.type ≤ env.ptr_size →
      ((construct env this f s).objs this).object = s.brk + 1 ∧
      ((construct env this f s).objs this).object ≠ 0 ∧
      (construct env this f s).heap ((construct env this f s).objs this).object = some f ∧
      (∀ a, a ≠ s.brk + 1 → (construct env this f s).heap a = s.heap a) ∧
      (construct env this f s).trace = s.trace ++ [Event.new_block (s.brk + 1) f]) := by
  by_cases hs : env.sizeof f.type ≤ env.ptr_size
  · simp [construct, h, hs, default_construct, empty, get_table_ptr, vtable_ptr.empty,
      State.set_vptr, State.set_object, State.placement_new_slot, store_inline_zero]
  · simp only [construct, h, hs, default_construct, empty, get_table_ptr, vtable_ptr.empty,
      State.set_vptr, State.set_object, State.new_block]
    simp
    intro a ha
    simp [Function.update, ha]

theorem construct_not_empty_function_witness :
    env64.is_empty_function ⟨0, 0⟩ = false ∧
    ((construct env64 0 ⟨0, 0⟩ (state0 0)).objs 0).vptr = vtable_ptr.table 0 ∧
    empty 0 (construct env64 0 ⟨0, 0⟩ (state0 0)) = false :=
  ⟨by decide,
    (construct_not_empty_function env64 0 ⟨0, 0⟩ (state0 0) (by decide)).1,
    (construct_not_empty_function env64 0 ⟨0, 0⟩ (state0 0) (by decide)).2.1⟩

/-- C7: self-assignment.  `c.assign(c)`, also reached through the forwarding
`operator=`, returns the state it was given: table, slot, heap and trace are
unchanged, so nothing is destroyed or released. -/
theorem assign_self (env : Env) (this : Nat) (f : Callable) (s : State arity) :
    assign env this this f s = s ∧ assign_forward env this this f s = s := by
  simp [assign, assign_forward]

/-- C8: same-type re-assignment.  For a closure bound to the table of `F`
(which makes it non-empty) and a callable `f` of type `F` other than the
closure itself, `assign(f)` keeps the bound table.  If
`sizeof(F) <= sizeof(void *)` the old value is destructed through the table
and `f` is constructed over the same slot, with the heap untouched and no
block allocated.  If `sizeof(F)` is larger and the slot is non-null the old
value is destructed, `f` is constructed into the block the slot points to
and the slot is unchanged.  In both cases the closure holds `f`. -/
theorem assign_same_type (env : Env) (this addr_f : Nat) (f : Callable) (s : State arity)
    (hne : this ≠ addr_f) (hv : (s.objs this).vptr = get_table_ptr f.type) :
    empty this s = false ∧
    ((assign env this addr_f f s).objs this).vptr = (s.objs this).vptr ∧
    (env.sizeof f.type ≤ env.ptr_size →
      ((assign env this addr_f f s).objs this).object =
        store_inline (env.sizeof f.type) (s.objs this).object f.repr ∧
      ((assign env this addr_f f s).objs this).object % 256 ^ env.sizeof f.type =
        f.repr % 256 ^ env.sizeof f.type ∧
      (assign env this addr_f f s).heap = s.heap ∧
      (assign env this addr_f f s).brk = s.brk ∧
      (assign env this addr_f f s).trace = s.trace ++
        [Event.destruct (s.objs this).vptr (s.objs this).object, Event.placement_new_slot f]) ∧
    (¬ env.sizeof f.type ≤ env.ptr_size → (s.objs this).object ≠ 0 →
      ((assign env this addr_f f s).objs this).object = (s.objs this).object ∧
      (assign env this addr_f f s).heap (s.objs this).object = some f ∧
      (assign env this addr_f f s).brk = s.brk ∧
      (assign env this addr_f f s).trace = s.trace ++
        [Event.destruct (s.objs this).vptr (s.objs this).object,
          Event.placement_new_block (s.objs this).object f]) ∧
    (¬ env.sizeof f.type ≤ env.ptr_size → (s.objs this).object = 0 →
      ((assign env this addr_f f s).objs this).object = s.brk + 1 ∧
      (assign env this addr_f f s).heap (s.brk + 1) = some f ∧
      (assign env this addr_f f s).trace = s.trace ++ [Event.new_block (s.brk + 1) f]) := by
  have he : empty this s = false := empty_eq_false_of_table hv
  refine ⟨he, ?_, ?_, ?_, ?_⟩
  · by_cases hs : env.sizeof f.type ≤ env.ptr_size
    · simp [assign, hne, hv, he, hs, State.call_destruct, State.placement_new_slot,
        State.set_object]
    · by_cases ho : (s.objs this).object = 0
      · simp [assign, hne, hv, he, hs, ho, State.new_block, State.set_object]
      · simp [assign, hne, hv, he, hs, ho, State.call_destruct, State.placement_new_block]
  · intro hs
    have hA : assign env this addr_f f s =
        (s.call_destruct env this).placement_new_slot env this f := by
      simp [assign, hne, hv, he, hs]
    rw [hA]
    have ho : (((s.call_destruct env this).placement_new_slot env this f).objs this).object =
        store_inline (env.sizeof f.type) (s.objs this).object f.repr := by
      simp [State.call_destruct, State.placement_new_slot, State.set_object]
    refine ⟨ho, ?_, ?_, ?_, ?_⟩
    · rw [ho, store_inline_mod]
    · simp [State.call_destruct, State.placement_new_slot, State.set_object,
        vtable_ptr.destruct, hv, get_table_ptr, hs]
    · simp [State.call_destruct, State.placement_new_slot, State.set_object]
    · simp [State.call_destruct, State.placement_new_slot, State.set_object]
  · intro hs ho
    simp [assign, hne, hv, he, hs, ho, State.call_destruct, State.placement_new_block]
  · intro hs ho
    simp [assign, hne, hv, he, hs, ho, State.new_block, State.set_object]

theorem assign_same_type_witness :
    (0 : Nat) ≠ 9 ∧
    ((construct env64 0 ⟨2, 77⟩ (state0 0)).objs 0).vptr = get_table_ptr 2 ∧
    ((assign env64 0 9 ⟨2, 78⟩ (construct env64 0 ⟨2, 77⟩ (state0 0))).objs 0).vptr =
      ((construct env64 0 ⟨2, 77⟩ (state0 0)).objs 0).vptr :=
  ⟨by decide, by decide,
    (assign_same_type env64 0 9 ⟨2, 78⟩ (construct env64 0 ⟨2, 77⟩ (state0 0))
      (by decide) (by decide)).2.1⟩

/-- C9: assignment without storage reuse.  For a closure that is empty or
bound to a table other than that of `F`, and a callable `f` of type `F` that
is not empty by convention, `assign(f)` first resets: a non-empty closure
has `static_delete` called exactly once, through the table it was bound to,
an empty one has nothing called.  It then constructs `f` (over the slot if
`sizeof(F) <= sizeof(void *)`, into a fresh block otherwise) and binds the
table of `F`, so `empty()` is false. -/
theorem assign_other_type (env : Env) (this addr_f : Nat) (f : Callable) (s : State arity)
    (hne : this ≠ addr_f)
    (hv : empty this s = true ∨ (s.objs this).vptr ≠ get_table_ptr f.type)
    (hf : env.is_empty_function f = false) :
    ((assign env this addr_f f s).objs this).vptr = get_table_ptr f.type ∧
    empty this (assign env this addr_f f s) = false ∧
    (env.sizeof f.type ≤ env.ptr_size →
      ((assign env this addr_f f s).objs this).object = f.repr % 256 ^ env.sizeof f.type ∧
      (assign env this addr_f f s).heap = (reset env this s).heap ∧
      (assign env this addr_f f s).brk = s.brk ∧
      (assign env this addr_f f s).trace = s.trace ++
        (if empty this s then []
          else [Event.static_delete (s.objs this).vptr (s.objs this).object]) ++
        [Event.placement_new_slot f]) ∧
    (¬ env.sizeof f.type ≤ env.ptr_size →
      ((assign env this addr_f f s).objs this).object = s.brk + 1 ∧
      ((assign env this addr_f f s).objs this).object ≠ 0 ∧
      (assign env this addr_f f s).heap (s.brk + 1) = some f ∧
      (∀ a, a ≠ s.brk + 1 → (assign env this addr_f f s).heap a = (reset env this s).heap a) ∧
      (assign env this addr_f f s).trace = s.trace ++
        (if empty this s then []
          else [Event.static_delete (s.objs this).vptr (s.objs this).object]) ++
        [Event.new_block (s.brk + 1) f]) := by
  have hc : ((s.objs this).vptr = get_table_ptr f.type && !empty this s) = false := by
    rcases hv with hv | hv
    · simp [hv]
    · simp [hv]
  have hA : assign env this addr_f f s =
      (if env.sizeof f.type ≤ env.ptr_size then
          (reset env this s).placement_new_slot env this f
        else (reset env this s).new_block this f).set_vptr this (get_table_ptr f.type) := by
    simp [assign, hne, hc, hf]
  have hR : ((reset env this s).objs this).object = 0 ∧ (reset env this s).brk = s.brk ∧
      (reset env this s).trace = s.trace ++
        (if empty this s then []
          else [Event.static_delete (s.objs this).vptr (s.objs this).object]) := by
    by_cases he : empty this s = true
    · rw [reset_of_empty env he]
      simp [he, object_eq_zero_of_empty he]
    · have he2 : empty this s = false := by simpa using he
      rw [reset_of_not_empty env he2]
      simp [he2, State.call_static_delete, State.set_object, State.set_vptr]
  obtain ⟨hR1, hR2, hR3⟩ := hR
  have hvptr : ((assign env this addr_f f s).objs this).vptr = get_table_ptr f.type := by
    rw [hA]
    simp [State.set_vptr]
  refine ⟨hvptr, empty_eq_false_of_table hvptr, ?_, ?_⟩
  · intro hs
    rw [hA]
    simp [hs, State.placement_new_slot, State.set_object, State.set_vptr, hR1, hR2, hR3,
      store_inline_zero]
  · intro hs
    rw [hA]
    simp only [hs, if_false, State.new_block, State.set_object, State.set_vptr, hR2, hR3]
    simp
    intro a ha
    simp [Function.update, ha]

theorem assign_other_type_witness :
    (0 : Nat) ≠ 9 ∧
    ((construct env64 0 ⟨2, 77⟩ (state0 0)).objs 0).vptr ≠ get_table_ptr 0 ∧
    env64.is_empty_function ⟨0, 5⟩ = false ∧
    ((assign env64 0 9 ⟨0, 5⟩ (construct env64 0 ⟨2, 77⟩ (state0 0))).objs 0).vptr =
      get_table_ptr 0 ∧
    empty 0 (assign env64 0 9 ⟨0, 5⟩ (construct env64 0 ⟨2, 77⟩ (state0 0))) = false :=
  ⟨by decide, by decide, by decide,
    (assign_other_type env64 0 9 ⟨0, 5⟩ (construct env64 0 ⟨2, 77⟩ (state0 0))
      (by decide) (Or.inr (by decide)) (by decide)).1,
    (assign_other_type env64 0 9 ⟨0, 5⟩ (construct env64 0 ⟨2, 77⟩ (state0 0))
      (by decide) (Or.inr (by decide)) (by decide)).2.1⟩

/-- C10: move assignment.  For distinct closures `a` (at `this`) and `b`
(at `t`), `a = move(b)` releases the old value of `a` exactly once through
the table `a` was bound to when `a` was non-empty and calls nothing
otherwise, leaves `a` with the table and slot `b` had, and leaves `b` bound
to the canonical empty table with a null slot; no other closure changes.
When both are the same object the state is unchanged. -/
theorem move_assign_transfers (env : Env) (this t : Nat) (s : State arity) (h : this ≠ t) :
    (move_assign env this t s).trace = s.trace ++
      (if empty this s then []
        else [Event.static_delete (s.objs this).vptr (s.objs this).object]) ∧
    (move_assign env this t s).heap =
      (if empty this s then s.heap
        else (s.objs this).vptr.static_delete env (s.objs this).object s.heap) ∧
    (move_assign env this t s).objs this = ⟨(s.objs t).vptr, (s.objs t).object⟩ ∧
    (move_assign env this t s).objs t = ⟨get_empty_table_ptr, 0⟩ ∧
    empty t (move_assign env this t s) = true ∧
    (∀ a, a ≠ this → a ≠ t → (move_assign env this t s).objs a = s.objs a) ∧
    move_assign env this this s = s := by
  have hA : move_assign env this t s =
      ((((reset env this s).set_vptr this ((reset env this s).objs t).vptr).set_object this
        (((reset env this s).set_vptr this ((reset env this s).objs t).vptr).objs t).object).set_vptr
          t get_empty_table_ptr).set_object t 0 := by
    simp [move_assign, h]
  have hR : (reset env this s).objs t = s.objs t ∧
      (∀ a, a ≠ this → (reset env this s).objs a = s.objs a) ∧
      (reset env this s).heap =
        (if empty this s then s.heap
          else (s.objs this).vptr.static_delete env (s.objs this).object s.heap) ∧
      (reset env this s).trace = s.trace ++
        (if empty this s then []
          else [Event.static_delete (s.objs this).vptr (s.objs this).object]) := by
    by_cases he : empty this s = true
    · rw [reset_of_empty env he]
      simp [he]
    · have he2 : empty this s = false := by simpa using he
      rw [reset_of_not_empty env he2]
      refine ⟨?_, ?_, ?_, ?_⟩
      · simp [he2, State.call_static_delete, State.set_object, State.set_vptr, Function.update,
          Ne.symm h]
      · intro a ha
        simp [State.call_static_delete, State.set_object, State.set_vptr, Function.update, ha]
      · simp [he2, State.call_static_delete, State.set_object, State.set_vptr]
      · simp [he2, State.call_static_delete, State.set_object, State.set_vptr]
  obtain ⟨hR1, hR2, hR3, hR4⟩ := hR
  have ht : (move_assign env this t s).objs t = ⟨get_empty_table_ptr, 0⟩ := by
    rw [hA]
    simp [State.set_object, State.set_vptr]
  refine ⟨?_, ?_, ?_, ht, ?_, ?_, ?_⟩
  · rw [hA]
    simp [State.set_object, State.set_vptr, hR4]
  · rw [hA]
    simp [State.set_object, State.set_vptr, hR3]
  · rw [hA]
    simp [State.set_object, State.set_vptr, Function.update, h, Ne.symm h, hR1]
  · simp [empty, ht, get_empty_table_ptr, vtable_ptr.empty]
  · intro a h1 h2
    rw [hA]
    simp [State.set_object, State.set_vptr, Function.update, h1, h2, hR2 a h1]
  · simp [move_assign]

theorem move_assign_transfers_witness :
    (0 : Nat) ≠ 1 ∧
    (move_assign env64 0 1 (construct env64 1 ⟨2, 77⟩ (construct env64 0 ⟨0, 5⟩ (state0 0)))).objs 0 =
      ⟨vtable_ptr.table 2, 1⟩ ∧
    (move_assign env64 0 1 (construct env64 1 ⟨2, 77⟩ (construct env64 0 ⟨0, 5⟩ (state0 0)))).objs 1 =
      ⟨vtable_ptr.empty_table, 0⟩ :=
  ⟨by decide,
    (move_assign_transfers env64 0 1
      (construct env64 1 ⟨2, 77⟩ (construct env64 0 ⟨0, 5⟩ (state0 0))) (by decide)).2.2.1,
    (move_assign_transfers env64 0 1
      (construct env64 1 ⟨2, 77⟩ (construct env64 0 ⟨0, 5⟩ (state0 0))) (by decide)).2.2.2.1⟩

end detail
end util

/-! ## Theorems: the applier adapters -/

namespace applier

open threads util util.detail

/-- C5: with no applier bound to the calling context (`get_applier_ptr()` is
null) each of the eight adapters reports `invalid_status` through `ec`,
makes no call into a thread manager and none into a parcel handler, and the
four `register_thread*` adapters return `invalid_thread_id`. -/
theorem adapters_no_applier (W : Collaborators) (rt : Runtime) (h : get_applier_ptr rt = none)
    (f0 : unique_function_base 0) (f1 : unique_function_base 1) (data : thread_init_data)
    (desc : thread_description) (lva : Nat) (state : thread_state_enum) (run_now : Bool)
    (priority : thread_priority) (os_thread : Nat) (stacksize : thread_stacksize)
    (ec : error_code) :
    ((register_thread_nullary W f0 desc state run_now priority os_thread stacksize ec rt).ec.value
        = error.invalid_status ∧
      (register_thread_nullary W f0 desc state run_now priority os_thread stacksize ec rt).rt.tm_calls
        = rt.tm_calls ∧
      (register_thread_nullary W f0 desc state run_now priority os_thread stacksize ec rt).rt.ph_calls
        = rt.ph_calls ∧
      (register_thread_nullary W f0 desc state run_now priority os_thread stacksize ec rt).ret
        = thread_id_type.invalid_thread_id) ∧
    ((register_thread W f1 desc state run_now priority os_thread stacksize ec rt).ec.value
        = error.invalid_status ∧
      (register_thread W f1 desc state run_now priority os_thread stacksize ec rt).rt.tm_calls
        = rt.tm_calls ∧
      (register_thread W f1 desc state run_now priority os_thread stacksize ec rt).rt.ph_calls
        = rt.ph_calls ∧
      (register_thread W f1 desc state run_now priority os_thread stacksize ec rt).ret
        = thread_id_type.invalid_thread_id) ∧
    ((register_thread_plain W f1 desc state run_now priority os_thread stacksize ec rt).ec.value
        = error.invalid_status ∧
      (register_thread_plain W f1 desc state run_now priority os_thread stacksize ec rt).rt.tm_calls
        = rt.tm_calls ∧
      (register_thread_plain W f1 desc state run_now priority os_thread stacksize ec rt).rt.ph_calls
        = rt.ph_calls ∧
      (register_thread_plain W f1 desc state run_now priority os_thread stacksize ec rt).ret
        = thread_id_type.invalid_thread_id) ∧
    ((register_thread_plain_data W data state run_now ec rt).ec.value = error.invalid_status ∧
      (register_thread_plain_data W data state run_now ec rt).rt.tm_calls = rt.tm_calls ∧
      (register_thread_plain_data W data state run_now ec rt).rt.ph_calls = rt.ph_calls ∧
      (register_thread_plain_data W data state run_now ec rt).ret
        = thread_id_type.invalid_thread_id) ∧
    ((register_work_nullary W f0 desc state priority os_thread stacksize ec rt).ec.value
        = error.invalid_status ∧
      (register_work_nullary W f0 desc state priority os_thread stacksize ec rt).rt.tm_calls
        = rt.tm_calls ∧
      (register_work_nullary W f0 desc state priority os_thread stacksize ec rt).rt.ph_calls
        = rt.ph_calls) ∧
    ((register_work W f1 desc state priority os_thread stacksize ec rt).ec.value
        = error.invalid_status ∧
      (register_work W f1 desc state priority os_thread stacksize ec rt).rt.tm_calls
        = rt.tm_calls ∧
      (register_work W f1 desc state priority os_thread stacksize ec rt).rt.ph_calls
        = rt.ph_calls) ∧
    ((register_work_plain W f1 desc lva state priority os_thread stacksize ec rt).ec.value
        = error.invalid_status ∧
      (register_work_plain W f1 desc lva state priority os_thread stacksize ec rt).rt.tm_calls
        = rt.tm_calls ∧
      (register_work_plain W f1 desc lva state priority os_thread stacksize ec rt).rt.ph_calls
        = rt.ph_calls) ∧
    ((register_work_plain_data W data state ec rt).ec.value = error.invalid_status ∧
      (register_work_plain_data W data state ec rt).rt.tm_calls = rt.tm_calls ∧
      (register_work_plain_data W data state ec rt).rt.ph_calls = rt.ph_calls) := by
  simp [register_thread_nullary, register_thread, register_thread_plain,
    register_thread_plain_data, register_work_nullary, register_work, register_work_plain,
    register_work_plain_data, h, HPX_THROWS_IF]

theorem adapters_no_applier_witness :
    get_applier_ptr (applier.deinit_tss (applier.init_tss 7 rt0)) = none ∧
    (register_thread_nullary W0 ⟨vtable_ptr.table 0, 5⟩ thread_description.none 0 true 1 0 2 ec0
        (applier.deinit_tss (applier.init_tss 7 rt0))).ec.value = error.invalid_status ∧
    (register_thread_nullary W0 ⟨vtable_ptr.table 0, 5⟩ thread_description.none 0 true 1 0 2 ec0
        (applier.deinit_tss (applier.init_tss 7 rt0))).rt.tm_calls = [] :=
  ⟨by decide,
    (adapters_no_applier W0 (applier.deinit_tss (applier.init_tss 7 rt0)) (by decide)
      ⟨vtable_ptr.table 0, 5⟩ ⟨vtable_ptr.table 0, 5⟩
      ⟨function.thread_function ⟨vtable_ptr.table 0, 5⟩, thread_description.none, 0, 1, 0, 8192⟩
      thread_description.none 0 0 true 1 0 2 ec0).1.1,
    (adapters_no_applier W0 (applier.deinit_tss (applier.init_tss 7 rt0)) (by decide)
      ⟨vtable_ptr.table 0, 5⟩ ⟨vtable_ptr.table 0, 5⟩
      ⟨function.thread_function ⟨vtable_ptr.table 0, 5⟩, thread_description.none, 0, 1, 0, 8192⟩
      thread_description.none 0 0 true 1 0 2 ec0).1.2.1⟩

/-- C6: with an applier bound, every adapter call appends exactly one call
to the calls made into thread managers, addressed to the bound applier's
thread manager (`register_thread` for the `register_thread*` adapters,
`register_work` for the `register_work*` adapters), and makes no call into a
parcel handler.  `register_work_plain` hands over the caller's `lva`, the
other descriptor-building adapters hand over local address 0, and all of them
reach the same entry point of the same thread manager. -/
theorem adapters_bound (W : Collaborators) (rt : Runtime) (app : Nat)
    (h : get_applier_ptr rt = some app)
    (f0 : unique_function_base 0) (f1 : unique_function_base 1) (data : thread_init_data)
    (desc : thread_description) (lva : Nat) (state : thread_state_enum) (run_now : Bool)
    (priority : thread_priority) (os_thread : Nat) (stacksize : thread_stacksize)
    (ec : error_code) :
    ((∃ d : thread_init_data, d.lva = 0 ∧
        (register_thread_nullary W f0 desc state run_now priority os_thread stacksize ec
          rt).rt.tm_calls = rt.tm_calls ++ [tm_call.register_thread (rt.appliers app).thread_manager_
            d thread_id_type.invalid_thread_id state run_now ec]) ∧
      (register_thread_nullary W f0 desc state run_now priority os_thread stacksize ec
        rt).rt.ph_calls = rt.ph_calls) ∧
    ((∃ d : thread_init_data, d.lva = 0 ∧
        (register_thread W f1 desc state run_now priority os_thread stacksize ec
          rt).rt.tm_calls = rt.tm_calls ++ [tm_call.register_thread (rt.appliers app).thread_manager_
            d thread_id_type.invalid_thread_id state run_now ec]) ∧
      (register_thread W f1 desc state run_now priority os_thread stacksize ec
        rt).rt.ph_calls = rt.ph_calls) ∧
    ((∃ d : thread_init_data, d.lva = 0 ∧
        (register_thread_plain W f1 desc state run_now priority os_thread stacksize ec
          rt).rt.tm_calls = rt.tm_calls ++ [tm_call.register_thread (rt.appliers app).thread_manager_
            d thread_id_type.invalid_thread_id state run_now ec]) ∧
      (register_thread_plain W f1 desc state run_now priority os_thread stacksize ec
        rt).rt.ph_calls = rt.ph_calls) ∧
    ((register_thread_plain_data W data state run_now ec rt).rt.tm_calls =
        rt.tm_calls ++ [tm_call.register_thread (rt.appliers app).thread_manager_
          data thread_id_type.invalid_thread_id state run_now ec] ∧
      (register_thread_plain_data W data state run_now ec rt).rt.ph_calls = rt.ph_calls) ∧
    ((∃ d : thread_init_data, d.lva = 0 ∧
        (register_work_nullary W f0 desc state priority os_thread stacksize ec
          rt).rt.tm_calls = rt.tm_calls ++ [tm_call.register_work (rt.appliers app).thread_manager_
            d state ec]) ∧
      (register_work_nullary W f0 desc state priority os_thread stacksize ec
        rt).rt.ph_calls = rt.ph_calls) ∧
    ((∃ d : thread_init_data, d.lva = 0 ∧
        (register_work W f1 desc state priority os_thread stacksize ec
          rt).rt.tm_calls = rt.tm_calls ++ [tm_call.register_work (rt.appliers app).thread_manager_
            d state ec]) ∧
      (register_work W f1 desc state priority os_thread stacksize ec
        rt).rt.ph_calls = rt.ph_calls) ∧
    ((∃ d : thread_init_data, d.lva = lva ∧
        (register_work_plain W f1 desc lva state priority os_thread stacksize ec
          rt).rt.tm_calls = rt.tm_calls ++ [tm_call.register_work (rt.appliers app).thread_manager_
            d state ec]) ∧
      (register_work_plain W f1 desc lva state priority os_thread stacksize ec
        rt).rt.ph_calls = rt.ph_calls) ∧
    ((register_work_plain_data W data state ec rt).rt.tm_calls =
        rt.tm_calls ++ [tm_call.register_work (rt.appliers app).thread_manager_ data state ec] ∧
      (register_work_plain_data W data state ec rt).rt.ph_calls = rt.ph_calls) := by
  simp only [register_thread_nullary, register_thread, register_thread_plain,
    register_thread_plain_data, register_work_nullary, register_work, register_work_plain,
    register_work_plain_data, h, Runtime.register_thread, Runtime.register_work,
    applier.get_thread_manager]
  exact ⟨⟨⟨_, rfl, rfl⟩, trivial⟩, ⟨⟨_, rfl, rfl⟩, trivial⟩, ⟨⟨_, rfl, rfl⟩, trivial⟩,
    ⟨trivial, trivial⟩, ⟨⟨_, rfl, rfl⟩, trivial⟩, ⟨⟨_, rfl, rfl⟩, trivial⟩,
    ⟨⟨_, rfl, rfl⟩, trivial⟩, ⟨trivial, trivial⟩⟩

theorem adapters_bound_witness :
    get_applier_ptr (applier.init_tss 7 rt0) = some 7 ∧
    (register_work_plain W0 ⟨vtable_ptr.table 0, 5⟩ thread_description.none 64 0 1 0 2 ec0
        (applier.init_tss 7 rt0)).rt.ph_calls = [] ∧
    (register_work_plain_data W0
        ⟨function.thread_function ⟨vtable_ptr.table 0, 5⟩, thread_description.none, 64, 1, 0, 8192⟩
        0 ec0 (applier.init_tss 7 rt0)).rt.tm_calls =
      [tm_call.register_work 207
        ⟨function.thread_function ⟨vtable_ptr.table 0, 5⟩, thread_description.none, 64, 1, 0, 8192⟩
        0 ec0] :=
  ⟨by decide,
    (adapters_bound W0 (applier.init_tss 7 rt0) 7 (by decide)
      ⟨vtable_ptr.table 0, 5⟩ ⟨vtable_ptr.table 0, 5⟩
      ⟨function.thread_function ⟨vtable_ptr.table 0, 5⟩, thread_description.none, 64, 1, 0, 8192⟩
      thread_description.none 64 0 true 1 0 2 ec0).2.2.2.2.2.2.1.2,
    (adapters_bound W0 (applier.init_tss 7 rt0) 7 (by decide)
      ⟨vtable_ptr.table 0, 5⟩ ⟨vtable_ptr.table 0, 5⟩
      ⟨function.thread_function ⟨vtable_ptr.table 0, 5⟩, thread_description.none, 64, 1, 0, 8192⟩
      thread_description.none 64 0 true 1 0 2 ec0).2.2.2.2.2.2.2.1⟩

end applier

/-! ## Theorems: swap, destruction, invocation -/

namespace util
namespace detail

variable {arity : Nat}

/-- C11: swap.  After `a.swap(b)` the closure `a` has the table and slot `b`
had and `b` has those `a` had (also when both are the same object); every
other closure, the heap and the allocator are untouched and the trace is
unchanged, so no table operation is called and nothing is constructed. -/
theorem swap_exchanges (this f : Nat) (s : State arity) :
    (swap this f s).objs this = s.objs f ∧
    (swap this f s).objs f = s.objs this ∧
    (∀ a, a ≠ this → a ≠ f → (swap this f s).objs a = s.objs a) ∧
    (swap this f s).heap = s.heap ∧
    (swap this f s).brk = s.brk ∧
    (swap this f s).trace = s.trace := by
  refine ⟨?_, ?_, ?_, rfl, rfl, rfl⟩
  · by_cases h : this = f
    · subst h
      simp [swap, State.set_vptr, State.set_object]
    · simp [swap, State.set_vptr, State.set_object, Function.update, h, Ne.symm h]
  · by_cases h : this = f
    · subst h
      simp [swap, State.set_vptr, State.set_object]
    · simp [swap, State.set_vptr, State.set_object, Function.update, h, Ne.symm h]
  · intro a h1 h2
    simp [swap, State.set_vptr, State.set_object, Function.update, h1, h2]

/-- C12, at the failing input: a closure constructed from a one-byte
callable whose byte is zero is bound to the callable's table with a null
slot, so `empty()` is false; destroying it calls nothing, while `reset()` on
the same closure calls `static_delete` once. -/
theorem destroy_skips_null_slot :
    (construct env64 0 ⟨0, 0⟩ (state0 0)).objs 0 = ⟨vtable_ptr.table 0, 0⟩ ∧
    empty 0 (construct env64 0 ⟨0, 0⟩ (state0 0)) = false ∧
    (destroy env64 0 (construct env64 0 ⟨0, 0⟩ (state0 0))).trace =
      (construct env64 0 ⟨0, 0⟩ (state0 0)).trace ∧
    (reset env64 0 (construct env64 0 ⟨0, 0⟩ (state0 0))).trace =
      (construct env64 0 ⟨0, 0⟩ (state0 0)).trace ++
        [Event.static_delete (vtable_ptr.table 0) 0] := by
  decide

/-- C13: invocation.  For every arity, `operator()` returns what the bound
table's `invoke` returns for the closure's slot and the arguments in the
order given: the result, or the failure signalled by the callable,
unchanged.  This holds for every closure, non-empty ones included. -/
theorem operator_call_forwards {A R E : Type} (this : Nat) (a0 a1 a2 a3 a4 a5 a6 a7 : A) :
    (∀ (I : Invoker 0 A R E) (s : State 0), (operator_call_0 I this s).1 =
      (I.invoke (s.objs this).vptr (s.objs this).object s.heap []).1) ∧
    (∀ (I : Invoker 1 A R E) (s : State 1), (operator_call_1 I this a0 s).1 =
      (I.invoke (s.objs this).vptr (s.objs this).object s.heap [a0]).1) ∧
    (∀ (I : Invoker 2 A R E) (s : State 2), (operator_call_2 I this a0 a1 s).1 =
      (I.invoke (s.objs this).vptr (s.objs this).object s.heap [a0, a1]).1) ∧
    (∀ (I : Invoker 3 A R E) (s : State 3), (operator_call_3 I this a0 a1 a2 s).1 =
      (I.invoke (s.objs this).vptr (s.objs this).object s.heap [a0, a1, a2]).1) ∧
    (∀ (I : Invoker 4 A R E) (s : State 4), (operator_call_4 I this a0 a1 a2 a3 s).1 =
      (I.invoke (s.objs this).vptr (s.objs this).object s.heap [a0, a1, a2, a3]).1) ∧
    (∀ (I : Invoker 5 A R E) (s : State 5), (operator_call_5 I this a0 a1 a2 a3 a4 s).1 =
      (I.invoke (s.objs this).vptr (s.objs this).object s.heap [a0, a1, a2, a3, a4]).1) ∧
    (∀ (I : Invoker 6 A R E) (s : State 6), (operator_call_6 I this a0 a1 a2 a3 a4 a5 s).1 =
      (I.invoke (s.objs this).vptr (s.objs this).object s.heap [a0, a1, a2, a3, a4, a5]).1) ∧
    (∀ (I : Invoker 7 A R E) (s : State 7), (operator_call_7 I this a0 a1 a2 a3 a4 a5 a6 s).1 =
      (I.invoke (s.objs this).vptr (s.objs this).object s.heap
        [a0, a1, a2, a3, a4, a5, a6]).1) ∧
    (∀ (I : Invoker 8 A R E) (s : State 8),
      (operator_call_8 I this a0 a1 a2 a3 a4 a5 a6 a7 s).1 =
      (I.invoke (s.objs this).vptr (s.objs this).object s.heap
        [a0, a1, a2, a3, a4, a5, a6, a7]).1) := by
  refine ⟨?_, ?_, ?_, ?_, ?_, ?_, ?_, ?_, ?_⟩ <;> intro I s <;> rfl

end detail
end util

/-! ## Theorems: context binding and localities -/

namespace applier

open threads util util.detail naming

theorem init_tss_cell_not_null (this : Nat) (rt : Runtime)
    (h : rt.applier_ ≠ some Option.none) :
    (applier.init_tss this rt).applier_ ≠ some Option.none := by
  unfold applier.init_tss
  split
  · simp
  · exact h

theorem deinit_tss_cell_not_null (rt : Runtime) :
    (applier.deinit_tss rt).applier_ ≠ some Option.none := by
  simp [applier.deinit_tss]

/-- C15: context binding is idempotent and first-wins.  `init_tss` binds the
applier it is called on when the context has no binding; when an applier is
already bound, the same or another one, it returns the context unchanged;
hence a second `init_tss`, by any instance, changes nothing. -/
theorem init_tss_first_wins (this other : Nat) (rt : Runtime) :
    (rt.applier_ = Option.none → get_applier_ptr (applier.init_tss this rt) = some this) ∧
    (rt.applier_ ≠ some Option.none → get_applier_ptr rt = Option.none →
      get_applier_ptr (applier.init_tss this rt) = some this) ∧
    (∀ bound, get_applier_ptr rt = some bound → applier.init_tss this rt = rt) ∧
    applier.init_tss other (applier.init_tss this rt) = applier.init_tss this rt ∧
    applier.init_tss this (applier.init_tss this rt) = applier.init_tss this rt := by
  refine ⟨?_, ?_, ?_, ?_, ?_⟩
  · intro h
    simp [applier.init_tss, get_applier_ptr, h]
  · intro h1 h2
    have h : rt.applier_ = Option.none := by
      cases hc : rt.applier_ with
      | none => rfl
      | some appl =>
        cases appl with
        | none => exact absurd hc h1
        | some a => simp [get_applier_ptr, hc] at h2
    simp [applier.init_tss, get_applier_ptr, h]
  · intro bound h
    have hb : rt.applier_ ≠ Option.none := by
      intro h0
      simp [get_applier_ptr, h0] at h
    simp [applier.init_tss, hb]
  · by_cases h : rt.applier_ = Option.none
    · simp [applier.init_tss, h]
    · simp [applier.init_tss, h]
  · by_cases h : rt.applier_ = Option.none
    · simp [applier.init_tss, h]
    · simp [applier.init_tss, h]

theorem init_tss_first_wins_witness :
    (rt0.applier_ = Option.none → get_applier_ptr (applier.init_tss 7 rt0) = some 7) ∧
    get_applier_ptr (applier.init_tss 8 (applier.init_tss 7 rt0)) = some 7 :=
  ⟨(init_tss_first_wins 7 8 rt0).1,
    (init_tss_first_wins 7 8 rt0).2.2.2.1 ▸ (init_tss_first_wins 7 8 rt0).1 rfl⟩

/-- C16: rebinding.  On any context, `A.init_tss(); deinit_tss();
B.init_tss()` leaves `get_applier_ptr()` returning `B`. -/
theorem rebind_latest (A B : Nat) (rt : Runtime) :
    get_applier_ptr (applier.init_tss B (applier.deinit_tss (applier.init_tss A rt))) =
      some B := by
  simp [applier.init_tss, applier.deinit_tss, get_applier_ptr]

/-- C17: before any `init_tss` (the context has no binding) and after
`deinit_tss`, whatever was bound before, `get_applier_ptr()` is null and each
of the eight adapters reports `invalid_status` and returns with the context
exactly as it found it: no call reaches any thread manager, the one of a
previously bound applier included, and the caller's argument is untouched.
The outcome is the same whatever the applier objects hold, so none is
dereferenced. -/
theorem adapters_fail_unbound (W : Collaborators) (rt prev : Runtime)
    (h : rt.applier_ = Option.none ∨ rt = applier.deinit_tss prev)
    (f0 : unique_function_base 0) (f1 : unique_function_base 1) (data : thread_init_data)
    (desc : thread_description) (lva : Nat) (state : thread_state_enum) (run_now : Bool)
    (priority : thread_priority) (os_thread : Nat) (stacksize : thread_stacksize)
    (ec : error_code) :
    get_applier_ptr rt = Option.none ∧
    ((register_thread_nullary W f0 desc state run_now priority os_thread stacksize ec rt).ec =
        ⟨error.invalid_status, "hpx::applier::register_thread_nullary", "global applier object is not accessible"⟩ ∧
      (register_thread_nullary W f0 desc state run_now priority os_thread stacksize ec rt).rt = rt ∧
      (register_thread_nullary W f0 desc state run_now priority os_thread stacksize ec rt).func = f0 ∧
      (register_thread_nullary W f0 desc state run_now priority os_thread stacksize ec rt).ret =
        thread_id_type.invalid_thread_id) ∧
    ((register_thread W f1 desc state run_now priority os_thread stacksize ec rt).ec =
        ⟨error.invalid_status, "hpx::applier::register_thread", "global applier object is not accessible"⟩ ∧
      (register_thread W f1 desc state run_now priority os_thread stacksize ec rt).rt = rt ∧
      (register_thread W f1 desc state run_now priority os_thread stacksize ec rt).func = f1 ∧
      (register_thread W f1 desc state run_now priority os_thread stacksize ec rt).ret =
        thread_id_type.invalid_thread_id) ∧
    ((register_thread_plain W f1 desc state run_now priority os_thread stacksize ec rt).ec =
        ⟨error.invalid_status, "hpx::applier::register_thread_plain", "global applier object is not accessible"⟩ ∧
      (register_thread_plain W f1 desc state run_now priority os_thread stacksize ec rt).rt = rt ∧
      (register_thread_plain W f1 desc state run_now priority os_thread stacksize ec rt).func = f1 ∧
      (register_thread_plain W f1 desc state run_now priority os_thread stacksize ec rt).ret =
        thread_id_type.invalid_thread_id) ∧
    ((register_thread_plain_data W data state run_now ec rt).ec =
        ⟨error.invalid_status, "hpx::applier::register_thread_plain", "global applier object is not accessible"⟩ ∧
      (register_thread_plain_data W data state run_now ec rt).rt = rt ∧
      (register_thread_plain_data W data state run_now ec rt).func = data ∧
      (register_thread_plain_data W data state run_now ec rt).ret =
        thread_id_type.invalid_thread_id) ∧
    ((register_work_nullary W f0 desc state priority os_thread stacksize ec rt).ec =
        ⟨error.invalid_status, "hpx::applier::register_work_nullary", "global applier object is not accessible"⟩ ∧
      (register_work_nullary W f0 desc state priority os_thread stacksize ec rt).rt = rt ∧
      (register_work_nullary W f0 desc state priority os_thread stacksize ec rt).func = f0) ∧
    ((register_work W f1 desc state priority os_thread stacksize ec rt).ec =
        ⟨error.invalid_status, "hpx::applier::register_work", "global applier object is not accessible"⟩ ∧
      (register_work W f1 desc state priority os_thread stacksize ec rt).rt = rt ∧
      (register_work W f1 desc state priority os_thread stacksize ec rt).func = f1) ∧
    ((register_work_plain W f1 desc lva state priority os_thread stacksize ec rt).ec =
        ⟨error.invalid_status, "hpx::applier::register_work_plain", "global applier object is not accessible"⟩ ∧
      (register_work_plain W f1 desc lva state priority os_thread stacksize ec rt).rt = rt ∧
      (register_work_plain W f1 desc lva state priority os_thread stacksize ec rt).func = f1) ∧
    ((register_work_plain_data W data state ec rt).ec =
        ⟨error.invalid_status, "hpx::applier::register_work_plain", "global applier object is not accessible"⟩ ∧
      (register_work_plain_data W data state ec rt).rt = rt ∧
      (register_work_plain_data W data state ec rt).func = data) := by
  have h0 : rt.applier_ = Option.none := by
    rcases h with h | h
    · exact h
    · rw [h]
      rfl
  have hp : get_applier_ptr rt = Option.none := by
    simp [get_applier_ptr, h0]
  simp [register_thread_nullary, register_thread, register_thread_plain,
    register_thread_plain_data, register_work_nullary, register_work, register_work_plain,
    register_work_plain_data, hp, HPX_THROWS_IF]

theorem adapters_fail_unbound_witness :
    get_applier_ptr (applier.init_tss 7 rt0) = some 7 ∧
    get_applier_ptr (applier.deinit_tss (applier.init_tss 7 rt0)) = Option.none ∧
    (register_work W0 ⟨vtable_ptr.table 0, 5⟩ thread_description.none 0 1 0 2 ec0
        (applier.deinit_tss (applier.init_tss 7 rt0))).ec =
      ⟨error.invalid_status, "hpx::applier::register_work",
        "global applier object is not accessible"⟩ :=
  ⟨by decide,
    (adapters_fail_unbound W0 (applier.deinit_tss (applier.init_tss 7 rt0))
      (applier.init_tss 7 rt0) (Or.inr rfl)
      ⟨vtable_ptr.table 0, 5⟩ ⟨vtable_ptr.table 0, 5⟩
      ⟨function.thread_function ⟨vtable_ptr.table 0, 5⟩, thread_description.none, 0, 1, 0, 8192⟩
      thread_description.none 0 0 true 1 0 2 ec0).1,
    (adapters_fail_unbound W0 (applier.deinit_tss (applier.init_tss 7 rt0))
      (applier.init_tss 7 rt0) (Or.inr rfl)
      ⟨vtable_ptr.table 0, 5⟩ ⟨vtable_ptr.table 0, 5⟩
      ⟨function.thread_function ⟨vtable_ptr.table 0, 5⟩, thread_description.none, 0, 1, 0, 8192⟩
      thread_description.none 0 0 true 1 0 2 ec0).2.2.2.2.2.2.1.1⟩

/-- C18: locality enumeration is atomic on failure.  For
`get_remote_localities` and both `get_localities` overloads, when the parcel
handler's raw query (called on an empty vector) returns false the function
returns false and the caller's vector is what it was before the call,
whatever the raw query wrote into its own vector. -/
theorem enumeration_failure_keeps_prefixes (N : Resolvers) (this : applier)
    (prefixes : List id_type) (type : Nat) (ec : error_code) (rt : Runtime) :
    ((N.get_raw_remote_localities this.parcel_handler_ [] type ec).1 = false →
      (this.get_remote_localities N prefixes type ec rt).ret = false ∧
      (this.get_remote_localities N prefixes type ec rt).prefixes = prefixes) ∧
    ((N.get_raw_localities this.parcel_handler_ [] N.component_invalid ec).1 = false →
      (this.get_localities N prefixes ec rt).ret = false ∧
      (this.get_localities N prefixes ec rt).prefixes = prefixes) ∧
    ((N.get_raw_localities this.parcel_handler_ [] type ec).1 = false →
      (this.get_localities_type N prefixes type ec rt).ret = false ∧
      (this.get_localities_type N prefixes type ec rt).prefixes = prefixes) := by
  refine ⟨?_, ?_, ?_⟩
  · intro h
    simp [applier.get_remote_localities, Runtime.get_raw_remote_localities, h]
  · intro h
    simp [applier.get_localities, Runtime.get_raw_localities, h]
  · intro h
    simp [applier.get_localities_type, Runtime.get_raw_localities, h]

theorem enumeration_failure_keeps_prefixes_witness :
    (N0.get_raw_remote_localities 100 [] 3 ec0).1 = false ∧
    (N0.get_raw_remote_localities 100 [] 3 ec0).2.1 = [⟨0x900000000, 0⟩] ∧
    (applier.get_remote_localities N0 ⟨100, 200⟩ [⟨⟨1, 1⟩, management_type.managed⟩] 3 ec0
      rt0).ret = false ∧
    (applier.get_remote_localities N0 ⟨100, 200⟩ [⟨⟨1, 1⟩, management_type.managed⟩] 3 ec0
      rt0).prefixes = [⟨⟨1, 1⟩, management_type.managed⟩] :=
  ⟨by decide, by decide,
    ((enumeration_failure_keeps_prefixes N0 ⟨100, 200⟩ [⟨⟨1, 1⟩, management_type.managed⟩] 3 ec0
      rt0).1 (by decide)).1,
    ((enumeration_failure_keeps_prefixes N0 ⟨100, 200⟩ [⟨⟨1, 1⟩, management_type.managed⟩] 3 ec0
      rt0).1 (by decide)).2⟩

/-- C19: the free function `get_locality_id(ec)`.  On a context whose
thread-specific cell, when present, holds an applier (which `init_tss` and
`deinit_tss` maintain): with no applier bound it returns
`naming::invalid_locality_id` and leaves `ec` alone; with an applier bound
it returns exactly what that applier's `get_locality_id(ec)` returns. -/
theorem get_locality_id_bound_or_invalid (N : Resolvers) (ec : error_code) (rt : Runtime)
    (h : rt.applier_ ≠ some Option.none) :
    (get_applier_ptr rt = Option.none →
      get_locality_id N ec rt = Checked.ok (N.invalid_locality_id, ec)) ∧
    (∀ app, get_applier_ptr rt = some app →
      get_locality_id N ec rt = Checked.ok ((rt.appliers app).get_locality_id N ec)) := by
  cases hc : rt.applier_ with
  | none => simp [get_locality_id, get_applier_ptr, hc]
  | some appl =>
    cases appl with
    | none => exact absurd hc h
    | some a => simp [get_locality_id, get_applier_ptr, hc]

theorem get_locality_id_bound_or_invalid_witness :
    rt0.applier_ ≠ some Option.none ∧
    (applier.init_tss 7 rt0).applier_ ≠ some Option.none ∧
    get_locality_id N0 ec0 rt0 = Checked.ok (0xFFFFFFFF, ec0) ∧
    get_locality_id N0 ec0 (applier.init_tss 7 rt0) = Checked.ok (2, ec0) :=
  ⟨by decide, by decide,
    (get_locality_id_bound_or_invalid N0 ec0 rt0 (by decide)).1 rfl,
    (get_locality_id_bound_or_invalid N0 ec0 (applier.init_tss 7 rt0) (by decide)).2 7 rfl⟩

/-- C20: `get_applier_ptr()` is a total read of the binding: null when the
context has no binding, the bound applier otherwise.  When an applier is
bound, the assertion of `get_applier()` holds and it returns the instance
`get_applier_ptr()` returns; with no binding its assertion fails. -/
theorem get_applier_agrees (rt : Runtime) :
    (rt.applier_ = Option.none → get_applier_ptr rt = Option.none) ∧
    (∀ app, rt.applier_ = some (some app) → get_applier_ptr rt = some app) ∧
    (∀ app, get_applier_ptr rt = some app → get_applier rt = Checked.ok app) ∧
    (rt.applier_ = Option.none → get_applier rt = Checked.assertion_failed) := by
  refine ⟨?_, ?_, ?_, ?_⟩
  · intro h
    simp [get_applier_ptr, h]
  · intro app h
    simp [get_applier_ptr, h]
  · intro app h
    cases hc : rt.applier_ with
    | none => simp [get_applier_ptr, hc] at h
    | some appl =>
      cases appl with
      | none => simp [get_applier_ptr, hc] at h
      | some a =>
        simp [get_applier_ptr, hc] at h
        simp [get_applier, hc, h]
  · intro h
    simp [get_applier, h]

theorem get_applier_agrees_witness :
    get_applier_ptr (applier.init_tss 7 rt0) = some 7 ∧
    get_applier (applier.init_tss 7 rt0) = Checked.ok 7 ∧
    get_applier_ptr rt0 = Option.none :=
  ⟨(get_applier_agrees (applier.init_tss 7 rt0)).2.1 7 rfl,
    (get_applier_agrees (applier.init_tss 7 rt0)).2.2.1 7 rfl,
    (get_applier_agrees rt0).1 rfl⟩

end applier

/-! ## Theorems: the storage invariant -/

namespace util
namespace detail

variable {arity : Nat}

theorem slot_ok_empty (env : Env) (heap : Heap) (brk : Nat) :
    (⟨get_empty_table_ptr, 0⟩ : unique_function_base arity).slot_ok env heap brk := by
  simp [unique_function_base.slot_ok, get_empty_table_ptr]

theorem not_boxed_empty (env : Env) (o : Nat) :
    ¬ (⟨get_empty_table_ptr, o⟩ : unique_function_base arity).boxed env := by
  simp [unique_function_base.boxed, get_empty_table_ptr]

theorem boxed_slot {env : Env} {heap : Heap} {brk : Nat} {c : unique_function_base arity}
    (hb : c.boxed env) (hc : c.slot_ok env heap brk) :
    c.object ≠ 0 ∧ c.object ≤ brk ∧ ∃ f : Callable, heap c.object = some f := by
  obtain ⟨F, hF, hs⟩ := hb
  simp only [unique_function_base.slot_ok, hF, hs, if_false] at hc
  obtain ⟨h1, h2, f, h3, _⟩ := hc
  exact ⟨h1, h2, f, h3⟩

theorem slot_ok_frame {env : Env} {heap heap' : Heap} {brk brk' : Nat}
    {c : unique_function_base arity} (hc : c.slot_ok env heap brk) (hbrk : brk ≤ brk')
    (hheap : c.boxed env → heap' c.object = heap c.object) :
    c.slot_ok env heap' brk' := by
  unfold unique_function_base.slot_ok at hc ⊢
  cases hv : c.vptr with
  | empty_table => simpa [hv] using hc
  | table F =>
    simp only [hv] at hc ⊢
    by_cases hs : env.sizeof F ≤ env.ptr_size
    · simpa [hs] using hc
    · simp only [hs, if_false] at hc ⊢
      obtain ⟨h1, h2, f, h3, h4⟩ := hc
      exact ⟨h1, le_trans h2 hbrk, f, by rw [hheap ⟨F, hv, hs⟩]; exact h3, h4⟩

/-- A store stays well stored when one closure is replaced by a closure
whose slot agrees with its table, blocks of other closures are kept and the
new closure shares no block with them. -/
theorem well_stored_update {env : Env} {s s' : State arity} (h : well_stored env s)
    (this : Nat) (c : unique_function_base arity)
    (hobjs : s'.objs = Function.update s.objs this c)
    (hbrk : s.brk ≤ s'.brk)
    (hc : c.slot_ok env s'.heap s'.brk)
    (hheap : ∀ a, a ≠ this → (s.objs a).boxed env →
      s'.heap (s.objs a).object = s.heap (s.objs a).object)
    (huniq : c.boxed env → ∀ a, a ≠ this → (s.objs a).boxed env →
      (s.objs a).object ≠ c.object) :
    well_stored env s' := by
  obtain ⟨h1, h2⟩ := h
  constructor
  · intro a
    rw [hobjs]
    by_cases ha : a = this
    · subst ha
      simpa using hc
    · simp only [Function.update_noteq ha]
      exact slot_ok_frame (h1 a) hbrk (hheap a ha)
  · intro a b hab ba bb
    rw [hobjs] at ba bb ⊢
    by_cases ha : a = this
    · subst ha
      have hb : b ≠ a := Ne.symm hab
      simp only [Function.update_same, Function.update_noteq hb] at ba bb ⊢
      exact Ne.symm (huniq ba b hb bb)
    · by_cases hb : b = this
      · subst hb
        simp only [Function.update_same, Function.update_noteq ha] at ba bb ⊢
        exact huniq bb a ha ba
      · simp only [Function.update_noteq ha, Function.update_noteq hb] at ba bb ⊢
        exact h2 a b hab ba bb

theorem store_inline_lt {size object : Nat} (repr : Nat) (h : object < 256 ^ size) :
    store_inline size object repr < 256 ^ size := by
  unfold store_inline
  rw [Nat.div_eq_of_lt h]
  simpa using Nat.mod_lt repr (Nat.pos_of_ne_zero (by positivity))

theorem well_stored_set_empty {env : Env} {s s' : State arity} (h : well_stored env s)
    (this : Nat) (hobjs : s'.objs = Function.update s.objs this ⟨get_empty_table_ptr, 0⟩)
    (hbrk : s'.brk = s.brk)
    (hheap : ∀ a, a ≠ this → (s.objs a).boxed env →
      s'.heap (s.objs a).object = s.heap (s.objs a).object) :
    well_stored env s' :=
  well_stored_update h this ⟨get_empty_table_ptr, 0⟩ hobjs (le_of_eq hbrk.symm)
    (slot_ok_empty env _ _) hheap (fun hb => absurd hb (not_boxed_empty env 0))

theorem well_stored_set_inline {env : Env} {s s' : State arity} (h : well_stored env s)
    (this : Nat) (F : TypeId) (w : Nat) (hs : env.sizeof F ≤ env.ptr_size)
    (hw : w < 256 ^ env.sizeof F)
    (hobjs : s'.objs = Function.update s.objs this ⟨get_table_ptr F, w⟩)
    (hbrk : s'.brk = s.brk) (hheap : s'.heap = s.heap) :
    well_stored env s' := by
  refine well_stored_update h this ⟨get_table_ptr F, w⟩ hobjs (le_of_eq hbrk.symm) ?_ ?_ ?_
  · simp [unique_function_base.slot_ok, get_table_ptr, hs, hw]
  · intro a _ _
    rw [hheap]
  · intro hb
    obtain ⟨G, hG, hsG⟩ := hb
    simp only [get_table_ptr, vtable_ptr.table.injEq] at hG
    subst hG
    exact absurd hs hsG

theorem well_stored_set_new_block {env : Env} {s s' : State arity} (h : well_stored env s)
    (this : Nat) (f : Callable) (hs : ¬ env.sizeof f.type ≤ env.ptr_size)
    (hobjs : s'.objs = Function.update s.objs this ⟨get_table_ptr f.type, s.brk + 1⟩)
    (hbrk : s'.brk = s.brk + 1)
    (hheap : s'.heap = Function.update s.heap (s.brk + 1) (some f)) :
    well_stored env s' := by
  refine well_stored_update h this ⟨get_table_ptr f.type, s.brk + 1⟩ hobjs
    (by rw [hbrk]; exact Nat.le_succ _) ?_ ?_ ?_
  · simp [unique_function_base.slot_ok, get_table_ptr, hs, hbrk, hheap]
  · intro a _ hb
    have hle := (boxed_slot hb (h.1 a)).2.1
    rw [hheap, Function.update_noteq]
    omega
  · intro _ a _ hb
    have hle := (boxed_slot hb (h.1 a)).2.1
    simp only
    omega

theorem well_stored_refill {env : Env} {s s' : State arity} (h : well_stored env s)
    (this : Nat) (f : Callable) (hv : (s.objs this).vptr = get_table_ptr f.type)
    (hs : ¬ env.sizeof f.type ≤ env.ptr_size)
    (hobjs : s'.objs = s.objs) (hbrk : s'.brk = s.brk)
    (hheap : s'.heap = Function.update s.heap (s.objs this).object (some f)) :
    well_stored env s' := by
  have hb : (s.objs this).boxed env := ⟨f.type, hv, hs⟩
  have hslot := boxed_slot hb (h.1 this)
  refine well_stored_update h this (s.objs this) (by rw [hobjs]; simp)
    (le_of_eq hbrk.symm) ?_ ?_ ?_
  · simp only [unique_function_base.slot_ok, hv, get_table_ptr, hs, if_false, hbrk, hheap,
      Function.update_same]
    exact ⟨hslot.1, hslot.2.1, f, rfl, rfl⟩
  · intro a ha hba
    rw [hheap, Function.update_noteq (h.2 a this ha hba hb)]
  · intro _ a ha hba
    exact h.2 a this ha hba hb

theorem well_stored_default_construct {env : Env} {s : State arity} (h : well_stored env s)
    (this : Nat) : well_stored env (default_construct this s) :=
  well_stored_set_empty h this rfl rfl (fun _ _ _ => rfl)

theorem well_stored_construct {env : Env} {s : State arity} (h : well_stored env s)
    (this : Nat) (f : Callable) : well_stored env (construct env this f s) := by
  by_cases he : env.is_empty_function f = true
  · have hE : construct env this f s = default_construct this s := by
      simp [construct, he]
    rw [hE]
    exact well_stored_default_construct h this
  · have he2 : env.is_empty_function f = false := by simpa using he
    by_cases hs : env.sizeof f.type ≤ env.ptr_size
    · refine well_stored_set_inline h this f.type (f.repr % 256 ^ env.sizeof f.type) hs
        (Nat.mod_lt _ (Nat.pos_of_ne_zero (by positivity))) ?_ ?_ ?_
      · simp [construct, he2, hs, default_construct, State.set_vptr, State.placement_new_slot,
          State.set_object, store_inline_zero]
      · simp [construct, he2, hs, default_construct, State.set_vptr, State.placement_new_slot,
          State.set_object]
      · simp [construct, he2, hs, default_construct, State.set_vptr, State.placement_new_slot,
          State.set_object]
    · refine well_stored_set_new_block h this f hs ?_ ?_ ?_
      · simp [construct, he2, hs, default_construct, State.set_vptr, State.new_block,
          State.set_object]
      · simp [construct, he2, hs, default_construct, State.set_vptr, State.new_block,
          State.set_object]
      · simp [construct, he2, hs, default_construct, State.set_vptr, State.new_block,
          State.set_object]

theorem well_stored_reset {env : Env} {s : State arity} (h : well_stored env s)
    (this : Nat) :
    well_stored env (reset env this s) ∧ ((reset env this s).objs this).object = 0 ∧
    ((reset env this s).objs this).vptr = get_empty_table_ptr ∧
    (reset env this s).brk = s.brk := by
  by_cases he : empty this s = true
  · rw [reset_of_empty env he]
    refine ⟨h, object_eq_zero_of_empty he, ?_, rfl⟩
    simp only [empty, Bool.and_eq_true] at he
    cases hv : (s.objs this).vptr with
    | empty_table => rfl
    | table F => simp [hv, vtable_ptr.empty] at he
  · have he2 : empty this s = false := by simpa using he
    rw [reset_of_not_empty env he2]
    refine ⟨?_, ?_, ?_, ?_⟩
    · refine well_stored_set_empty h this ?_ ?_ ?_
      · simp [State.set_vptr, State.set_object, State.call_static_delete]
      · simp [State.set_vptr, State.set_object, State.call_static_delete]
      · intro a ha hba
        simp only [State.set_vptr, State.set_object, State.call_static_delete]
        cases hv : (s.objs this).vptr with
        | empty_table => simp [vtable_ptr.static_delete]
        | table F =>
          by_cases hs : env.sizeof F ≤ env.ptr_size
          · simp [vtable_ptr.static_delete, hs]
          · simp only [vtable_ptr.static_delete, hs, if_false]
            rw [Function.update_noteq (h.2 a this ha hba ⟨F, hv, hs⟩)]
    · simp [State.set_vptr, State.set_object, State.call_static_delete]
    · simp [State.set_vptr, State.set_object, State.call_static_delete]
    · simp [State.set_vptr, State.set_object, State.call_static_delete]

theorem well_stored_assign {env : Env} {s : State arity} (h : well_stored env s)
    (this addr_f : Nat) (f : Callable) : well_stored env (assign env this addr_f f s) := by
  by_cases hne : this = addr_f
  · have hE : assign env this addr_f f s = s := by simp [assign, hne]
    rw [hE]
    exact h
  by_cases hv : (s.objs this).vptr = get_table_ptr f.type
  · have he : empty this s = false := empty_eq_false_of_table hv
    by_cases hs : env.sizeof f.type ≤ env.ptr_size
    · have hA : assign env this addr_f f s =
          (s.call_destruct env this).placement_new_slot env this f := by
        simp [assign, hne, hv, he, hs]
      rw [hA]
      have hold : (s.objs this).object < 256 ^ env.sizeof f.type := by
        have := h.1 this
        simpa [unique_function_base.slot_ok, hv, get_table_ptr, hs] using this
      refine well_stored_set_inline h this f.type
        (store_inline (env.sizeof f.type) (s.objs this).object f.repr) hs
        (store_inline_lt f.repr hold) ?_ ?_ ?_
      · simp [State.call_destruct, State.placement_new_slot, State.set_object, hv]
      · simp [State.call_destruct, State.placement_new_slot, State.set_object]
      · simp [State.call_destruct, State.placement_new_slot, State.set_object,
          vtable_ptr.destruct, hv, get_table_ptr, hs]
    · have ho : (s.objs this).object ≠ 0 := (boxed_slot ⟨f.type, hv, hs⟩ (h.1 this)).1
      have hA : assign env this addr_f f s =
          (s.call_destruct env this).placement_new_block this f := by
        simp [assign, hne, hv, he, hs, ho]
      rw [hA]
      refine well_stored_refill h this f hv hs ?_ ?_ ?_
      · simp [State.call_destruct, State.placement_new_block]
      · simp [State.call_destruct, State.placement_new_block]
      · simp [State.call_destruct, State.placement_new_block, vtable_ptr.destruct, hv,
          get_table_ptr, hs]
  · obtain ⟨hR, hR0, hRv, hRb⟩ := well_stored_reset h this
    have hc : ((s.objs this).vptr = get_table_ptr f.type && !empty this s) = false := by
      simp [hv]
    by_cases hf : env.is_empty_function f = true
    · have hA : assign env this addr_f f s = reset env this s := by
        simp [assign, hne, hc, hf]
      rw [hA]
      exact hR
    · have hf2 : env.is_empty_function f = false := by simpa using hf
      by_cases hs : env.sizeof f.type ≤ env.ptr_size
      · have hA : assign env this addr_f f s =
            ((reset env this s).placement_new_slot env this f).set_vptr this
              (get_table_ptr f.type) := by
          simp [assign, hne, hc, hf2, hs]
        rw [hA]
        refine well_stored_set_inline hR this f.type (f.repr % 256 ^ env.sizeof f.type) hs
          (Nat.mod_lt _ (Nat.pos_of_ne_zero (by positivity))) ?_ ?_ ?_
        · simp [State.placement_new_slot, State.set_object, State.set_vptr, hR0,
            store_inline_zero]
        · simp [State.placement_new_slot, State.set_object, State.set_vptr]
        · simp [State.placement_new_slot, State.set_object, State.set_vptr]
      · have hA : assign env this addr_f f s =
            ((reset env this s).new_block this f).set_vptr this (get_table_ptr f.type) := by
          simp [assign, hne, hc, hf2, hs]
        rw [hA]
        refine well_stored_set_new_block hR this f hs ?_ ?_ ?_
        · simp [State.new_block, State.set_object, State.set_vptr]
        · simp [State.new_block, State.set_object, State.set_vptr]
        · simp [State.new_block, State.set_object, State.set_vptr]

theorem well_stored_move {env : Env} {s s' : State arity} (h : well_stored env s)
    (this other : Nat) (hne : this ≠ other)
    (hobjs : s'.objs =
      Function.update (Function.update s.objs this (s.objs other)) other ⟨get_empty_table_ptr, 0⟩)
    (hbrk : s'.brk = s.brk) (hheap : s'.heap = s.heap) :
    well_stored env s' := by
  have h1 : well_stored env
      ({ s with objs := Function.update s.objs other ⟨get_empty_table_ptr, 0⟩ } : State arity) :=
    well_stored_set_empty h other rfl rfl (fun _ _ _ => rfl)
  refine well_stored_update h1 this (s.objs other) ?_ (le_of_eq hbrk.symm) ?_ ?_ ?_
  · rw [hobjs]
    exact Function.update_comm hne _ _ _
  · rw [hheap, hbrk]
    exact h.1 other
  · intro a _ _
    rw [hheap]
  · intro hb a ha hba
    by_cases hao : a = other
    · subst hao
      simp only [Function.update_same] at hba
      exact absurd hba (not_boxed_empty env 0)
    · simp only [Function.update_noteq hao] at hba ⊢
      exact h.2 a other hao hba hb

theorem well_stored_permute {env : Env} {s s' : State arity} (h : well_stored env s)
    (σ : Nat → Nat) (hσ : Function.Injective σ)
    (hobjs : ∀ a, s'.objs a = s.objs (σ a))
    (hbrk : s'.brk = s.brk) (hheap : s'.heap = s.heap) :
    well_stored env s' := by
  constructor
  · intro a
    rw [hobjs, hbrk, hheap]
    exact h.1 (σ a)
  · intro a b hab ha hb
    rw [hobjs] at ha hb ⊢
    rw [hobjs b]
    exact h.2 (σ a) (σ b) (fun hc => hab (hσ hc)) ha hb

theorem well_stored_move_construct {env : Env} {s : State arity} (h : well_stored env s)
    (this other : Nat) : well_stored env (move_construct this other s) := by
  by_cases hne : this = other
  · subst hne
    refine well_stored_set_empty h this ?_ rfl (fun _ _ _ => rfl)
    simp [move_construct, unique_function_base.move_construct]
  · exact well_stored_move h this other hne rfl rfl rfl

theorem well_stored_move_assign {env : Env} {s : State arity} (h : well_stored env s)
    (this t : Nat) : well_stored env (move_assign env this t s) := by
  by_cases hne : this = t
  · have hE : move_assign env this t s = s := by simp [move_assign, hne]
    rw [hE]
    exact h
  · obtain ⟨hR, _, _, _⟩ := well_stored_reset h this
    refine well_stored_move hR this t hne ?_ ?_ ?_
    · funext a
      by_cases hat : a = t
      · subst hat
        simp [move_assign, hne, State.set_vptr, State.set_object]
      · by_cases hath : a = this
        · subst hath
          simp [move_assign, hne, State.set_vptr, State.set_object, Function.update, hat,
            Ne.symm hne]
        · simp [move_assign, hne, State.set_vptr, State.set_object, Function.update, hat,
            hath]
    · simp [move_assign, hne, State.set_vptr, State.set_object]
    · simp [move_assign, hne, State.set_vptr, State.set_object]

theorem well_stored_swap {env : Env} {s : State arity} (h : well_stored env s)
    (this f : Nat) : well_stored env (swap this f s) := by
  refine well_stored_permute h (Equiv.swap this f) (Equiv.injective _) ?_ rfl rfl
  intro a
  by_cases hat : a = this
  · subst hat
    by_cases haf : a = f
    · subst haf
      simp [swap, State.set_vptr, State.set_object]
    · simp [swap, State.set_vptr, State.set_object, Function.update, haf, Ne.symm haf]
  · by_cases haf : a = f
    · subst haf
      simp [swap, State.set_vptr, State.set_object, Function.update, hat, Ne.symm hat]
    · simp [swap, State.set_vptr, State.set_object, Function.update, hat, haf,
        Equiv.swap_apply_of_ne_of_ne hat haf]

theorem reachable_well_stored {env : Env} {s : State arity} (h : Reachable env s) :
    well_stored env s := by
  induction h with
  | start s h0 =>
    constructor
    · intro a
      rw [h0 a]
      exact slot_ok_empty env _ _
    · intro a b _ ha _
      rw [h0 a] at ha
      exact absurd ha (not_boxed_empty env 0)
  | default_construct this s _ ih => exact well_stored_default_construct ih this
  | construct this f s _ ih => exact well_stored_construct ih this f
  | move_construct this other s _ ih => exact well_stored_move_construct ih this other
  | assign this addr_f f s _ ih => exact well_stored_assign ih this addr_f f
  | move_assign this t s _ ih => exact well_stored_move_assign ih this t
  | swap this f s _ ih => exact well_stored_swap ih this f
  | reset this s _ ih => exact (well_stored_reset ih this).1

/-- C14: the storage-state invariant.  In every state reached from
default-constructed closures by constructors, `assign`, move construction,
move assignment, `swap` and `reset`, each closure is in exactly one of three
states, decided by its table: under the canonical empty table the slot is
null; under the table of a type `F` with `sizeof(F) <= sizeof(void *)` the
slot is the inline representation of a callable of type `F` and no block is
involved; under the table of a larger type the slot is a non-null pointer to
a heap block holding a callable of type `F`, and no other closure points to
that block. -/
theorem reachable_storage_state (env : Env) (s : State arity) (h : Reachable env s)
    (a : Nat) :
    ((s.objs a).vptr = get_empty_table_ptr → (s.objs a).object = 0) ∧
    (∀ F, (s.objs a).vptr = get_table_ptr F → env.sizeof F ≤ env.ptr_size →
      ∃ f : Callable, f.type = F ∧ (s.objs a).object = f.repr % 256 ^ env.sizeof F) ∧
    (∀ F, (s.objs a).vptr = get_table_ptr F → ¬ env.sizeof F ≤ env.ptr_size →
      (s.objs a).object ≠ 0 ∧
      (∃ f : Callable, s.heap (s.objs a).object = some f ∧ f.type = F) ∧
      (∀ b G, b ≠ a → (s.objs b).vptr = get_table_ptr G → ¬ env.sizeof G ≤ env.ptr_size →
        (s.objs b).object ≠ (s.objs a).object)) := by
  have hw := reachable_well_stored h
  have ha := hw.1 a
  refine ⟨?_, ?_, ?_⟩
  · intro hv
    simpa [unique_function_base.slot_ok, hv, get_empty_table_ptr] using ha
  · intro F hv hs
    have hlt : (s.objs a).object < 256 ^ env.sizeof F := by
      simpa [unique_function_base.slot_ok, hv, get_table_ptr, hs] using ha
    exact ⟨⟨F, (s.objs a).object⟩, rfl, (Nat.mod_eq_of_lt hlt).symm⟩
  · intro F hv hs
    simp only [unique_function_base.slot_ok, hv, get_table_ptr, hs, if_false] at ha
    obtain ⟨h1, _, hf⟩ := ha
    refine ⟨h1, hf, ?_⟩
    intro b G hb hvb hsb
    exact hw.2 b a hb ⟨G, hvb, hsb⟩ ⟨F, hv, hs⟩

theorem reachable_storage_state_witness :
    Reachable env64 (assign env64 0 9 ⟨2, 78⟩ (construct env64 0 ⟨2, 77⟩ (state0 0))) ∧
    ((assign env64 0 9 ⟨2, 78⟩ (construct env64 0 ⟨2, 77⟩ (state0 0))).objs 0).vptr =
      get_table_ptr 2 ∧
    ¬ env64.sizeof 2 ≤ env64.ptr_size ∧
    ((assign env64 0 9 ⟨2, 78⟩ (construct env64 0 ⟨2, 77⟩ (state0 0))).objs 0).object ≠ 0 :=
  ⟨Reachable.assign 0 9 ⟨2, 78⟩ _
      (Reachable.construct 0 ⟨2, 77⟩ _ (Reachable.start (state0 0) (fun _ => rfl))),
    by decide, by decide,
    ((reachable_storage_state env64 _
      (Reachable.assign 0 9 ⟨2, 78⟩ _
        (Reachable.construct 0 ⟨2, 77⟩ _ (Reachable.start (state0 0) (fun _ => rfl))))
      0).2.2 2 (by decide) (by decide)).1⟩

/-- C25, at the failing input: the closure constructed from a one-byte
callable whose byte is zero is reachable, its slot is null and its table is
not the canonical empty table. -/
theorem null_slot_under_real_table :
    Reachable env64 (construct env64 0 ⟨0, 0⟩ (state0 0)) ∧
    ¬ (((construct env64 0 ⟨0, 0⟩ (state0 0)).objs 0).object = 0 ↔
      ((construct env64 0 ⟨0, 0⟩ (state0 0)).objs 0).vptr = get_empty_table_ptr) := by
  refine ⟨Reachable.construct 0 ⟨0, 0⟩ _ (Reachable.start (state0 0) (fun _ => rfl)), ?_⟩
  decide

/-- C25, amended: in every reachable state a closure bound to the canonical
empty table has a null slot, so `empty()` is decided by the table alone; a
null slot is found under the empty table or under the table of a type that
fits the slot (an inline callable whose bytes are all zero), never under the
table of a boxed type. -/
theorem reachable_null_slot (env : Env) (s : State arity) (h : Reachable env s) (a : Nat) :
    ((s.objs a).vptr = get_empty_table_ptr → (s.objs a).object = 0) ∧
    empty a s = (s.objs a).vptr.empty ∧
    ((s.objs a).object = 0 →
      (s.objs a).vptr = get_empty_table_ptr ∨
      ∃ F, (s.objs a).vptr = get_table_ptr F ∧ env.sizeof F ≤ env.ptr_size) := by
  have ha := (reachable_well_stored h).1 a
  cases hv : (s.objs a).vptr with
  | empty_table =>
    have h0 : (s.objs a).object = 0 := by
      simpa [unique_function_base.slot_ok, hv] using ha
    simp [empty, hv, h0, get_empty_table_ptr, vtable_ptr.empty]
  | table F =>
    refine ⟨?_, ?_, ?_⟩
    · intro hc
      simp [get_empty_table_ptr] at hc
    · simp [empty, hv, vtable_ptr.empty]
    · intro h0
      right
      refine ⟨F, rfl, ?_⟩
      by_contra hs
      simp only [unique_function_base.slot_ok, hv, hs, if_false] at ha
      exact ha.1 h0

theorem reachable_null_slot_witness :
    Reachable env64 (construct env64 0 ⟨0, 0⟩ (state0 0)) ∧
    empty 0 (construct env64 0 ⟨0, 0⟩ (state0 0)) =
      ((construct env64 0 ⟨0, 0⟩ (state0 0)).objs 0).vptr.empty :=
  ⟨Reachable.construct 0 ⟨0, 0⟩ _ (Reachable.start (state0 0) (fun _ => rfl)),
    (reachable_null_slot env64 _
      (Reachable.construct 0 ⟨0, 0⟩ _ (Reachable.start (state0 0) (fun _ => rfl))) 0).2.1⟩

/-- C30, at the failing input: a closure that holds a closure (a callable
of the closure type `unique_function<Sig>`, whose address compares with
`this`) is assigned an empty closure of that same type, which is empty by
convention.  The same-type branch of `assign` stores it without testing
`is_empty_function`: the closure keeps the table, its block now holds the
empty callable, and `empty()` is false.  Assigning the same callable to an
empty closure or to a closure holding another type, and constructing from
it, all give an empty closure. -/
theorem assign_empty_closure_same_type_not_empty :
    env64_nested.is_empty_function ⟨3, 0x1000⟩ = true ∧
    env64_nested.is_empty_function ⟨3, 0x50000000000000002000⟩ = false ∧
    (assign env64_nested 0 1 ⟨3, 0x50000000000000002000⟩ (state0 0)).objs 0 = ⟨vtable_ptr.table 3, 1⟩ ∧
    (assign env64_nested 0 2 ⟨3, 0x1000⟩ (assign env64_nested 0 1 ⟨3, 0x50000000000000002000⟩ (state0 0))).objs 0 = ⟨vtable_ptr.table 3, 1⟩ ∧
    (assign env64_nested 0 2 ⟨3, 0x1000⟩ (assign env64_nested 0 1 ⟨3, 0x50000000000000002000⟩ (state0 0))).heap 1 = some ⟨3, 0x1000⟩ ∧
    empty 0 (assign env64_nested 0 2 ⟨3, 0x1000⟩ (assign env64_nested 0 1 ⟨3, 0x50000000000000002000⟩ (state0 0))) = false ∧
    empty 0 (assign env64_nested 0 2 ⟨3, 0x1000⟩ (state0 0)) = true ∧
    empty 0 (assign env64_nested 0 2 ⟨3, 0x1000⟩ (construct env64_nested 0 ⟨2, 77⟩ (state0 0))) =
      true ∧
    empty 0 (construct env64_nested 0 ⟨3, 0x1000⟩ (state0 0)) = true := by
  decide

end detail
end util

/-! ## Theorems: pass-through of the adapters and enumeration -/

namespace applier

open threads util util.detail naming

theorem push_back_unmanaged_eq (prefixes : List id_type) (raw_prefixes : List gid_type) :
    push_back_unmanaged prefixes raw_prefixes =
      prefixes ++ raw_prefixes.map (fun gid => id_type.mk gid management_type.unmanaged) := by
  unfold push_back_unmanaged
  induction raw_prefixes generalizing prefixes with
  | nil => simp
  | cons g gs ih => simp [List.foldl, ih]

/-- C29: locality enumeration on success.  For `get_remote_localities` and
both `get_localities` overloads, when the parcel handler's raw query returns
true and leaves the gids `g1..gn` in the raw vector, the function returns
true and the caller's vector is its prior contents followed by the
unmanaged ids built from `g1..gn`, in that order. -/
theorem enumeration_success_appends (N : Resolvers) (this : applier)
    (prefixes : List id_type) (type : Nat) (ec : error_code) (rt : Runtime) :
    ((N.get_raw_remote_localities this.parcel_handler_ [] type ec).1 = true →
      (this.get_remote_localities N prefixes type ec rt).ret = true ∧
      (this.get_remote_localities N prefixes type ec rt).prefixes = prefixes ++
        (N.get_raw_remote_localities this.parcel_handler_ [] type ec).2.1.map
          (fun gid => id_type.mk gid management_type.unmanaged)) ∧
    ((N.get_raw_localities this.parcel_handler_ [] N.component_invalid ec).1 = true →
      (this.get_localities N prefixes ec rt).ret = true ∧
      (this.get_localities N prefixes ec rt).prefixes = prefixes ++
        (N.get_raw_localities this.parcel_handler_ [] N.component_invalid ec).2.1.map
          (fun gid => id_type.mk gid management_type.unmanaged)) ∧
    ((N.get_raw_localities this.parcel_handler_ [] type ec).1 = true →
      (this.get_localities_type N prefixes type ec rt).ret = true ∧
      (this.get_localities_type N prefixes type ec rt).prefixes = prefixes ++
        (N.get_raw_localities this.parcel_handler_ [] type ec).2.1.map
          (fun gid => id_type.mk gid management_type.unmanaged)) := by
  refine ⟨?_, ?_, ?_⟩
  · intro h
    simp [applier.get_remote_localities, Runtime.get_raw_remote_localities, h,
      push_back_unmanaged_eq]
  · intro h
    simp [applier.get_localities, Runtime.get_raw_localities, h, push_back_unmanaged_eq]
  · intro h
    simp [applier.get_localities_type, Runtime.get_raw_localities, h, push_back_unmanaged_eq]

theorem enumeration_success_appends_witness :
    (N0.get_raw_localities 107 [] 3 ec0).1 = true ∧
    (applier.get_localities_type N0 ⟨107, 207⟩ [⟨⟨1, 1⟩, management_type.managed⟩] 3 ec0
      rt0).prefixes =
      [⟨⟨1, 1⟩, management_type.managed⟩, ⟨⟨0x300000000, 0⟩, management_type.unmanaged⟩,
        ⟨⟨0x200000000, 0⟩, management_type.unmanaged⟩] :=
  ⟨by decide,
    ((enumeration_success_appends N0 ⟨107, 207⟩ [⟨⟨1, 1⟩, management_type.managed⟩] 3 ec0
      rt0).2.2 (by decide)).2⟩

/-- C24: collaborator errors pass through unmodified.  With an applier
bound, each adapter hands the caller's `ec` to the thread manager as it
received it, and the `ec` the caller observes afterwards is exactly what
that one `register_thread` / `register_work` call left in it. -/
theorem adapters_pass_ec_through (W : Collaborators) (rt : Runtime) (app : Nat)
    (h : get_applier_ptr rt = some app)
    (f0 : unique_function_base 0) (f1 : unique_function_base 1) (data : thread_init_data)
    (desc : thread_description) (lva : Nat) (state : thread_state_enum) (run_now : Bool)
    (priority : thread_priority) (os_thread : Nat) (stacksize : thread_stacksize)
    (ec : error_code) :
    (∃ d : thread_init_data,
      (register_thread_nullary W f0 desc state run_now priority os_thread stacksize ec rt).rt.tm_calls =
        rt.tm_calls ++ [tm_call.register_thread (rt.appliers app).thread_manager_ d thread_id_type.invalid_thread_id state run_now ec] ∧
      (register_thread_nullary W f0 desc state run_now priority os_thread stacksize ec rt).ec =
        (W.register_thread (rt.appliers app).thread_manager_ d thread_id_type.invalid_thread_id state run_now ec).2.2) ∧
    (∃ d : thread_init_data,
      (register_thread W f1 desc state run_now priority os_thread stacksize ec rt).rt.tm_calls =
        rt.tm_calls ++ [tm_call.register_thread (rt.appliers app).thread_manager_ d thread_id_type.invalid_thread_id state run_now ec] ∧
      (register_thread W f1 desc state run_now priority os_thread stacksize ec rt).ec =
        (W.register_thread (rt.appliers app).thread_manager_ d thread_id_type.invalid_thread_id state run_now ec).2.2) ∧
    (∃ d : thread_init_data,
      (register_thread_plain W f1 desc state run_now priority os_thread stacksize ec rt).rt.tm_calls =
        rt.tm_calls ++ [tm_call.register_thread (rt.appliers app).thread_manager_ d thread_id_type.invalid_thread_id state run_now ec] ∧
      (register_thread_plain W f1 desc state run_now priority os_thread stacksize ec rt).ec =
        (W.register_thread (rt.appliers app).thread_manager_ d thread_id_type.invalid_thread_id state run_now ec).2.2) ∧
    ((register_thread_plain_data W data state run_now ec rt).rt.tm_calls =
        rt.tm_calls ++ [tm_call.register_thread (rt.appliers app).thread_manager_ data thread_id_type.invalid_thread_id state run_now ec] ∧
      (register_thread_plain_data W data state run_now ec rt).ec =
        (W.register_thread (rt.appliers app).thread_manager_ data thread_id_type.invalid_thread_id state run_now ec).2.2) ∧
    (∃ d : thread_init_data,
      (register_work_nullary W f0 desc state priority os_thread stacksize ec rt).rt.tm_calls =
        rt.tm_calls ++ [tm_call.register_work (rt.appliers app).thread_manager_ d state ec] ∧
      (register_work_nullary W f0 desc state priority os_thread stacksize ec rt).ec =
        (W.register_work (rt.appliers app).thread_manager_ d state ec).2) ∧
    (∃ d : thread_init_data,
      (register_work W f1 desc state priority os_thread stacksize ec rt).rt.tm_calls =
        rt.tm_calls ++ [tm_call.register_work (rt.appliers app).thread_manager_ d state ec] ∧
      (register_work W f1 desc state priority os_thread stacksize ec rt).ec =
        (W.register_work (rt.appliers app).thread_manager_ d state ec).2) ∧
    (∃ d : thread_init_data,
      (register_work_plain W f1 desc lva state priority os_thread stacksize ec rt).rt.tm_calls =
        rt.tm_calls ++ [tm_call.register_work (rt.appliers app).thread_manager_ d state ec] ∧
      (register_work_plain W f1 desc lva state priority os_thread stacksize ec rt).ec =
        (W.register_work (rt.appliers app).thread_manager_ d state ec).2) ∧
    ((register_work_plain_data W data state ec rt).rt.tm_calls =
        rt.tm_calls ++ [tm_call.register_work (rt.appliers app).thread_manager_ data state ec] ∧
      (register_work_plain_data W data state ec rt).ec = (W.register_work (rt.appliers app).thread_manager_ data state ec).2) := by
  simp only [register_thread_nullary, register_thread, register_thread_plain,
    register_thread_plain_data, register_work_nullary, register_work, register_work_plain,
    register_work_plain_data, h, Runtime.register_thread, Runtime.register_work,
    applier.get_thread_manager]
  exact ⟨⟨_, rfl, rfl⟩, ⟨_, rfl, rfl⟩, ⟨_, rfl, rfl⟩, ⟨trivial, trivial⟩,
    ⟨_, rfl, rfl⟩, ⟨_, rfl, rfl⟩, ⟨_, rfl, rfl⟩, ⟨trivial, trivial⟩⟩

theorem adapters_pass_ec_through_witness :
    get_applier_ptr (applier.init_tss 7 rt0) = some 7 ∧
    (register_work_plain_data W1
        ⟨function.thread_function ⟨vtable_ptr.table 0, 5⟩, thread_description.none, 64, 1, 0, 8192⟩
        0 ec0 (applier.init_tss 7 rt0)).ec = ⟨error.other 3, "threadmanager", "no resources"⟩ :=
  ⟨by decide,
    (adapters_pass_ec_through W1 (applier.init_tss 7 rt0) 7 (by decide)
      ⟨vtable_ptr.table 0, 5⟩ ⟨vtable_ptr.table 0, 5⟩
      ⟨function.thread_function ⟨vtable_ptr.table 0, 5⟩, thread_description.none, 64, 1, 0, 8192⟩
      thread_description.none 64 0 true 1 0 2 ec0).2.2.2.2.2.2.2.2⟩

/-- C27: with an applier bound, `register_thread_nullary`, `register_thread`
and both `register_thread_plain` overloads pass an id initialised to
`invalid_thread_id` to the thread manager's `register_thread` and return
exactly what that call left in it; a thread manager that leaves the id
unwritten makes them return `invalid_thread_id`. -/
theorem adapters_return_written_id (W : Collaborators) (rt : Runtime) (app : Nat)
    (h : get_applier_ptr rt = some app)
    (f0 : unique_function_base 0) (f1 : unique_function_base 1) (data : thread_init_data)
    (desc : thread_description) (state : thread_state_enum) (run_now : Bool)
    (priority : thread_priority) (os_thread : Nat) (stacksize : thread_stacksize)
    (ec : error_code) :
    (∃ d : thread_init_data,
      (register_thread_nullary W f0 desc state run_now priority os_thread stacksize ec rt).rt.tm_calls =
        rt.tm_calls ++ [tm_call.register_thread (rt.appliers app).thread_manager_ d thread_id_type.invalid_thread_id state run_now ec] ∧
      (register_thread_nullary W f0 desc state run_now priority os_thread stacksize ec rt).ret =
        (W.register_thread (rt.appliers app).thread_manager_ d thread_id_type.invalid_thread_id state run_now ec).2.1) ∧
    (∃ d : thread_init_data,
      (register_thread W f1 desc state run_now priority os_thread stacksize ec rt).rt.tm_calls =
        rt.tm_calls ++ [tm_call.register_thread (rt.appliers app).thread_manager_ d thread_id_type.invalid_thread_id state run_now ec] ∧
      (register_thread W f1 desc state run_now priority os_thread stacksize ec rt).ret =
        (W.register_thread (rt.appliers app).thread_manager_ d thread_id_type.invalid_thread_id state run_now ec).2.1) ∧
    (∃ d : thread_init_data,
      (register_thread_plain W f1 desc state run_now priority os_thread stacksize ec rt).rt.tm_calls =
        rt.tm_calls ++ [tm_call.register_thread (rt.appliers app).thread_manager_ d thread_id_type.invalid_thread_id state run_now ec] ∧
      (register_thread_plain W f1 desc state run_now priority os_thread stacksize ec rt).ret =
        (W.register_thread (rt.appliers app).thread_manager_ d thread_id_type.invalid_thread_id state run_now ec).2.1) ∧
    ((register_thread_plain_data W data state run_now ec rt).rt.tm_calls =
        rt.tm_calls ++ [tm_call.register_thread (rt.appliers app).thread_manager_ data thread_id_type.invalid_thread_id state run_now ec] ∧
      (register_thread_plain_data W data state run_now ec rt).ret =
        (W.register_thread (rt.appliers app).thread_manager_ data thread_id_type.invalid_thread_id state run_now ec).2.1) ∧
    ((∀ tm d id st rn e, (W.register_thread tm d id st rn e).2.1 = id) →
      (register_thread_nullary W f0 desc state run_now priority os_thread stacksize ec rt).ret =
        thread_id_type.invalid_thread_id ∧
      (register_thread W f1 desc state run_now priority os_thread stacksize ec rt).ret =
        thread_id_type.invalid_thread_id ∧
      (register_thread_plain W f1 desc state run_now priority os_thread stacksize ec rt).ret =
        thread_id_type.invalid_thread_id ∧
      (register_thread_plain_data W data state run_now ec rt).ret = thread_id_type.invalid_thread_id) := by
  simp only [register_thread_nullary, register_thread, register_thread_plain,
    register_thread_plain_data, register_work_nullary, register_work, register_work_plain,
    register_work_plain_data, h, Runtime.register_thread, Runtime.register_work,
    applier.get_thread_manager]
  refine ⟨⟨_, rfl, rfl⟩, ⟨_, rfl, rfl⟩, ⟨_, rfl, rfl⟩, ⟨trivial, trivial⟩, ?_⟩
  intro hw
  exact ⟨hw _ _ _ _ _ _, hw _ _ _ _ _ _, hw _ _ _ _ _ _, hw _ _ _ _ _ _⟩

theorem adapters_return_written_id_witness :
    get_applier_ptr (applier.init_tss 7 rt0) = some 7 ∧
    (register_thread_plain_data W0
        ⟨function.thread_function ⟨vtable_ptr.table 0, 5⟩, thread_description.none, 64, 1, 0, 8192⟩
        0 true ec0 (applier.init_tss 7 rt0)).ret = thread_id_type.id 42 ∧
    (register_thread W1 ⟨vtable_ptr.table 0, 5⟩ thread_description.none 0 true 1 0 2 ec0
        (applier.init_tss 7 rt0)).ret = thread_id_type.invalid_thread_id :=
  ⟨by decide,
    (adapters_return_written_id W0 (applier.init_tss 7 rt0) 7 (by decide)
      ⟨vtable_ptr.table 0, 5⟩ ⟨vtable_ptr.table 0, 5⟩
      ⟨function.thread_function ⟨vtable_ptr.table 0, 5⟩, thread_description.none, 64, 1, 0, 8192⟩
      thread_description.none 0 true 1 0 2 ec0).2.2.2.1.2,
    ((adapters_return_written_id W1 (applier.init_tss 7 rt0) 7 (by decide)
      ⟨vtable_ptr.table 0, 5⟩ ⟨vtable_ptr.table 0, 5⟩
      ⟨function.thread_function ⟨vtable_ptr.table 0, 5⟩, thread_description.none, 64, 1, 0, 8192⟩
      thread_description.none 0 true 1 0 2 ec0).2.2.2.2 (fun _ _ _ _ _ _ => rfl)).2.1⟩

/-- C28: descriptor pass-through.  With an applier bound, the descriptor
each descriptor-building adapter hands to the thread manager carries the
caller's priority and `os_thread`, the stack size `get_stack_size(stacksize)`,
the caller's description whenever that description is non-empty, and local
address 0, except for `register_work_plain`, which carries the caller's
`lva`; `state` (and `run_now` for the `register_thread` family) are passed as
given; the `thread_init_data` overloads hand over the caller's descriptor
itself. -/
theorem adapters_pass_descriptor (W : Collaborators) (rt : Runtime) (app : Nat)
    (h : get_applier_ptr rt = some app)
    (f0 : unique_function_base 0) (f1 : unique_function_base 1) (data : thread_init_data)
    (desc : thread_description) (lva : Nat) (state : thread_state_enum) (run_now : Bool)
    (priority : thread_priority) (os_thread : Nat) (stacksize : thread_stacksize)
    (ec : error_code) :
    (∃ d : thread_init_data,
      (register_thread_nullary W f0 desc state run_now priority os_thread stacksize ec rt).rt.tm_calls =
        rt.tm_calls ++ [tm_call.register_thread (rt.appliers app).thread_manager_ d thread_id_type.invalid_thread_id state run_now ec] ∧
      d.priority = priority ∧ d.num_os_thread = os_thread ∧
      d.stacksize = W.get_stack_size stacksize ∧
      (desc.to_bool = true → d.description = desc) ∧ d.lva = 0) ∧
    (∃ d : thread_init_data,
      (register_thread W f1 desc state run_now priority os_thread stacksize ec rt).rt.tm_calls =
        rt.tm_calls ++ [tm_call.register_thread (rt.appliers app).thread_manager_ d thread_id_type.invalid_thread_id state run_now ec] ∧
      d.priority = priority ∧ d.num_os_thread = os_thread ∧
      d.stacksize = W.get_stack_size stacksize ∧
      (desc.to_bool = true → d.description = desc) ∧ d.lva = 0) ∧
    (∃ d : thread_init_data,
      (register_thread_plain W f1 desc state run_now priority os_thread stacksize ec rt).rt.tm_calls =
        rt.tm_calls ++ [tm_call.register_thread (rt.appliers app).thread_manager_ d thread_id_type.invalid_thread_id state run_now ec] ∧
      d.priority = priority ∧ d.num_os_thread = os_thread ∧
      d.stacksize = W.get_stack_size stacksize ∧
      (desc.to_bool = true → d.description = desc) ∧ d.lva = 0) ∧
    ((register_thread_plain_data W data state run_now ec rt).rt.tm_calls =
      rt.tm_calls ++ [tm_call.register_thread (rt.appliers app).thread_manager_ data thread_id_type.invalid_thread_id state run_now ec]) ∧
    (∃ d : thread_init_data,
      (register_work_nullary W f0 desc state priority os_thread stacksize ec rt).rt.tm_calls =
        rt.tm_calls ++ [tm_call.register_work (rt.appliers app).thread_manager_ d state ec] ∧
      d.priority = priority ∧ d.num_os_thread = os_thread ∧
      d.stacksize = W.get_stack_size stacksize ∧
      (desc.to_bool = true → d.description = desc) ∧ d.lva = 0) ∧
    (∃ d : thread_init_data,
      (register_work W f1 desc state priority os_thread stacksize ec rt).rt.tm_calls =
        rt.tm_calls ++ [tm_call.register_work (rt.appliers app).thread_manager_ d state ec] ∧
      d.priority = priority ∧ d.num_os_thread = os_thread ∧
      d.stacksize = W.get_stack_size stacksize ∧
      (desc.to_bool = true → d.description = desc) ∧ d.lva = 0) ∧
    (∃ d : thread_init_data,
      (register_work_plain W f1 desc lva state priority os_thread stacksize ec rt).rt.tm_calls =
        rt.tm_calls ++ [tm_call.register_work (rt.appliers app).thread_manager_ d state ec] ∧
      d.priority = priority ∧ d.num_os_thread = os_thread ∧
      d.stacksize = W.get_stack_size stacksize ∧
      (desc.to_bool = true → d.description = desc) ∧ d.lva = lva) ∧
    ((register_work_plain_data W data state ec rt).rt.tm_calls =
      rt.tm_calls ++ [tm_call.register_work (rt.appliers app).thread_manager_ data state ec]) := by
  simp only [register_thread_nullary, register_thread, register_thread_plain,
    register_thread_plain_data, register_work_nullary, register_work, register_work_plain,
    register_work_plain_data, h, Runtime.register_thread, Runtime.register_work,
    applier.get_thread_manager]
  exact ⟨⟨_, rfl, rfl, rfl, rfl, fun hd => if_pos hd, rfl⟩,
    ⟨_, rfl, rfl, rfl, rfl, fun hd => if_pos hd, rfl⟩,
    ⟨_, rfl, rfl, rfl, rfl, fun hd => if_pos hd, rfl⟩, trivial,
    ⟨_, rfl, rfl, rfl, rfl, fun hd => if_pos hd, rfl⟩,
    ⟨_, rfl, rfl, rfl, rfl, fun hd => if_pos hd, rfl⟩,
    ⟨_, rfl, rfl, rfl, rfl, fun hd => if_pos hd, rfl⟩, trivial⟩

theorem adapters_pass_descriptor_witness :
    get_applier_ptr (applier.init_tss 7 rt0) = some 7 ∧
    (register_work_plain W0 ⟨vtable_ptr.table 0, 5⟩ (thread_description.text "job") 64 0 1 0 2
        ec0 (applier.init_tss 7 rt0)).rt.tm_calls =
      [tm_call.register_work 207
        ⟨function.thread_function ⟨vtable_ptr.table 0, 5⟩, thread_description.text "job", 64,
          1, 0, 8192⟩ 0 ec0] ∧
    (register_work_plain_data W0
        ⟨function.thread_function ⟨vtable_ptr.table 0, 5⟩, thread_description.none, 64, 1, 0, 8192⟩
        0 ec0 (applier.init_tss 7 rt0)).rt.tm_calls =
      [tm_call.register_work 207
        ⟨function.thread_function ⟨vtable_ptr.table 0, 5⟩, thread_description.none, 64, 1, 0, 8192⟩ 0 ec0] :=
  ⟨by decide, by decide,
    (adapters_pass_descriptor W0 (applier.init_tss 7 rt0) 7 (by decide)
      ⟨vtable_ptr.table 0, 5⟩ ⟨vtable_ptr.table 0, 5⟩
      ⟨function.thread_function ⟨vtable_ptr.table 0, 5⟩, thread_description.none, 64, 1, 0, 8192⟩
      (thread_description.text "job") 64 0 true 1 0 2 ec0).2.2.2.2.2.2.2⟩

/-- C22: remote routing, for `submit` as modelled from the spec.  With an
applier bound, a descriptor whose target address resolves to a locality
other than the local one makes `submit` hand the callable to the Parcel
Transport in exactly one call, on the bound applier's parcel handler and for
the locality the address resolves to, and make no call into a thread
manager.  A descriptor with no target, or with a target that resolves to the
local locality, makes no call into the Parcel Transport and one call into
the thread manager. -/
theorem submit_remote_uses_parcel_transport (W : Collaborators) (N : Resolvers)
    (descriptor : work_descriptor) (state : thread_state_enum) (run_now : Bool)
    (ec : error_code) (rt : Runtime) (app : Nat) (address : gid_type)
    (h : get_applier_ptr rt = some app) (ht : descriptor.target = some address)
    (hr : N.get_locality_id_from_gid address ≠ ((rt.appliers app).get_locality_id N ec).1) :
    (submit W N descriptor state run_now ec rt).sends =
      [⟨(rt.appliers app).parcel_handler_, descriptor.closure, address,
        N.get_locality_id_from_gid address⟩] ∧
    (submit W N descriptor state run_now ec rt).sends.length = 1 ∧
    (submit W N descriptor state run_now ec rt).rt.tm_calls = rt.tm_calls ∧
    (∀ d : work_descriptor,
      (d.target = Option.none ∨ ∃ a, d.target = some a ∧
        N.get_locality_id_from_gid a = ((rt.appliers app).get_locality_id N ec).1) →
      (submit W N d state run_now ec rt).sends = [] ∧
      (submit W N d state run_now ec rt).rt.tm_calls.length = rt.tm_calls.length + 1) := by
  refine ⟨?_, ?_, ?_, ?_⟩
  · simp [submit, h, ht, hr]
  · simp [submit, h, ht, hr]
  · simp [submit, h, ht, hr]
  · intro d hd
    rcases hd with hd | ⟨a, hd, ha⟩
    · simp [submit, h, hd, register_thread, Runtime.register_thread]
    · simp [submit, h, hd, ha, register_thread, Runtime.register_thread]

theorem submit_remote_uses_parcel_transport_witness :
    get_applier_ptr (applier.init_tss 7 rt0) = some 7 ∧
    N0.get_locality_id_from_gid ⟨0x900000000, 0⟩ ≠
      (((applier.init_tss 7 rt0).appliers 7).get_locality_id N0 ec0).1 ∧
    (submit W0 N0 ⟨⟨vtable_ptr.table 0, 5⟩, thread_description.none, 1, 2, 0,
        some ⟨0x900000000, 0⟩⟩ 0 true ec0 (applier.init_tss 7 rt0)).sends =
      [⟨107, ⟨vtable_ptr.table 0, 5⟩, ⟨0x900000000, 0⟩, 8⟩] ∧
    (submit W0 N0 ⟨⟨vtable_ptr.table 0, 5⟩, thread_description.none, 1, 2, 0,
        some ⟨0x900000000, 0⟩⟩ 0 true ec0 (applier.init_tss 7 rt0)).rt.tm_calls = [] :=
  ⟨by decide, by decide,
    (submit_remote_uses_parcel_transport W0 N0
      ⟨⟨vtable_ptr.table 0, 5⟩, thread_description.none, 1, 2, 0, some ⟨0x900000000, 0⟩⟩
      0 true ec0 (applier.init_tss 7 rt0) 7 ⟨0x900000000, 0⟩ (by decide) rfl (by decide)).1,
    (submit_remote_uses_parcel_transport W0 N0
      ⟨⟨vtable_ptr.table 0, 5⟩, thread_description.none, 1, 2, 0, some ⟨0x900000000, 0⟩⟩
      0 true ec0 (applier.init_tss 7 rt0) 7 ⟨0x900000000, 0⟩ (by decide) rfl (by decide)).2.2.1⟩

/-- C23: locality decoding is a pure function of the gid.
`applier::get_locality_id` returns `get_locality_id_from_gid` applied to the
gid `get_local_locality` yields, whatever the applier holds; two runs that
decode in the same way and are given the same gid return the same id, also
when the appliers, their thread managers and parcel handlers and the
answers of the raw locality queries differ. -/
theorem get_locality_id_pure (N N2 : Resolvers) (this this2 : applier)
    (ec ec2 : error_code)
    (hd : N.get_locality_id_from_gid = N2.get_locality_id_from_gid)
    (hg : (N.get_local_locality ec).1 = (N2.get_local_locality ec2).1) :
    (this.get_locality_id N ec).1 = N.get_locality_id_from_gid (N.get_local_locality ec).1 ∧
    this.get_raw_locality N ec = N.get_local_locality ec ∧
    (this.get_locality_id N ec).1 = (this2.get_locality_id N2 ec2).1 := by
  refine ⟨rfl, rfl, ?_⟩
  simp [applier.get_locality_id, applier.get_raw_locality, hd, hg]

theorem get_locality_id_pure_witness :
    (applier.get_locality_id N0 ⟨107, 207⟩ ec0).1 = 2 ∧
    (applier.get_locality_id N0 ⟨107, 207⟩ ec0).1 =
      (applier.get_locality_id
        { N0 with get_raw_localities := fun _ raw _ ec => (false, raw, ec) }
        ⟨100, 200⟩ ⟨error.other 5, "", ""⟩).1 :=
  ⟨by decide,
    (get_locality_id_pure N0 { N0 with get_raw_localities := fun _ raw _ ec => (false, raw, ec) }
      ⟨107, 207⟩ ⟨100, 200⟩ ec0 ⟨error.other 5, "", ""⟩ rfl rfl).2.2⟩

/-- C21: lock-check wrapping.  With an applier bound, the thread function
that `register_thread`, `register_work`, `register_thread_nullary` and
`register_work_nullary` hand to the thread manager, when run (with whatever
argument), runs `thread_function` (resp. `thread_function_nullary`) on the
submitted callable.  That function calls the callable exactly once, with
`threads::wait_signaled` (resp. with no argument); if the callable returns,
`force_error_on_lock` is called next, and when no lock is left the result
is `(terminated, nullptr)`, while a lock still held makes the check fail;
if the callable fails, its failure propagates and no check is made. -/
theorem lock_check_wrapping {E : Type} (W : Collaborators) (R : Runner E) (rt : Runtime)
    (app : Nat) (h : get_applier_ptr rt = some app)
    (f0 : unique_function_base 0) (f1 : unique_function_base 1)
    (desc : thread_description) (state : thread_state_enum) (run_now : Bool)
    (priority : thread_priority) (os_thread : Nat) (stacksize : thread_stacksize)
    (ec : error_code) (arg : thread_state_ex_enum) (x : Execution) :
    (∃ d : thread_init_data,
      (register_thread W f1 desc state run_now priority os_thread stacksize ec rt).rt.tm_calls =
        rt.tm_calls ++ [tm_call.register_thread (rt.appliers app).thread_manager_ d thread_id_type.invalid_thread_id state run_now ec] ∧
      run R d.func arg x = some (thread_function R f1 x)) ∧
    (∃ d : thread_init_data,
      (register_work W f1 desc state priority os_thread stacksize ec rt).rt.tm_calls =
        rt.tm_calls ++ [tm_call.register_work (rt.appliers app).thread_manager_ d state ec] ∧
      run R d.func arg x = some (thread_function R f1 x)) ∧
    (∃ d : thread_init_data,
      (register_thread_nullary W f0 desc state run_now priority os_thread stacksize ec rt).rt.tm_calls =
        rt.tm_calls ++ [tm_call.register_thread (rt.appliers app).thread_manager_ d thread_id_type.invalid_thread_id state run_now ec] ∧
      run R d.func arg x = some (thread_function_nullary R f0 x)) ∧
    (∃ d : thread_init_data,
      (register_work_nullary W f0 desc state priority os_thread stacksize ec rt).rt.tm_calls =
        rt.tm_calls ++ [tm_call.register_work (rt.appliers app).thread_manager_ d state ec] ∧
      run R d.func arg x = some (thread_function_nullary R f0 x)) ∧
    (∀ l, R.call f1 thread_state_ex_enum.wait_signaled x.locks = Except.ok l →
      (thread_function R f1 x).2.events = x.events ++
        [run_event.call f1 thread_state_ex_enum.wait_signaled, run_event.force_error_on_lock] ∧
      (l = 0 → (thread_function R f1 x).1 = Except.ok ⟨R.terminated, Option.none⟩) ∧
      (l ≠ 0 → (thread_function R f1 x).1 = Except.error R.lock_error)) ∧
    (∀ e, R.call f1 thread_state_ex_enum.wait_signaled x.locks = Except.error e →
      (thread_function R f1 x).2.events = x.events ++
        [run_event.call f1 thread_state_ex_enum.wait_signaled] ∧
      (thread_function R f1 x).1 = Except.error e) ∧
    (∀ l, R.call_nullary f0 x.locks = Except.ok l →
      (thread_function_nullary R f0 x).2.events = x.events ++
        [run_event.call_nullary f0, run_event.force_error_on_lock] ∧
      (l = 0 → (thread_function_nullary R f0 x).1 = Except.ok ⟨R.terminated, Option.none⟩) ∧
      (l ≠ 0 → (thread_function_nullary R f0 x).1 = Except.error R.lock_error)) ∧
    (∀ e, R.call_nullary f0 x.locks = Except.error e →
      (thread_function_nullary R f0 x).2.events = x.events ++ [run_event.call_nullary f0] ∧
      (thread_function_nullary R f0 x).1 = Except.error e) := by
  refine ⟨?_, ?_, ?_, ?_, ?_, ?_, ?_, ?_⟩
  · simp only [register_thread, h, Runtime.register_thread, applier.get_thread_manager]
    exact ⟨_, rfl, rfl⟩
  · simp only [register_work, h, Runtime.register_work, applier.get_thread_manager]
    exact ⟨_, rfl, rfl⟩
  · simp only [register_thread_nullary, h, Runtime.register_thread, applier.get_thread_manager]
    exact ⟨_, rfl, rfl⟩
  · simp only [register_work_nullary, h, Runtime.register_work, applier.get_thread_manager]
    exact ⟨_, rfl, rfl⟩
  · intro l hl
    by_cases h0 : l = 0
    · simp [thread_function, hl, force_error_on_lock, h0]
    · simp [thread_function, hl, force_error_on_lock, h0]
  · intro e he
    simp [thread_function, he]
  · intro l hl
    by_cases h0 : l = 0
    · simp [thread_function_nullary, hl, force_error_on_lock, h0]
    · simp [thread_function_nullary, hl, force_error_on_lock, h0]
  · intro e he
    simp [thread_function_nullary, he]

theorem lock_check_wrapping_witness :
    get_applier_ptr (applier.init_tss 7 rt0) = some 7 ∧
    R0.call ⟨vtable_ptr.table 0, 5⟩ thread_state_ex_enum.wait_signaled x0.locks = Except.ok 0 ∧
    (thread_function R0 ⟨vtable_ptr.table 0, 5⟩ x0).2.events =
      [run_event.call ⟨vtable_ptr.table 0, 5⟩ thread_state_ex_enum.wait_signaled,
        run_event.force_error_on_lock] ∧
    (thread_function R0 ⟨vtable_ptr.table 0, 5⟩ x0).1 = Except.ok ⟨5, Option.none⟩ :=
  ⟨by decide, rfl,
    ((lock_check_wrapping W0 R0 (applier.init_tss 7 rt0) 7 (by decide)
      ⟨vtable_ptr.table 0, 5⟩ ⟨vtable_ptr.table 0, 5⟩ thread_description.none 0 true 1 0 2
      ec0 (thread_state_ex_enum.other 3) x0).2.2.2.2.1 0 rfl).1,
    ((lock_check_wrapping W0 R0 (applier.init_tss 7 rt0) 7 (by decide)
      ⟨vtable_ptr.table 0, 5⟩ ⟨vtable_ptr.table 0, 5⟩ thread_description.none 0 true 1 0 2
      ec0 (thread_state_ex_enum.other 3) x0).2.2.2.2.1 0 rfl).2.1 rfl⟩

end applier

/-! ## Theorems: the signatures share one behaviour -/

namespace util
namespace detail

variable {arity : Nat}

theorem retype_update (m : Nat) (objs : Nat → unique_function_base arity) (this : Nat)
    (c : unique_function_base arity) :
    (fun a => (Function.update objs this c a).retype m) =
      Function.update (fun a => (objs a).retype m) this (c.retype m) := by
  funext a
  by_cases h : a = this
  · subst h
    simp
  · simp [Function.update_noteq h]

theorem retype_set_vptr (m : Nat) (s : State arity) (this : Nat) (v : vtable_ptr) :
    (s.set_vptr this v).retype m = (s.retype m).set_vptr this v := by
  simp only [State.retype, State.set_vptr, retype_update]
  rfl

theorem retype_set_object (m : Nat) (s : State arity) (this : Nat) (o : Nat) :
    (s.set_object this o).retype m = (s.retype m).set_object this o := by
  simp only [State.retype, State.set_object, retype_update]
  rfl

theorem retype_default_construct (m : Nat) (s : State arity) (this : Nat) :
    (default_construct this s).retype m = default_construct this (s.retype m) := by
  simp only [State.retype, default_construct, retype_update]
  rfl

theorem retype_placement_new_slot (m : Nat) (env : Env) (s : State arity) (this : Nat)
    (f : Callable) :
    (s.placement_new_slot env this f).retype m = (s.retype m).placement_new_slot env this f := by
  simp only [State.retype, State.placement_new_slot, State.set_object, retype_update]
  rfl

theorem retype_placement_new_block (m : Nat) (s : State arity) (this : Nat) (f : Callable) :
    (s.placement_new_block this f).retype m = (s.retype m).placement_new_block this f :=
  rfl

theorem retype_new_block (m : Nat) (s : State arity) (this : Nat) (f : Callable) :
    (s.new_block this f).retype m = (s.retype m).new_block this f := by
  simp only [State.retype, State.new_block, State.set_object, retype_update]
  rfl

theorem retype_call_destruct (m : Nat) (env : Env) (s : State arity) (this : Nat) :
    (s.call_destruct env this).retype m = (s.retype m).call_destruct env this :=
  rfl

theorem retype_call_static_delete (m : Nat) (env : Env) (s : State arity) (this : Nat) :
    (s.call_static_delete env this).retype m = (s.retype m).call_static_delete env this :=
  rfl

theorem retype_empty (m : Nat) (s : State arity) (this : Nat) :
    empty this (s.retype m) = empty this s :=
  rfl

theorem retype_reset (m : Nat) (env : Env) (s : State arity) (this : Nat) :
    (reset env this s).retype m = reset env this (s.retype m) := by
  unfold reset
  rw [retype_empty]
  split
  · simp only [retype_set_object, retype_set_vptr, retype_call_static_delete]
  · rfl

theorem retype_construct (m : Nat) (env : Env) (s : State arity) (this : Nat)
    (f : Callable) :
    (construct env this f s).retype m = construct env this f (s.retype m) := by
  unfold construct
  split
  · split
    · rw [retype_placement_new_slot, retype_set_vptr, retype_default_construct]
    · rw [retype_new_block, retype_set_vptr, retype_default_construct]
  · exact retype_default_construct m s this

theorem retype_move_construct (m : Nat) (s : State arity) (this other : Nat) :
    (move_construct this other s).retype m = move_construct this other (s.retype m) := by
  simp only [State.retype, move_construct, unique_function_base.move_construct,
    retype_update]
  rfl

theorem retype_assign (m : Nat) (env : Env) (s : State arity) (this addr_f : Nat)
    (f : Callable) :
    (assign env this addr_f f s).retype m = assign env this addr_f f (s.retype m) := by
  unfold assign
  split
  · rfl
  · simp only [retype_empty]
    have hv : ((s.retype m).objs this).vptr = (s.objs this).vptr := rfl
    have ho : ((s.retype m).objs this).object = (s.objs this).object := rfl
    rw [hv, ho]
    split
    · split
      · rw [retype_placement_new_slot, retype_call_destruct]
      · split
        · rw [retype_placement_new_block, retype_call_destruct]
        · rw [retype_new_block]
    · split
      · split
        · rw [retype_set_vptr, retype_placement_new_slot, retype_reset]
        · rw [retype_set_vptr, retype_new_block, retype_reset]
      · exact retype_reset m env s this

theorem retype_move_assign (m : Nat) (env : Env) (s : State arity) (this t : Nat) :
    (move_assign env this t s).retype m = move_assign env this t (s.retype m) := by
  unfold move_assign
  split
  · dsimp only
    rw [← retype_reset, ← retype_set_vptr, ← retype_set_object, ← retype_set_vptr,
      ← retype_set_object]
    rfl
  · rfl

theorem retype_swap (m : Nat) (s : State arity) (this f : Nat) :
    (swap this f s).retype m = swap this f (s.retype m) := by
  unfold swap
  dsimp only
  rw [← retype_set_vptr, ← retype_set_vptr, ← retype_set_object, ← retype_set_object]
  rfl

theorem retype_destroy (m : Nat) (env : Env) (s : State arity) (this : Nat) :
    (destroy env this s).retype m = destroy env this (s.retype m) := by
  unfold destroy
  have ho : ((s.retype m).objs this).object = (s.objs this).object := rfl
  rw [ho]
  split
  · rfl
  · rfl

end detail
end util

/-! ## Theorems: reset, swap as an involution, the allocating branch of assign -/

namespace util
namespace detail

variable {arity : Nat}

theorem vptr_of_empty {this : Nat} {s : State arity} (h : empty this s = true) :
    (s.objs this).vptr = get_empty_table_ptr := by
  simp only [empty, Bool.and_eq_true] at h
  cases hv : (s.objs this).vptr with
  | empty_table => rfl
  | table F => simp [hv, vtable_ptr.empty] at h

theorem empty_reset (env : Env) (this : Nat) (s : State arity) :
    empty this (reset env this s) = true := by
  by_cases he : empty this s = true
  · rw [reset_of_empty env he]
    exact he
  · have he2 : empty this s = false := by simpa using he
    rw [reset_of_not_empty env he2]
    simp [empty, State.set_object, State.set_vptr, State.call_static_delete,
      get_empty_table_ptr, vtable_ptr.empty]

/-- C31: `reset()`.  For every closure state, after `reset()` the closure is
bound to the canonical empty table with a null slot and `empty()` is true.
On a non-empty closure `static_delete` is called exactly once, through the
table the closure was bound to and on its slot; on an empty closure nothing
is called and the state is unchanged.  A second `reset()` changes nothing. -/
theorem reset_empties_once (env : Env) (this : Nat) (s : State arity) :
    (reset env this s).objs this = ⟨get_empty_table_ptr, 0⟩ ∧
    empty this (reset env this s) = true ∧
    (reset env this s).trace = s.trace ++
      (if empty this s then []
        else [Event.static_delete (s.objs this).vptr (s.objs this).object]) ∧
    (empty this s = true → reset env this s = s) ∧
    (∀ a, a ≠ this → (reset env this s).objs a = s.objs a) ∧
    reset env this (reset env this s) = reset env this s := by
  refine ⟨?_, empty_reset env this s, ?_, fun he => reset_of_empty env he, ?_,
    reset_of_empty env (empty_reset env this s)⟩
  · by_cases he : empty this s = true
    · rw [reset_of_empty env he]
      have h1 := vptr_of_empty he
      have h2 := object_eq_zero_of_empty he
      cases hc : s.objs this with
      | mk v o =>
        rw [hc] at h1 h2
        simp only at h1 h2
        rw [h1, h2]
    · have he2 : empty this s = false := by simpa using he
      rw [reset_of_not_empty env he2]
      simp [State.set_object, State.set_vptr, State.call_static_delete]
  · by_cases he : empty this s = true
    · rw [reset_of_empty env he]
      simp [he]
    · have he2 : empty this s = false := by simpa using he
      rw [reset_of_not_empty env he2]
      simp [he2, State.set_object, State.set_vptr, State.call_static_delete]
  · intro a ha
    by_cases he : empty this s = true
    · rw [reset_of_empty env he]
    · have he2 : empty this s = false := by simpa using he
      rw [reset_of_not_empty env he2]
      simp [State.set_object, State.set_vptr, State.call_static_delete, Function.update, ha]

theorem reset_empties_once_witness :
    (empty 0 (state0 0) = true → reset env64 0 (state0 0) = state0 0) ∧
    (reset env64 0 (construct env64 0 ⟨2, 77⟩ (state0 0))).objs 0 = ⟨vtable_ptr.empty_table, 0⟩ ∧
    (reset env64 0 (construct env64 0 ⟨2, 77⟩ (state0 0))).trace =
      [Event.new_block 1 ⟨2, 77⟩, Event.static_delete (vtable_ptr.table 2) 1] :=
  ⟨(reset_empties_once env64 0 (state0 0)).2.2.2.1,
    (reset_empties_once env64 0 (construct env64 0 ⟨2, 77⟩ (state0 0))).1,
    (reset_empties_once env64 0 (construct env64 0 ⟨2, 77⟩ (state0 0))).2.2.1⟩

theorem swap_eq (this f : Nat) (s : State arity) :
    swap this f s = { s with objs := fun a => s.objs (Equiv.swap this f a) } := by
  have hobjs : (swap this f s).objs = fun a => s.objs (Equiv.swap this f a) := by
    funext a
    by_cases hat : a = this
    · subst hat
      by_cases haf : a = f
      · subst haf
        simp [swap, State.set_vptr, State.set_object]
      · simp [swap, State.set_vptr, State.set_object, Function.update, haf, Ne.symm haf]
    · by_cases haf : a = f
      · subst haf
        simp [swap, State.set_vptr, State.set_object, Function.update, hat, Ne.symm hat]
      · simp [swap, State.set_vptr, State.set_object, Function.update, hat, haf,
          Equiv.swap_apply_of_ne_of_ne hat haf]
  calc swap this f s
      = ⟨(swap this f s).objs, (swap this f s).heap, (swap this f s).brk,
          (swap this f s).trace⟩ := rfl
    _ = ⟨fun a => s.objs (Equiv.swap this f a), s.heap, s.brk, s.trace⟩ := by
        rw [hobjs]
        rfl

/-- C35: swap is an involution and self-swap is the identity.  `a.swap(b)`
done twice gives back the state it started from, `a.swap(b)` and
`b.swap(a)` give the same state, and `a.swap(a)` changes nothing. -/
theorem swap_involution (a b : Nat) (s : State arity) :
    swap a b (swap a b s) = s ∧
    swap a b s = swap b a s ∧
    swap a a s = s := by
  refine ⟨?_, ?_, ?_⟩
  · rw [swap_eq a b (swap a b s), swap_eq a b s]
    simp
  · rw [swap_eq a b s, swap_eq b a s, Equiv.swap_comm]
  · rw [swap_eq a a s]
    simp

/-- C36: the allocating branch of same-type assignment is unreachable.  In
every reachable state, a closure bound to the table of a type `F` larger
than the slot (hence non-empty) has a non-null slot; `assign(f)` with `f` of
type `F` therefore destructs the held value and constructs `f` into the
block the slot points to: the slot and the allocator are unchanged and no
block is allocated. -/
theorem reachable_assign_reuses_block (env : Env) (s : State arity) (h : Reachable env s)
    (this addr_f : Nat) (f : Callable) (hne : this ≠ addr_f)
    (hv : (s.objs this).vptr = get_table_ptr f.type)
    (hs : ¬ env.sizeof f.type ≤ env.ptr_size) :
    empty this s = false ∧
    (s.objs this).object ≠ 0 ∧
    assign env this addr_f f s = (s.call_destruct env this).placement_new_block this f ∧
    ((assign env this addr_f f s).objs this).object = (s.objs this).object ∧
    (assign env this addr_f f s).brk = s.brk ∧
    (assign env this addr_f f s).trace = s.trace ++
      [Event.destruct (s.objs this).vptr (s.objs this).object,
        Event.placement_new_block (s.objs this).object f] := by
  have he : empty this s = false := empty_eq_false_of_table hv
  have ho : (s.objs this).object ≠ 0 :=
    (boxed_slot ⟨f.type, hv, hs⟩ ((reachable_well_stored h).1 this)).1
  have hA : assign env this addr_f f s =
      (s.call_destruct env this).placement_new_block this f := by
    simp [assign, hne, hv, he, hs, ho]
  refine ⟨he, ho, hA, ?_, ?_, ?_⟩
  · rw [hA]
    simp [State.call_destruct, State.placement_new_block]
  · rw [hA]
    simp [State.call_destruct, State.placement_new_block]
  · rw [hA]
    simp [State.call_destruct, State.placement_new_block]

theorem reachable_assign_reuses_block_witness :
    Reachable env64 (construct env64 0 ⟨2, 77⟩ (state0 0)) ∧
    (0 : Nat) ≠ 9 ∧
    ((construct env64 0 ⟨2, 77⟩ (state0 0)).objs 0).vptr = get_table_ptr 2 ∧
    ¬ env64.sizeof 2 ≤ env64.ptr_size ∧
    (assign env64 0 9 ⟨2, 78⟩ (construct env64 0 ⟨2, 77⟩ (state0 0))).trace =
      [Event.new_block 1 ⟨2, 77⟩, Event.destruct (vtable_ptr.table 2) 1,
        Event.placement_new_block 1 ⟨2, 78⟩] :=
  ⟨Reachable.construct 0 ⟨2, 77⟩ _ (Reachable.start (state0 0) (fun _ => rfl)),
    by decide, by decide, by decide,
    (reachable_assign_reuses_block env64 _
      (Reachable.construct 0 ⟨2, 77⟩ _ (Reachable.start (state0 0) (fun _ => rfl)))
      0 9 ⟨2, 78⟩ (by decide) (by decide) (by decide)).2.2.2.2.2⟩

theorem move_construct_0_eq (this other : Nat) (s : State 0) :
    move_construct_0 this other s = move_construct this other s := by
  simp [move_construct_0, move_construct, unique_function_base.move_construct,
    State.set_vptr, State.set_object]

theorem members_0_agree (env : Env) (this other addr_f : Nat) (f : Callable)
    (s : State 0) :
    (members_0.default_construct this s).retype 0 =
      members_0.default_construct this (s.retype 0) ∧
    (members_0.construct env this f s).retype 0 =
      members_0.construct env this f (s.retype 0) ∧
    (members_0.move_construct this other s).retype 0 =
      members_0.move_construct this other (s.retype 0) ∧
    (members_0.assign env this addr_f f s).retype 0 =
      members_0.assign env this addr_f f (s.retype 0) ∧
    (members_0.move_assign env this other s).retype 0 =
      members_0.move_assign env this other (s.retype 0) ∧
    (members_0.swap this other s).retype 0 = members_0.swap this other (s.retype 0) ∧
    members_0.empty this s = members_0.empty this (s.retype 0) ∧
    (members_0.reset env this s).retype 0 = members_0.reset env this (s.retype 0) ∧
    (members_0.destroy env this s).retype 0 = members_0.destroy env this (s.retype 0) := by
  refine ⟨retype_default_construct 0 s this, retype_construct 0 env s this f, ?_,
    retype_assign 0 env s this addr_f f, retype_move_assign 0 env s this other,
    retype_swap 0 s this other, rfl, retype_reset 0 env s this,
    retype_destroy 0 env s this⟩
  show (move_construct_0 this other s).retype 0 = move_construct_0 this other (s.retype 0)
  rw [move_construct_0_eq, move_construct_0_eq]
  exact retype_move_construct 0 s this other

theorem move_construct_1_eq (this other : Nat) (s : State 1) :
    move_construct_1 this other s = move_construct this other s := by
  simp [move_construct_1, move_construct, unique_function_base.move_construct,
    State.set_vptr, State.set_object]

theorem members_1_agree (env : Env) (this other addr_f : Nat) (f : Callable)
    (s : State 1) :
    (members_1.default_construct this s).retype 0 =
      members_0.default_construct this (s.retype 0) ∧
    (members_1.construct env this f s).retype 0 =
      members_0.construct env this f (s.retype 0) ∧
    (members_1.move_construct this other s).retype 0 =
      members_0.move_construct this other (s.retype 0) ∧
    (members_1.assign env this addr_f f s).retype 0 =
      members_0.assign env this addr_f f (s.retype 0) ∧
    (members_1.move_assign env this other s).retype 0 =
      members_0.move_assign env this other (s.retype 0) ∧
    (members_1.swap this other s).retype 0 = members_0.swap this other (s.retype 0) ∧
    members_1.empty this s = members_0.empty this (s.retype 0) ∧
    (members_1.reset env this s).retype 0 = members_0.reset env this (s.retype 0) ∧
    (members_1.destroy env this s).retype 0 = members_0.destroy env this (s.retype 0) := by
  refine ⟨retype_default_construct 0 s this, retype_construct 0 env s this f, ?_,
    retype_assign 0 env s this addr_f f, retype_move_assign 0 env s this other,
    retype_swap 0 s this other, rfl, retype_reset 0 env s this,
    retype_destroy 0 env s this⟩
  show (move_construct_1 this other s).retype 0 = move_construct_0 this other (s.retype 0)
  rw [move_construct_1_eq, move_construct_0_eq]
  exact retype_move_construct 0 s this other

theorem move_construct_2_eq (this other : Nat) (s : State 2) :
    move_construct_2 this other s = move_construct this other s := by
  simp [move_construct_2, move_construct, unique_function_base.move_construct,
    State.set_vptr, State.set_object]

theorem members_2_agree (env : Env) (this other addr_f : Nat) (f : Callable)
    (s : State 2) :
    (members_2.default_construct this s).retype 0 =
      members_0.default_construct this (s.retype 0) ∧
    (members_2.construct env this f s).retype 0 =
      members_0.construct env this f (s.retype 0) ∧
    (members_2.move_construct this other s).retype 0 =
      members_0.move_construct this other (s.retype 0) ∧
    (members_2.assign env this addr_f f s).retype 0 =
      members_0.assign env this addr_f f (s.retype 0) ∧
    (members_2.move_assign env this other s).retype 0 =
      members_0.move_assign env this other (s.retype 0) ∧
    (members_2.swap this other s).retype 0 = members_0.swap this other (s.retype 0) ∧
    members_2.empty this s = members_0.empty this (s.retype 0) ∧
    (members_2.reset env this s).retype 0 = members_0.reset env this (s.retype 0) ∧
    (members_2.destroy env this s).retype 0 = members_0.destroy env this (s.retype 0) := by
  refine ⟨retype_default_construct 0 s this, retype_construct 0 env s this f, ?_,
    retype_assign 0 env s this addr_f f, retype_move_assign 0 env s this other,
    retype_swap 0 s this other, rfl, retype_reset 0 env s this,
    retype_destroy 0 env s this⟩
  show (move_construct_2 this other s).retype 0 = move_construct_0 this other (s.retype 0)
  rw [move_construct_2_eq, move_construct_0_eq]
  exact retype_move_construct 0 s this other

theorem move_construct_3_eq (this other : Nat) (s : State 3) :
    move_construct_3 this other s = move_construct this other s := by
  simp [move_construct_3, move_construct, unique_function_base.move_construct,
    State.set_vptr, State.set_object]

theorem members_3_agree (env : Env) (this other addr_f : Nat) (f : Callable)
    (s : State 3) :
    (members_3.default_construct this s).retype 0 =
      members_0.default_construct this (s.retype 0) ∧
    (members_3.construct env this f s).retype 0 =
      members_0.construct env this f (s.retype 0) ∧
    (members_3.move_construct this other s).retype 0 =
      members_0.move_construct this other (s.retype 0) ∧
    (members_3.assign env this addr_f f s).retype 0 =
      members_0.assign env this addr_f f (s.retype 0) ∧
    (members_3.move_assign env this other s).retype 0 =
      members_0.move_assign env this other (s.retype 0) ∧
    (members_3.swap this other s).retype 0 = members_0.swap this other (s.retype 0) ∧
    members_3.empty this s = members_0.empty this (s.retype 0) ∧
    (members_3.reset env this s).retype 0 = members_0.reset env this (s.retype 0) ∧
    (members_3.destroy env this s).retype 0 = members_0.destroy env this (s.retype 0) := by
  refine ⟨retype_default_construct 0 s this, retype_construct 0 env s this f, ?_,
    retype_assign 0 env s this addr_f f, retype_move_assign 0 env s this other,
    retype_swap 0 s this other, rfl, retype_reset 0 env s this,
    retype_destroy 0 env s this⟩
  show (move_construct_3 this other s).retype 0 = move_construct_0 this other (s.retype 0)
  rw [move_construct_3_eq, move_construct_0_eq]
  exact retype_move_construct 0 s this other

theorem move_construct_4_eq (this other : Nat) (s : State 4) :
    move_construct_4 this other s = move_construct this other s := by
  simp [move_construct_4, move_construct, unique_function_base.move_construct,
    State.set_vptr, State.set_object]

theorem members_4_agree (env : Env) (this other addr_f : Nat) (f : Callable)
    (s : State 4) :
    (members_4.default_construct this s).retype 0 =
      members_0.default_construct this (s.retype 0) ∧
    (members_4.construct env this f s).retype 0 =
      members_0.construct env this f (s.retype 0) ∧
    (members_4.move_construct this other s).retype 0 =
      members_0.move_construct this other (s.retype 0) ∧
    (members_4.assign env this addr_f f s).retype 0 =
      members_0.assign env this addr_f f (s.retype 0) ∧
    (members_4.move_assign env this other s).retype 0 =
      members_0.move_assign env this other (s.retype 0) ∧
    (members_4.swap this other s).retype 0 = members_0.swap this other (s.retype 0) ∧
    members_4.empty this s = members_0.empty this (s.retype 0) ∧
    (members_4.reset env this s).retype 0 = members_0.reset env this (s.retype 0) ∧
    (members_4.destroy env this s).retype 0 = members_0.destroy env this (s.retype 0) := by
  refine ⟨retype_default_construct 0 s this, retype_construct 0 env s this f, ?_,
    retype_assign 0 env s this addr_f f, retype_move_assign 0 env s this other,
    retype_swap 0 s this other, rfl, retype_reset 0 env s this,
    retype_destroy 0 env s this⟩
  show (move_construct_4 this other s).retype 0 = move_construct_0 this other (s.retype 0)
  rw [move_construct_4_eq, move_construct_0_eq]
  exact retype_move_construct 0 s this other

theorem move_construct_5_eq (this other : Nat) (s : State 5) :
    move_construct_5 this other s = move_construct this other s := by
  simp [move_construct_5, move_construct, unique_function_base.move_construct,
    State.set_vptr, State.set_object]

theorem members_5_agree (env : Env) (this other addr_f : Nat) (f : Callable)
    (s : State 5) :
    (members_5.default_construct this s).retype 0 =
      members_0.default_construct this (s.retype 0) ∧
    (members_5.construct env this f s).retype 0 =
      members_0.construct env this f (s.retype 0) ∧
    (members_5.move_construct this other s).retype 0 =
      members_0.move_construct this other (s.retype 0) ∧
    (members_5.assign env this addr_f f s).retype 0 =
      members_0.assign env this addr_f f (s.retype 0) ∧
    (members_5.move_assign env this other s).retype 0 =
      members_0.move_assign env this other (s.retype 0) ∧
    (members_5.swap this other s).retype 0 = members_0.swap this other (s.retype 0) ∧
    members_5.empty this s = members_0.empty this (s.retype 0) ∧
    (members_5.reset env this s).retype 0 = members_0.reset env this (s.retype 0) ∧
    (members_5.destroy env this s).retype 0 = members_0.destroy env this (s.retype 0) := by
  refine ⟨retype_default_construct 0 s this, retype_construct 0 env s this f, ?_,
    retype_assign 0 env s this addr_f f, retype_move_assign 0 env s this other,
    retype_swap 0 s this other, rfl, retype_reset 0 env s this,
    retype_destroy 0 env s this⟩
  show (move_construct_5 this other s).retype 0 = move_construct_0 this other (s.retype 0)
  rw [move_construct_5_eq, move_construct_0_eq]
  exact retype_move_construct 0 s this other

theorem move_construct_6_eq (this other : Nat) (s : State 6) :
    move_construct_6 this other s = move_construct this other s := by
  simp [move_construct_6, move_construct, unique_function_base.move_construct,
    State.set_vptr, State.set_object]

theorem members_6_agree (env : Env) (this other addr_f : Nat) (f : Callable)
    (s : State 6) :
    (members_6.default_construct this s).retype 0 =
      members_0.default_construct this (s.retype 0) ∧
    (members_6.construct env this f s).retype 0 =
      members_0.construct env this f (s.retype 0) ∧
    (members_6.move_construct this other s).retype 0 =
      members_0.move_construct this other (s.retype 0) ∧
    (members_6.assign env this addr_f f s).retype 0 =
      members_0.assign env this addr_f f (s.retype 0) ∧
    (members_6.move_assign env this other s).retype 0 =
      members_0.move_assign env this other (s.retype 0) ∧
    (members_6.swap this other s).retype 0 = members_0.swap this other (s.retype 0) ∧
    members_6.empty this s = members_0.empty this (s.retype 0) ∧
    (members_6.reset env this s).retype 0 = members_0.reset env this (s.retype 0) ∧
    (members_6.destroy env this s).retype 0 = members_0.destroy env this (s.retype 0) := by
  refine ⟨retype_default_construct 0 s this, retype_construct 0 env s this f, ?_,
    retype_assign 0 env s this addr_f f, retype_move_assign 0 env s this other,
    retype_swap 0 s this other, rfl, retype_reset 0 env s this,
    retype_destroy 0 env s this⟩
  show (move_construct_6 this other s).retype 0 = move_construct_0 this other (s.retype 0)
  rw [move_construct_6_eq, move_construct_0_eq]
  exact retype_move_construct 0 s this other

theorem move_construct_7_eq (this other : Nat) (s : State 7) :
    move_construct_7 this other s = move_construct this other s := by
  simp [move_construct_7, move_construct, unique_function_base.move_construct,
    State.set_vptr, State.set_object]

theorem members_7_agree (env : Env) (this other addr_f : Nat) (f : Callable)
    (s : State 7) :
    (members_7.default_construct this s).retype 0 =
      members_0.default_construct this (s.retype 0) ∧
    (members_7.construct env this f s).retype 0 =
      members_0.construct env this f (s.retype 0) ∧
    (members_7.move_construct this other s).retype 0 =
      members_0.move_construct this other (s.retype 0) ∧
    (members_7.assign env this addr_f f s).retype 0 =
      members_0.assign env this addr_f f (s.retype 0) ∧
    (members_7.move_assign env this other s).retype 0 =
      members_0.move_assign env this other (s.retype 0) ∧
    (members_7.swap this other s).retype 0 = members_0.swap this other (s.retype 0) ∧
    members_7.empty this s = members_0.empty this (s.retype 0) ∧
    (members_7.reset env this s).retype 0 = members_0.reset env this (s.retype 0) ∧
    (members_7.destroy env this s).retype 0 = members_0.destroy env this (s.retype 0) := by
  refine ⟨retype_default_construct 0 s this, retype_construct 0 env s this f, ?_,
    retype_assign 0 env s this addr_f f, retype_move_assign 0 env s this other,
    retype_swap 0 s this other, rfl, retype_reset 0 env s this,
    retype_destroy 0 env s this⟩
  show (move_construct_7 this other s).retype 0 = move_construct_0 this other (s.retype 0)
  rw [move_construct_7_eq, move_construct_0_eq]
  exact retype_move_construct 0 s this other

theorem move_construct_8_eq (this other : Nat) (s : State 8) :
    move_construct_8 this other s = move_construct this other s := by
  simp [move_construct_8, move_construct, unique_function_base.move_construct,
    State.set_vptr, State.set_object]

theorem members_8_agree (env : Env) (this other addr_f : Nat) (f : Callable)
    (s : State 8) :
    (members_8.default_construct this s).retype 0 =
      members_0.default_construct this (s.retype 0) ∧
    (members_8.construct env this f s).retype 0 =
      members_0.construct env this f (s.retype 0) ∧
    (members_8.move_construct this other s).retype 0 =
      members_0.move_construct this other (s.retype 0) ∧
    (members_8.assign env this addr_f f s).retype 0 =
      members_0.assign env this addr_f f (s.retype 0) ∧
    (members_8.move_assign env this other s).retype 0 =
      members_0.move_assign env this other (s.retype 0) ∧
    (members_8.swap this other s).retype 0 = members_0.swap this other (s.retype 0) ∧
    members_8.empty this s = members_0.empty this (s.retype 0) ∧
    (members_8.reset env this s).retype 0 = members_0.reset env this (s.retype 0) ∧
    (members_8.destroy env this s).retype 0 = members_0.destroy env this (s.retype 0) := by
  refine ⟨retype_default_construct 0 s this, retype_construct 0 env s this f, ?_,
    retype_assign 0 env s this addr_f f, retype_move_assign 0 env s this other,
    retype_swap 0 s this other, rfl, retype_reset 0 env s this,
    retype_destroy 0 env s this⟩
  show (move_construct_8 this other s).retype 0 = move_construct_0 this other (s.retype 0)
  rw [move_construct_8_eq, move_construct_0_eq]
  exact retype_move_construct 0 s this other

theorem operator_calls_share_body (A R E : Type) (this : Nat) :
    (∀ (I : Invoker 0 A R E) (t : State 0),
      operator_call_0 I this t = call I this [] t) ∧
    (∀ (I : Invoker 1 A R E) (a0 : A) (t : State 1),
      operator_call_1 I this a0 t = call I this [a0] t) ∧
    (∀ (I : Invoker 2 A R E) (a0 a1 : A) (t : State 2),
      operator_call_2 I this a0 a1 t = call I this [a0, a1] t) ∧
    (∀ (I : Invoker 3 A R E) (a0 a1 a2 : A) (t : State 3),
      operator_call_3 I this a0 a1 a2 t = call I this [a0, a1, a2] t) ∧
    (∀ (I : Invoker 4 A R E) (a0 a1 a2 a3 : A) (t : State 4),
      operator_call_4 I this a0 a1 a2 a3 t = call I this [a0, a1, a2, a3] t) ∧
    (∀ (I : Invoker 5 A R E) (a0 a1 a2 a3 a4 : A) (t : State 5),
      operator_call_5 I this a0 a1 a2 a3 a4 t = call I this [a0, a1, a2, a3, a4] t) ∧
    (∀ (I : Invoker 6 A R E) (a0 a1 a2 a3 a4 a5 : A) (t : State 6),
      operator_call_6 I this a0 a1 a2 a3 a4 a5 t = call I this [a0, a1, a2, a3, a4, a5] t) ∧
    (∀ (I : Invoker 7 A R E) (a0 a1 a2 a3 a4 a5 a6 : A) (t : State 7),
      operator_call_7 I this a0 a1 a2 a3 a4 a5 a6 t = call I this [a0, a1, a2, a3, a4, a5, a6] t) ∧
    (∀ (I : Invoker 8 A R E) (a0 a1 a2 a3 a4 a5 a6 a7 : A) (t : State 8),
      operator_call_8 I this a0 a1 a2 a3 a4 a5 a6 a7 t = call I this [a0, a1, a2, a3, a4, a5, a6, a7] t) :=
  ⟨fun _ _ => rfl, fun _ _ _ => rfl, fun _ _ _ _ => rfl, fun _ _ _ _ _ => rfl, fun _ _ _ _ _ _ => rfl, fun _ _ _ _ _ _ _ => rfl, fun _ _ _ _ _ _ _ _ => rfl, fun _ _ _ _ _ _ _ _ _ => rfl, fun _ _ _ _ _ _ _ _ _ _ => rfl⟩

theorem specialisation_agrees_with_nullary (n : Nat) (M : Members n)
    (h : specialisation n = some M) (env : Env) (this other addr_f : Nat) (f : Callable)
    (s : State n) :
    (M.default_construct this s).retype 0 =
      members_0.default_construct this (s.retype 0) ∧
    (M.construct env this f s).retype 0 = members_0.construct env this f (s.retype 0) ∧
    (M.move_construct this other s).retype 0 =
      members_0.move_construct this other (s.retype 0) ∧
    (M.assign env this addr_f f s).retype 0 =
      members_0.assign env this addr_f f (s.retype 0) ∧
    (M.move_assign env this other s).retype 0 =
      members_0.move_assign env this other (s.retype 0) ∧
    (M.swap this other s).retype 0 = members_0.swap this other (s.retype 0) ∧
    M.empty this s = members_0.empty this (s.retype 0) ∧
    (M.reset env this s).retype 0 = members_0.reset env this (s.retype 0) ∧
    (M.destroy env this s).retype 0 = members_0.destroy env this (s.retype 0) :=
  match n, M, h, s with
  | 0, M, h, s => by
    simp only [specialisation, Option.some.injEq] at h
    subst h
    exact members_0_agree env this other addr_f f s
  | 1, M, h, s => by
    simp only [specialisation, Option.some.injEq] at h
    subst h
    exact members_1_agree env this other addr_f f s
  | 2, M, h, s => by
    simp only [specialisation, Option.some.injEq] at h
    subst h
    exact members_2_agree env this other addr_f f s
  | 3, M, h, s => by
    simp only [specialisation, Option.some.injEq] at h
    subst h
    exact members_3_agree env this other addr_f f s
  | 4, M, h, s => by
    simp only [specialisation, Option.some.injEq] at h
    subst h
    exact members_4_agree env this other addr_f f s
  | 5, M, h, s => by
    simp only [specialisation, Option.some.injEq] at h
    subst h
    exact members_5_agree env this other addr_f f s
  | 6, M, h, s => by
    simp only [specialisation, Option.some.injEq] at h
    subst h
    exact members_6_agree env this other addr_f f s
  | 7, M, h, s => by
    simp only [specialisation, Option.some.injEq] at h
    subst h
    exact members_7_agree env this other addr_f f s
  | 8, M, h, s => by
    simp only [specialisation, Option.some.injEq] at h
    subst h
    exact members_8_agree env this other addr_f f s
  | k + 9, M, h, s => by
    simp [specialisation] at h

theorem specialisation_defined (n : Nat) :
    (specialisation n).isSome = true ↔ n ≤ 8 :=
  match n with
  | 0 => by simp [specialisation]
  | 1 => by simp [specialisation]
  | 2 => by simp [specialisation]
  | 3 => by simp [specialisation]
  | 4 => by simp [specialisation]
  | 5 => by simp [specialisation]
  | 6 => by simp [specialisation]
  | 7 => by simp [specialisation]
  | 8 => by simp [specialisation]
  | k + 9 => by simp [specialisation]

/-- C26: per-arity equivalence.  The header has a specialisation for each
number of arguments from 0 to 8, so for every arity in 0..7.  Each
specialisation's default construction, construction from a callable, move
construction, `assign`, move assignment, `swap`, `reset` and destruction
act on tables and slots as those of the zero-argument specialisation do
(reading the closures at the signature `R()` commutes with the operation),
and its `empty()` gives the same answer.  The nine call operators run one
body and differ only in the list of arguments they hand to it. -/
theorem specialisations_agree (n : Nat) (M : Members n) (h : specialisation n = some M)
    (env : Env) (this other addr_f : Nat) (f : Callable) (s : State n) (A R E : Type) :
    n ≤ 8 ∧
    (∀ k, k ≤ 7 → (specialisation k).isSome = true) ∧
    (M.default_construct this s).retype 0 =
      members_0.default_construct this (s.retype 0) ∧
    (M.construct env this f s).retype 0 = members_0.construct env this f (s.retype 0) ∧
    (M.move_construct this other s).retype 0 =
      members_0.move_construct this other (s.retype 0) ∧
    (M.assign env this addr_f f s).retype 0 =
      members_0.assign env this addr_f f (s.retype 0) ∧
    (M.move_assign env this other s).retype 0 =
      members_0.move_assign env this other (s.retype 0) ∧
    (M.swap this other s).retype 0 = members_0.swap this other (s.retype 0) ∧
    M.empty this s = members_0.empty this (s.retype 0) ∧
    (M.reset env this s).retype 0 = members_0.reset env this (s.retype 0) ∧
    (M.destroy env this s).retype 0 = members_0.destroy env this (s.retype 0) ∧
    (∀ (I : Invoker 0 A R E) (t : State 0),
      operator_call_0 I this t = call I this [] t) ∧
    (∀ (I : Invoker 1 A R E) (a0 : A) (t : State 1),
      operator_call_1 I this a0 t = call I this [a0] t) ∧
    (∀ (I : Invoker 2 A R E) (a0 a1 : A) (t : State 2),
      operator_call_2 I this a0 a1 t = call I this [a0, a1] t) ∧
    (∀ (I : Invoker 3 A R E) (a0 a1 a2 : A) (t : State 3),
      operator_call_3 I this a0 a1 a2 t = call I this [a0, a1, a2] t) ∧
    (∀ (I : Invoker 4 A R E) (a0 a1 a2 a3 : A) (t : State 4),
      operator_call_4 I this a0 a1 a2 a3 t = call I this [a0, a1, a2, a3] t) ∧
    (∀ (I : Invoker 5 A R E) (a0 a1 a2 a3 a4 : A) (t : State 5),
      operator_call_5 I this a0 a1 a2 a3 a4 t = call I this [a0, a1, a2, a3, a4] t) ∧
    (∀ (I : Invoker 6 A R E) (a0 a1 a2 a3 a4 a5 : A) (t : State 6),
      operator_call_6 I this a0 a1 a2 a3 a4 a5 t = call I this [a0, a1, a2, a3, a4, a5] t) ∧
    (∀ (I : Invoker 7 A R E) (a0 a1 a2 a3 a4 a5 a6 : A) (t : State 7),
      operator_call_7 I this a0 a1 a2 a3 a4 a5 a6 t = call I this [a0, a1, a2, a3, a4, a5, a6] t) ∧
    (∀ (I : Invoker 8 A R E) (a0 a1 a2 a3 a4 a5 a6 a7 : A) (t : State 8),
      operator_call_8 I this a0 a1 a2 a3 a4 a5 a6 a7 t = call I this [a0, a1, a2, a3, a4, a5, a6, a7] t) := by
  have hn : n ≤ 8 := (specialisation_defined n).1 (by rw [h]; rfl)
  refine ⟨hn, ?_, ?_⟩
  · intro k hk
    exact (specialisation_defined k).2 (by omega)
  · have hc := specialisation_agrees_with_nullary n M h env this other addr_f f s
    have ho := operator_calls_share_body A R E this
    obtain ⟨c1, c2, c3, c4, c5, c6, c7, c8, c9⟩ := hc
    exact ⟨c1, c2, c3, c4, c5, c6, c7, c8, c9, ho⟩

theorem specialisations_agree_witness :
    specialisation 3 = some members_3 ∧
    (members_3.assign env64 0 9 ⟨2, 78⟩ (members_3.construct env64 0 ⟨2, 77⟩ (state0 3))).retype 0 =
      members_0.assign env64 0 9 ⟨2, 78⟩
        ((members_3.construct env64 0 ⟨2, 77⟩ (state0 3)).retype 0) :=
  ⟨rfl,
    (specialisations_agree 3 members_3 rfl env64 0 1 9 ⟨2, 78⟩
      (members_3.construct env64 0 ⟨2, 77⟩ (state0 3)) Nat Nat String).2.2.2.2.2.1⟩

end detail
end util

/-! ## Theorems: what the adapters do with the caller's function -/

namespace applier

open threads util util.detail

/-- C32: failure with no bound applier does not consume the work.  When no
applier is bound, each adapter returns with the caller's closure (or
`thread_init_data`) exactly as it was passed, same table and same slot: it
has not been moved from, and as no thread manager was called nothing can
run or destroy it. -/
theorem unbound_keeps_function (W : Collaborators) (rt : Runtime)
    (h : get_applier_ptr rt = Option.none)
    (f0 : unique_function_base 0) (f1 : unique_function_base 1) (data : thread_init_data)
    (desc : thread_description) (lva : Nat) (state : thread_state_enum) (run_now : Bool)
    (priority : thread_priority) (os_thread : Nat) (stacksize : thread_stacksize)
    (ec : error_code) :
    ((register_thread_nullary W f0 desc state run_now priority os_thread stacksize ec rt).func = f0 ∧
      (register_thread_nullary W f0 desc state run_now priority os_thread stacksize ec rt).rt.tm_calls = rt.tm_calls) ∧
    ((register_thread W f1 desc state run_now priority os_thread stacksize ec rt).func = f1 ∧
      (register_thread W f1 desc state run_now priority os_thread stacksize ec rt).rt.tm_calls = rt.tm_calls) ∧
    ((register_thread_plain W f1 desc state run_now priority os_thread stacksize ec rt).func = f1 ∧
      (register_thread_plain W f1 desc state run_now priority os_thread stacksize ec rt).rt.tm_calls = rt.tm_calls) ∧
    ((register_thread_plain_data W data state run_now ec rt).func = data ∧
      (register_thread_plain_data W data state run_now ec rt).rt.tm_calls = rt.tm_calls) ∧
    ((register_work_nullary W f0 desc state priority os_thread stacksize ec rt).func = f0 ∧
      (register_work_nullary W f0 desc state priority os_thread stacksize ec rt).rt.tm_calls = rt.tm_calls) ∧
    ((register_work W f1 desc state priority os_thread stacksize ec rt).func = f1 ∧
      (register_work W f1 desc state priority os_thread stacksize ec rt).rt.tm_calls = rt.tm_calls) ∧
    ((register_work_plain W f1 desc lva state priority os_thread stacksize ec rt).func = f1 ∧
      (register_work_plain W f1 desc lva state priority os_thread stacksize ec rt).rt.tm_calls = rt.tm_calls) ∧
    ((register_work_plain_data W data state ec rt).func = data ∧
      (register_work_plain_data W data state ec rt).rt.tm_calls = rt.tm_calls) := by
  simp [register_thread_nullary, register_thread, register_thread_plain,
    register_thread_plain_data, register_work_nullary, register_work, register_work_plain,
    register_work_plain_data, h]

theorem unbound_keeps_function_witness :
    get_applier_ptr rt0 = Option.none ∧
    (register_thread_nullary W0 ⟨vtable_ptr.table 2, 1⟩ thread_description.none 0 true 1 0 2 ec0
      rt0).func = ⟨vtable_ptr.table 2, 1⟩ ∧
    (register_thread_nullary W0 ⟨vtable_ptr.table 2, 1⟩ thread_description.none 0 true 1 0 2 ec0
      (applier.init_tss 7 rt0)).func = ⟨vtable_ptr.empty_table, 0⟩ :=
  ⟨by decide,
    (unbound_keeps_function W0 rt0 (by decide) ⟨vtable_ptr.table 2, 1⟩ ⟨vtable_ptr.table 0, 5⟩
      ⟨function.thread_function ⟨vtable_ptr.table 0, 5⟩, thread_description.none, 64, 1, 0, 8192⟩
      thread_description.none 64 0 true 1 0 2 ec0).1.1,
    by decide⟩

/-- C33, at the failing input: with an applier bound and an empty
description, `register_work_nullary` hands over a description built from
the callable with the fallback name "register_thread_nullary", which is not
its own name; the five other descriptor-building adapters, on the same
context, each use their own name. -/
theorem register_work_nullary_fallback_name :
    (register_work_nullary W0 ⟨vtable_ptr.table 0, 5⟩ thread_description.none 0 1 0 2 ec0
      (applier.init_tss 7 rt0)).rt.tm_calls =
      [tm_call.register_work 207
        ⟨function.bind_thread_function_nullary ⟨vtable_ptr.table 0, 5⟩,
          thread_description.function (function.nullary ⟨vtable_ptr.table 0, 5⟩)
            "register_thread_nullary", 0, 1, 0, 8192⟩ 0 ec0] ∧
    (register_work W0 ⟨vtable_ptr.table 0, 5⟩ thread_description.none 0 1 0 2 ec0
      (applier.init_tss 7 rt0)).rt.tm_calls =
      [tm_call.register_work 207
        ⟨function.bind_thread_function ⟨vtable_ptr.table 0, 5⟩,
          thread_description.function (function.unary ⟨vtable_ptr.table 0, 5⟩)
            "register_work", 0, 1, 0, 8192⟩ 0 ec0] ∧
    (register_work_plain W0 ⟨vtable_ptr.table 0, 5⟩ thread_description.none 0 0 1 0 2 ec0
      (applier.init_tss 7 rt0)).rt.tm_calls =
      [tm_call.register_work 207
        ⟨function.thread_function ⟨vtable_ptr.table 0, 5⟩,
          thread_description.function (function.thread_function ⟨vtable_ptr.table 0, 5⟩)
            "register_work_plain", 0, 1, 0, 8192⟩ 0 ec0] ∧
    (register_thread_nullary W0 ⟨vtable_ptr.table 0, 5⟩ thread_description.none 0 true 1 0 2
      ec0 (applier.init_tss 7 rt0)).rt.tm_calls =
      [tm_call.register_thread 207
        ⟨function.bind_thread_function_nullary ⟨vtable_ptr.table 0, 5⟩,
          thread_description.function (function.nullary ⟨vtable_ptr.table 0, 5⟩)
            "register_thread_nullary", 0, 1, 0, 8192⟩
        thread_id_type.invalid_thread_id 0 true ec0] ∧
    (register_thread W0 ⟨vtable_ptr.table 0, 5⟩ thread_description.none 0 true 1 0 2
      ec0 (applier.init_tss 7 rt0)).rt.tm_calls =
      [tm_call.register_thread 207
        ⟨function.bind_thread_function ⟨vtable_ptr.table 0, 5⟩,
          thread_description.function (function.unary ⟨vtable_ptr.table 0, 5⟩)
            "register_thread", 0, 1, 0, 8192⟩
        thread_id_type.invalid_thread_id 0 true ec0] ∧
    (register_thread_plain W0 ⟨vtable_ptr.table 0, 5⟩ thread_description.none 0 true 1 0 2
      ec0 (applier.init_tss 7 rt0)).rt.tm_calls =
      [tm_call.register_thread 207
        ⟨function.thread_function ⟨vtable_ptr.table 0, 5⟩,
          thread_description.function (function.thread_function ⟨vtable_ptr.table 0, 5⟩)
            "register_thread_plain", 0, 1, 0, 8192⟩
        thread_id_type.invalid_thread_id 0 true ec0] := by
  decide

/-- C34: the plain adapters do not wrap.  With an applier bound,
`register_thread_plain` and `register_work_plain` hand over the caller's
thread function itself and the `thread_init_data` overloads hand over the
caller's descriptor itself.  Running the registered function with an
argument calls the caller's function once with that argument and nothing
else, so no lock-leak check is made, and gives back the function's own
result, or its failure. -/
theorem plain_adapters_do_not_wrap {E : Type} (W : Collaborators) (R : Runner E)
    (rt : Runtime) (app : Nat) (h : get_applier_ptr rt = some app)
    (f1 : unique_function_base 1) (data : thread_init_data)
    (desc : thread_description) (lva : Nat) (state : thread_state_enum) (run_now : Bool)
    (priority : thread_priority) (os_thread : Nat) (stacksize : thread_stacksize)
    (ec : error_code) (arg : thread_state_ex_enum) (x : Execution) :
    (∃ d : thread_init_data,
      (register_thread_plain W f1 desc state run_now priority os_thread stacksize ec rt).rt.tm_calls =
        rt.tm_calls ++ [tm_call.register_thread (rt.appliers app).thread_manager_ d thread_id_type.invalid_thread_id state run_now ec] ∧
      d.func = function.thread_function f1) ∧
    (∃ d : thread_init_data,
      (register_work_plain W f1 desc lva state priority os_thread stacksize ec rt).rt.tm_calls =
        rt.tm_calls ++ [tm_call.register_work (rt.appliers app).thread_manager_ d state ec] ∧
      d.func = function.thread_function f1) ∧
    (register_thread_plain_data W data state run_now ec rt).rt.tm_calls =
      rt.tm_calls ++ [tm_call.register_thread (rt.appliers app).thread_manager_ data thread_id_type.invalid_thread_id state run_now ec] ∧
    (register_work_plain_data W data state ec rt).rt.tm_calls =
      rt.tm_calls ++ [tm_call.register_work (rt.appliers app).thread_manager_ data state ec] ∧
    (∀ r, R.call_thread_function f1 arg x.locks = Except.ok r →
      ∃ y : Execution, run R (function.thread_function f1) arg x = some (Except.ok r.1, y) ∧
        y.events = x.events ++ [run_event.call_thread_function f1 arg] ∧ y.locks = r.2) ∧
    (∀ e, R.call_thread_function f1 arg x.locks = Except.error e →
      ∃ y : Execution, run R (function.thread_function f1) arg x = some (Except.error e, y) ∧
        y.events = x.events ++ [run_event.call_thread_function f1 arg]) := by
  refine ⟨?_, ?_, ?_, ?_, ?_, ?_⟩
  · simp only [register_thread_plain, h, Runtime.register_thread, applier.get_thread_manager]
    exact ⟨_, rfl, rfl⟩
  · simp only [register_work_plain, h, Runtime.register_work, applier.get_thread_manager]
    exact ⟨_, rfl, rfl⟩
  · simp only [register_thread_plain_data, h, Runtime.register_thread,
      applier.get_thread_manager]
  · simp only [register_work_plain_data, h, Runtime.register_work, applier.get_thread_manager]
  · intro r hr
    simp only [run, hr]
    exact ⟨_, rfl, rfl, rfl⟩
  · intro e he
    simp only [run, he]
    exact ⟨_, rfl, rfl⟩

theorem plain_adapters_do_not_wrap_witness :
    get_applier_ptr (applier.init_tss 7 rt0) = some 7 ∧
    R0.call_thread_function ⟨vtable_ptr.table 0, 7⟩ (thread_state_ex_enum.other 3) x0.locks =
      Except.ok (⟨3, some 11⟩, 0) ∧
    ∃ y : Execution,
      run R0 (function.thread_function ⟨vtable_ptr.table 0, 7⟩) (thread_state_ex_enum.other 3)
        x0 = some (Except.ok ⟨3, some 11⟩, y) ∧
      y.events = [run_event.call_thread_function ⟨vtable_ptr.table 0, 7⟩
        (thread_state_ex_enum.other 3)] ∧ y.locks = 0 :=
  ⟨by decide, rfl,
    (plain_adapters_do_not_wrap W0 R0 (applier.init_tss 7 rt0) 7 (by decide)
      ⟨vtable_ptr.table 0, 7⟩
      ⟨function.thread_function ⟨vtable_ptr.table 0, 5⟩, thread_description.none, 64, 1, 0, 8192⟩
      thread_description.none 64 0 true 1 0 2 ec0 (thread_state_ex_enum.other 3) x0).2.2.2.2.1
      (⟨3, some 11⟩, 0) rfl⟩

end applier
end hpx
